import Mathlib

/-!
# Proxy dispatch core of `js/src/jsproxy.cpp`: a shallow embedding

The development follows `src/js/src/jsproxy.cpp`.  C++ functions that return
`bool` and write their result through an out-parameter become functions into
`Except Error _`; the out-parameter is the success value.

Modelling decisions, all of them stated where they are used:

* The target wrapped by a proxy is a native (non-proxy) object, given by its own
  property table, its extensible flag and the objects on its prototype chain.
  Property lookups on such an object cannot fail, so helpers whose only failure
  exits propagate a failed lookup (`IsSealed`, `HasOwn`, `ValidateProperty`)
  are total functions.
* Object pointers held in a `PropertyDescriptor` are positions relative to the
  proxy at hand (`ObjRef`): the proxy, the target, or an object further up the
  target's prototype chain.
* Script is modelled by what it answers: the value stored under a trap name of
  the handler object is absent, or a function of the trap's arguments that
  throws or returns.  Traps do not mutate the target; the target given to an
  operation is the state the handler code inspects.  The descriptor object handed
  to the `defineProperty` trap is read again after the call, so this trap answers
  with the content of that object afterwards as well.
* Numbers are integers; `SameValue` is identity on the modelled values.
* An operation that fills a key vector takes the content of the vector on entry
  and returns its content on success.  An operation of the direct handler that
  changes the target (`delete_`, `set`) returns the target afterwards next to
  its result; the scripted operations return the target they inspected.
* A handler is known by what its virtual methods answer.  An entry point of the
  dispatcher returns, next to how it ends, the methods of the handler it
  entered, in order (`Entered`); `BaseProxyHandler::set` returns the calls it
  makes beyond its lookups (`SetOutcome`).
* The prototype a handler reports is a native object; allocation does not fail.
* A `JS_ASSERT` is left out of the embedded function; `ValidateProperty.asserted`
  is `ValidateProperty` with its assertions checked in place.
-/

namespace js

/-! ## Values, ids, property attributes -/

/-- Modelled from the spec: the `Value` type of the host value representation,
not among the sources.  An object is known by its reference and by whether it
is callable; numbers are integers. -/
inductive Value where
  | undefined
  | null
  | bool (b : Bool)
  | number (n : Int)
  | string (s : String)
  | object (ref : Nat) (callable : Bool)
  deriving DecidableEq, Repr

/-- Modelled from the spec: `Value::isUndefined` of the host value
representation, not among the sources. -/
def Value.isUndefined : Value → Bool
  | .undefined => true
  | _ => false

/-- Modelled from the spec: the `ToBoolean` conversion of the host value
representation, not among the sources: the truthiness of a trap result. -/
def ToBoolean : Value → Bool
  | .undefined => false
  | .null => false
  | .bool b => b
  | .number n => n != 0
  | .string s => s != ""
  | .object _ _ => true

/-- Modelled from the spec: `js_IsCallable` of the host object system, not among
the sources. -/
def js_IsCallable : Value → Bool
  | .object _ c => c
  | _ => false

/-- Modelled from the spec: `SameValue(cx, v1, v2, &same)`, not among the
sources; the inbound `NativeSameValue(a,b)`, identity-level equality, not
coercive. -/
def SameValue (v1 v2 : Value) : Bool := decide (v1 = v2)

/-- Modelled from the spec: the property key type `jsid`, not among the sources:
an integer index or an interned string; `void` is `JSID_VOID`, the id of an
operation that concerns no single key. -/
inductive jsid where
  | int (i : Int)
  | atom (s : String)
  | void
  deriving DecidableEq, Repr

/-- The static `IdToValue(cx, id, value)`: the key converted to a string value. -/
def IdToValue : jsid → Value
  | .int i => .string (toString i)
  | .atom s => .string s
  | .void => .string "undefined"

/-- A getter or setter slot of a property: `NULL`, a native operation such as
`JS_PropertyStub`, or a script object cast to the operation type. -/
inductive PropertyOp where
  | null
  | native (fn : Nat)
  | object (ref : Nat) (callable : Bool)
  deriving DecidableEq, Repr

/-- Modelled from the spec: the attribute bits of `jsapi.h`, which is not among
the sources; the spec names them enumerable, writable (read-only) and
configurable (permanent), plus the getter, setter and shared markers. -/
def JSPROP_ENUMERATE : Nat := 0x01
/-- Modelled from the spec: read-only bit of `jsapi.h` (not writable). -/
def JSPROP_READONLY : Nat := 0x02
/-- Modelled from the spec: permanent bit of `jsapi.h` (not configurable). -/
def JSPROP_PERMANENT : Nat := 0x04
/-- Modelled from the spec: the property has a script getter (`jsapi.h`). -/
def JSPROP_GETTER : Nat := 0x10
/-- Modelled from the spec: the property has a script setter (`jsapi.h`). -/
def JSPROP_SETTER : Nat := 0x20
/-- Modelled from the spec: the property has no value slot (`jsapi.h`). -/
def JSPROP_SHARED : Nat := 0x40

/-- The C++ test `attrs & mask` used as a condition. -/
def hasAttr (attrs mask : Nat) : Bool := (attrs &&& mask) != 0

/-- The C++ update `attrs |= mask`. -/
def setAttr (attrs mask : Nat) : Nat := attrs ||| mask

/-- The C++ update `attrs &= ~mask` on the eight-bit attribute field. -/
def clearAttr (attrs mask : Nat) : Nat := attrs &&& (0xFF ^^^ mask)

/-- An object the descriptor code may point at, relative to the proxy at hand. -/
inductive ObjRef where
  | proxy
  | target (depth : Nat)
  | other (ref : Nat)
  deriving DecidableEq, Repr

/-- The `PropertyDescriptor` (`JSPropertyDescriptor`) record; `obj = none` is the
`NULL` holder that marks an absent property. -/
structure PropertyDescriptor where
  obj : Option ObjRef
  attrs : Nat
  getter : PropertyOp
  setter : PropertyOp
  value : Value
  shortid : Nat
  deriving DecidableEq, Repr

/-- `IsDataDescriptor(const PropertyDescriptor &)`. -/
def IsDataDescriptor (desc : PropertyDescriptor) : Bool :=
  desc.obj.isSome && !hasAttr desc.attrs (JSPROP_GETTER ||| JSPROP_SETTER)

/-- `IsAccessorDescriptor(const PropertyDescriptor &)`. -/
def IsAccessorDescriptor (desc : PropertyDescriptor) : Bool :=
  desc.obj.isSome && hasAttr desc.attrs (JSPROP_GETTER ||| JSPROP_SETTER)

/-! ## Native objects -/

/-- A property as a native object stores it. -/
structure Shape where
  attrs : Nat
  getter : PropertyOp
  setter : PropertyOp
  value : Value
  deriving DecidableEq, Repr

/-- One native object: own properties in definition order and the extensible
flag. -/
structure ObjectData where
  props : List (jsid × Shape)
  extensible : Bool
  deriving DecidableEq, Repr

/-- A native object together with the objects on its prototype chain, nearest
first. -/
structure JSObject where
  own : ObjectData
  protos : List ObjectData
  deriving DecidableEq, Repr

/-- Modelled from the spec: `JSObject::isExtensible`, not among the sources; the
inbound `NativeIsExtensible()`. -/
def JSObject.isExtensible (obj : JSObject) : Bool := obj.own.extensible

/-- The descriptor written when a lookup finds nothing. -/
def PropertyDescriptor.notFound : PropertyDescriptor :=
  ⟨none, 0, .null, .null, .undefined, 0⟩

/-- Search of a prototype chain from position `depth` on. -/
def lookupChain (id : jsid) : List ObjectData → Nat → PropertyDescriptor
  | [], _ => PropertyDescriptor.notFound
  | o :: rest, depth =>
    match o.props.lookup id with
    | some s => ⟨some (.target depth), s.attrs, s.getter, s.setter, s.value, 0⟩
    | none => lookupChain id rest (depth + 1)

/-- Modelled from the spec: `JS_GetPropertyDescriptorById` of `jsapi.cpp`, not
among the sources; it is the inbound `NativeLookup(id) -> descriptor|absent`
applied along the prototype chain, the holder being reported in `obj`. -/
def JS_GetPropertyDescriptorById (obj : JSObject) (id : jsid) (_flags : Nat) :
    PropertyDescriptor :=
  lookupChain id (obj.own :: obj.protos) 0

/-- Modelled from the spec: `JS_HasPropertyById` of `jsapi.cpp`, not among the
sources: the property is found on the object or on its prototype chain. -/
def JS_HasPropertyById (obj : JSObject) (id : jsid) : Bool :=
  (JS_GetPropertyDescriptorById obj id 0).obj.isSome

/-- The static `GetOwnPropertyDescriptor(cx, obj, id, flags, desc)` for a native
object (the `obj->isProxy()` branch does not apply to a native target). -/
def GetOwnPropertyDescriptor (obj : JSObject) (id : jsid) (flags : Nat) :
    PropertyDescriptor :=
  let desc := JS_GetPropertyDescriptorById obj id flags
  if desc.obj != some (.target 0) then { desc with obj := none } else desc

/-- Modelled from the spec: the four-argument `js::GetOwnPropertyDescriptor` of
`jsobj.cpp`, not among the sources: `NativeLookup` restricted to the own
properties; the accessor slots are reported for accessor properties and the
stored value for data properties. -/
def jsobj.GetOwnPropertyDescriptor (obj : JSObject) (id : jsid) : PropertyDescriptor :=
  match obj.own.props.lookup id with
  | none => PropertyDescriptor.notFound
  | some s =>
    if hasAttr s.attrs (JSPROP_GETTER ||| JSPROP_SETTER) then
      ⟨some (.target 0), s.attrs,
        if hasAttr s.attrs JSPROP_GETTER then s.getter else .null,
        if hasAttr s.attrs JSPROP_SETTER then s.setter else .null,
        .undefined, 0⟩
    else
      ⟨some (.target 0), s.attrs, .null, .null, s.value, 0⟩

/-! ## `PropDesc` -/

/-- Modelled from the spec: the `PropDesc` class of `vm/ObjectImpl.h`, not among
the sources: a reported descriptor that records which of value, writable, get,
set, enumerable and configurable it specifies. -/
structure PropDesc where
  value_ : Value
  get_ : Value
  set_ : Value
  attrs : Nat
  hasGet_ : Bool
  hasSet_ : Bool
  hasValue_ : Bool
  hasWritable_ : Bool
  hasEnumerable_ : Bool
  hasConfigurable_ : Bool
  isUndefined_ : Bool
  deriving DecidableEq, Repr

namespace PropDesc

/-- Modelled from the spec: `PropDesc::isUndefined` (`vm/ObjectImpl.h`). -/
def isUndefined (d : PropDesc) : Bool := d.isUndefined_
/-- Modelled from the spec: `PropDesc::hasGet` (`vm/ObjectImpl.h`). -/
def hasGet (d : PropDesc) : Bool := d.hasGet_
/-- Modelled from the spec: `PropDesc::hasSet` (`vm/ObjectImpl.h`). -/
def hasSet (d : PropDesc) : Bool := d.hasSet_
/-- Modelled from the spec: `PropDesc::hasValue` (`vm/ObjectImpl.h`). -/
def hasValue (d : PropDesc) : Bool := d.hasValue_
/-- Modelled from the spec: `PropDesc::hasWritable` (`vm/ObjectImpl.h`). -/
def hasWritable (d : PropDesc) : Bool := d.hasWritable_
/-- Modelled from the spec: `PropDesc::hasEnumerable` (`vm/ObjectImpl.h`). -/
def hasEnumerable (d : PropDesc) : Bool := d.hasEnumerable_
/-- Modelled from the spec: `PropDesc::hasConfigurable` (`vm/ObjectImpl.h`). -/
def hasConfigurable (d : PropDesc) : Bool := d.hasConfigurable_
/-- Modelled from the spec: `PropDesc::attributes` (`vm/ObjectImpl.h`). -/
def attributes (d : PropDesc) : Nat := d.attrs
/-- Modelled from the spec: `PropDesc::value` (`vm/ObjectImpl.h`). -/
def value (d : PropDesc) : Value := d.value_

/-- Modelled from the spec: `PropDesc::configurable` (`vm/ObjectImpl.h`):
configurable is not permanent. -/
def configurable (d : PropDesc) : Bool := (d.attrs &&& JSPROP_PERMANENT) == 0
/-- Modelled from the spec: `PropDesc::enumerable` (`vm/ObjectImpl.h`). -/
def enumerable (d : PropDesc) : Bool := (d.attrs &&& JSPROP_ENUMERATE) != 0
/-- Modelled from the spec: `PropDesc::writable` (`vm/ObjectImpl.h`): writable is
not read-only. -/
def writable (d : PropDesc) : Bool := (d.attrs &&& JSPROP_READONLY) == 0

/-- Modelled from the spec: `CastAsPropertyOp(getterObject())` of
`vm/ObjectImpl.h`: the operation pointer of an accessor value, `NULL` for
undefined, the object otherwise. -/
def opOfValue : Value → PropertyOp
  | .object r c => .object r c
  | _ => .null

/-- Modelled from the spec: `PropDesc::getter` (`vm/ObjectImpl.h`). -/
def getter (d : PropDesc) : PropertyOp := opOfValue d.get_
/-- Modelled from the spec: `PropDesc::setter` (`vm/ObjectImpl.h`). -/
def setter (d : PropDesc) : PropertyOp := opOfValue d.set_

/-- Modelled from the spec: `PropDesc::isAccessorDescriptor` (`vm/ObjectImpl.h`):
the descriptor specifies a getter or a setter. -/
def isAccessorDescriptor (d : PropDesc) : Bool :=
  !d.isUndefined && (d.hasGet || d.hasSet)
/-- Modelled from the spec: `PropDesc::isDataDescriptor` (`vm/ObjectImpl.h`): the
descriptor specifies a value or the writable attribute. -/
def isDataDescriptor (d : PropDesc) : Bool :=
  !d.isUndefined && (d.hasValue || d.hasWritable)
/-- Modelled from the spec: `PropDesc::isGenericDescriptor` (`vm/ObjectImpl.h`):
neither an accessor nor a data descriptor. -/
def isGenericDescriptor (d : PropDesc) : Bool :=
  !d.isUndefined && !d.isAccessorDescriptor && !d.isDataDescriptor

end PropDesc

/-! ## `ValidateProperty` -/

/-- The condition of step 6 of `ValidateProperty`: every attribute the
descriptor specifies, other than the value, equals the current one. -/
def ValidateProperty.step6 (current : PropertyDescriptor) (desc : PropDesc) : Bool :=
  (!desc.hasWritable || desc.writable == !hasAttr current.attrs JSPROP_READONLY) &&
  (!desc.hasGet || desc.getter == current.getter) &&
  (!desc.hasSet || desc.setter == current.setter) &&
  (!desc.hasEnumerable || desc.enumerable == hasAttr current.attrs JSPROP_ENUMERATE) &&
  (!desc.hasConfigurable || desc.configurable == !hasAttr current.attrs JSPROP_PERMANENT)

/-- Aux.5 `ValidateProperty(O, P, Desc)`; the result is `*bp`.  Its precondition
(asserted in the source) is that the target has an own property at the key. -/
def ValidateProperty (obj : JSObject) (id : jsid) (desc : PropDesc) : Bool :=
  -- step 1
  let current := GetOwnPropertyDescriptor obj id 0
  -- step 5
  if !desc.hasValue && !desc.hasWritable && !desc.hasGet && !desc.hasSet &&
      !desc.hasEnumerable && !desc.hasConfigurable then
    true
  -- step 6
  else if ValidateProperty.step6 current desc &&
      (!desc.hasValue || SameValue desc.value current.value) then
    true
  -- step 7
  else if hasAttr current.attrs JSPROP_PERMANENT &&
      (desc.hasConfigurable && desc.configurable) then
    false
  else if hasAttr current.attrs JSPROP_PERMANENT &&
      (desc.hasEnumerable &&
        desc.enumerable != hasAttr current.attrs JSPROP_ENUMERATE) then
    false
  -- step 8
  else if desc.isGenericDescriptor then
    true
  -- step 9
  else if IsDataDescriptor current != desc.isDataDescriptor then
    !hasAttr current.attrs JSPROP_PERMANENT
  -- step 10
  else if IsDataDescriptor current then
    if hasAttr current.attrs JSPROP_PERMANENT && hasAttr current.attrs JSPROP_READONLY then
      if desc.hasWritable && desc.writable then
        false
      else if desc.hasValue && !SameValue desc.value current.value then
        false
      else
        true
    else
      true
  -- steps 11-12
  else
    !hasAttr current.attrs JSPROP_PERMANENT ||
      ((!desc.hasSet || desc.setter == current.setter) &&
        (!desc.hasGet || desc.getter == current.getter))

/-- The `JS_ASSERT`s of `ValidateProperty`, in source order: the current
descriptor is present (after step 1); the reported descriptor is a data
descriptor (step 10); the current descriptor is an accessor descriptor and the
reported descriptor is an accessor descriptor (steps 11-12). -/
inductive ValidateProperty.Assertion where
  | currentPresent
  | step10DescIsData
  | step11CurrentIsAccessor
  | step11DescIsAccessor
  deriving DecidableEq, Repr

/-- `ValidateProperty` with its `JS_ASSERT`s checked where the source has them: a
failed assertion ends the run with its name, otherwise the result is `*bp`. -/
def ValidateProperty.asserted (obj : JSObject) (id : jsid) (desc : PropDesc) :
    Except ValidateProperty.Assertion Bool :=
  -- step 1
  let current := GetOwnPropertyDescriptor obj id 0
  if !current.obj.isSome then
    .error .currentPresent
  -- step 5
  else if !desc.hasValue && !desc.hasWritable && !desc.hasGet && !desc.hasSet &&
      !desc.hasEnumerable && !desc.hasConfigurable then
    .ok true
  -- step 6
  else if ValidateProperty.step6 current desc &&
      (!desc.hasValue || SameValue desc.value current.value) then
    .ok true
  -- step 7
  else if hasAttr current.attrs JSPROP_PERMANENT &&
      (desc.hasConfigurable && desc.configurable) then
    .ok false
  else if hasAttr current.attrs JSPROP_PERMANENT &&
      (desc.hasEnumerable &&
        desc.enumerable != hasAttr current.attrs JSPROP_ENUMERATE) then
    .ok false
  -- step 8
  else if desc.isGenericDescriptor then
    .ok true
  -- step 9
  else if IsDataDescriptor current != desc.isDataDescriptor then
    .ok (!hasAttr current.attrs JSPROP_PERMANENT)
  -- step 10
  else if IsDataDescriptor current then
    if !desc.isDataDescriptor then
      .error .step10DescIsData
    else if hasAttr current.attrs JSPROP_PERMANENT && hasAttr current.attrs JSPROP_READONLY then
      if desc.hasWritable && desc.writable then
        .ok false
      else if desc.hasValue && !SameValue desc.value current.value then
        .ok false
      else
        .ok true
    else
      .ok true
  -- steps 11-12
  else if !IsAccessorDescriptor current then
    .error .step11CurrentIsAccessor
  else if !desc.isAccessorDescriptor then
    .error .step11DescIsAccessor
  else
    .ok (!hasAttr current.attrs JSPROP_PERMANENT ||
      ((!desc.hasSet || desc.setter == current.setter) &&
        (!desc.hasGet || desc.getter == current.getter)))

/-- Aux.6 `IsSealed(O, P)`; the result is `*bp`. -/
def IsSealed (obj : JSObject) (id : jsid) : Bool :=
  let desc := GetOwnPropertyDescriptor obj id 0
  desc.obj.isSome && hasAttr desc.attrs JSPROP_PERMANENT

/-- The static `HasOwn(cx, obj, id, bp)`; the result is `*bp`. -/
def HasOwn (obj : JSObject) (id : jsid) : Bool :=
  let desc := JS_GetPropertyDescriptorById obj id 0
  desc.obj == some (.target 0)

/-! ## Errors and script objects -/

/-- The error numbers reported by the scripted direct proxy code and by the
descriptor conversion. -/
inductive JSErrNum where
  | JSMSG_CANT_REPORT_NC_AS_NE
  | JSMSG_CANT_REPORT_E_AS_NE
  | JSMSG_CANT_REPORT_NEW
  | JSMSG_CANT_REPORT_INVALID
  | JSMSG_CANT_REPORT_NE_AS_NC
  | JSMSG_CANT_DEFINE_NEW
  | JSMSG_CANT_DEFINE_INVALID
  | JSMSG_CANT_DEFINE_NE_AS_NC
  | JSMSG_CANT_DELETE
  | JSMSG_CANT_SKIP_NC
  | JSMSG_CANT_SET_NW_NC
  | JSMSG_CANT_SET_WO_SETTER
  | JSMSG_MUST_REPORT_SAME_VALUE
  | JSMSG_MUST_REPORT_UNDEFINED
  | JSMSG_INVALID_TRAP_RESULT
  | JSMSG_NOT_NONNULL_OBJECT
  | JSMSG_BAD_GET_SET_FIELD
  | JSMSG_INVALID_DESCRIPTOR
  | JSMSG_GETTER_ONLY
  | JSMSG_READ_ONLY
  | JSMSG_OBJECT_NOT_EXTENSIBLE
  | JSMSG_CANT_REDEFINE_PROP
  | JSMSG_NOT_FUNCTION
  deriving DecidableEq, Repr

/-- Why an operation returned `false`: an error the code reported itself, or a
failure raised while running script (a throwing or non-callable trap, a failed
property read on the handler object). -/
inductive Error where
  | reported (n : JSErrNum)
  | thrown
  deriving DecidableEq, Repr

/-- The properties of a script object that the descriptor conversion reads;
`none` means the object has no such property. -/
structure DescriptorObject where
  enumerable : Option Value
  configurable : Option Value
  value : Option Value
  writable : Option Value
  get : Option Value
  set : Option Value
  deriving DecidableEq, Repr

/-- A value handed to the descriptor conversion: undefined, another primitive,
or an object. -/
inductive DescriptorValue where
  | undefined
  | primitive
  | object (o : DescriptorObject)
  deriving DecidableEq, Repr

/-- `Value::isUndefined` on a descriptor value. -/
def DescriptorValue.isUndefined : DescriptorValue → Bool
  | .undefined => true
  | _ => false

/-- A value handed to the key-list conversion: a primitive or an array object
with its elements. -/
inductive ArrayValue where
  | primitive
  | array (elems : List Value)
  deriving DecidableEq, Repr

/-- `Value::isPrimitive` on a value handed to the key-list conversion. -/
def ArrayValue.isPrimitive : ArrayValue → Bool
  | .primitive => true
  | .array _ => false

namespace PropDesc

/-- Modelled from the spec: the state set up by the constructor `PropDesc()`
(`jsobj.cpp`). -/
def undefined : PropDesc :=
  ⟨.undefined, .undefined, .undefined, 0, false, false, false, false, false, false, true⟩

/-- Modelled from the spec: `PropDesc::checkGetter` (`jsobj.cpp`): a specified
getter is callable or undefined. -/
def checkGetter (d : PropDesc) : Bool :=
  !(d.hasGet_ && (!js_IsCallable d.get_ && !d.get_.isUndefined))

/-- Modelled from the spec: `PropDesc::checkSetter` (`jsobj.cpp`): a specified
setter is callable or undefined. -/
def checkSetter (d : PropDesc) : Bool :=
  !(d.hasSet_ && (!js_IsCallable d.set_ && !d.set_.isUndefined))

/-- Modelled from the spec: step 3 of 8.10.5 in `PropDesc::initialize`
(`jsobj.cpp`): the `enumerable` property. -/
def readEnumerable (field : Option Value) (d : PropDesc) : PropDesc :=
  match field with
  | some v => { d with hasEnumerable_ := true,
                       attrs := if ToBoolean v then setAttr d.attrs JSPROP_ENUMERATE else d.attrs }
  | none => d

/-- Modelled from the spec: step 4 of 8.10.5 in `PropDesc::initialize`
(`jsobj.cpp`): the `configurable` property. -/
def readConfigurable (field : Option Value) (d : PropDesc) : PropDesc :=
  match field with
  | some v => { d with hasConfigurable_ := true,
                       attrs := if ToBoolean v then clearAttr d.attrs JSPROP_PERMANENT else d.attrs }
  | none => d

/-- Modelled from the spec: step 5 of 8.10.5 in `PropDesc::initialize`
(`jsobj.cpp`): the `value` property. -/
def readValue (field : Option Value) (d : PropDesc) : PropDesc :=
  match field with
  | some v => { d with hasValue_ := true, value_ := v }
  | none => d

/-- Modelled from the spec: step 6 of 8.10.5 in `PropDesc::initialize`
(`jsobj.cpp`): the `writable` property. -/
def readWritable (field : Option Value) (d : PropDesc) : PropDesc :=
  match field with
  | some v => { d with hasWritable_ := true,
                       attrs := if ToBoolean v then clearAttr d.attrs JSPROP_READONLY else d.attrs }
  | none => d

/-- Modelled from the spec: step 7 of 8.10.5 in `PropDesc::initialize`
(`jsobj.cpp`): the `get` property. -/
def readGet (field : Option Value) (d : PropDesc) : PropDesc :=
  match field with
  | some v => { d with hasGet_ := true, get_ := v,
                       attrs := clearAttr (setAttr d.attrs (JSPROP_GETTER ||| JSPROP_SHARED))
                                  JSPROP_READONLY }
  | none => d

/-- Modelled from the spec: step 8 of 8.10.5 in `PropDesc::initialize`
(`jsobj.cpp`): the `set` property. -/
def readSet (field : Option Value) (d : PropDesc) : PropDesc :=
  match field with
  | some v => { d with hasSet_ := true, set_ := v,
                       attrs := clearAttr (setAttr d.attrs (JSPROP_SETTER ||| JSPROP_SHARED))
                                  JSPROP_READONLY }
  | none => d

/-- Modelled from the spec: `PropDesc::initialize` of `jsobj.cpp`, not among the
sources: the conversion of a script object to a descriptor that records which
attributes the object specifies (8.10.5 ToPropertyDescriptor). -/
def initialize_ (v : DescriptorValue) (checkAccessors : Bool) : Except Error PropDesc :=
  match v with
  | .undefined => .error (.reported .JSMSG_NOT_NONNULL_OBJECT)
  | .primitive => .error (.reported .JSMSG_NOT_NONNULL_OBJECT)
  | .object desc =>
    let d : PropDesc :=
      { PropDesc.undefined with isUndefined_ := false, attrs := JSPROP_PERMANENT ||| JSPROP_READONLY }
    let d := readEnumerable desc.enumerable d
    let d := readConfigurable desc.configurable d
    let d := readValue desc.value d
    let d := readWritable desc.writable d
    let d := readGet desc.get d
    if checkAccessors && !d.checkGetter then
      .error (.reported .JSMSG_BAD_GET_SET_FIELD)
    else
      let d := readSet desc.set d
      if checkAccessors && !d.checkSetter then
        .error (.reported .JSMSG_BAD_GET_SET_FIELD)
      -- 8.10.5 step 9
      else if (d.hasGet || d.hasSet) && (d.hasValue || d.hasWritable) then
        .error (.reported .JSMSG_INVALID_DESCRIPTOR)
      else
        .ok d

/-- Modelled from the spec: first part of `PropDesc::complete` (`jsobj.cpp`): a
generic or data descriptor gets a value and a writable attribute, an accessor
descriptor a getter and a setter. -/
def completeKind (d : PropDesc) : PropDesc :=
  if d.isGenericDescriptor || d.isDataDescriptor then
    let d := if !d.hasValue_ then { d with hasValue_ := true, value_ := .undefined } else d
    if !d.hasWritable_ then
      { d with hasWritable_ := true, attrs := setAttr d.attrs JSPROP_READONLY }
    else d
  else
    let d := if !d.hasGet_ then { d with hasGet_ := true, get_ := .undefined } else d
    if !d.hasSet_ then { d with hasSet_ := true, set_ := .undefined } else d

/-- Modelled from the spec: second part of `PropDesc::complete` (`jsobj.cpp`):
the enumerable attribute. -/
def completeEnumerable (d : PropDesc) : PropDesc :=
  if !d.hasEnumerable_ then
    { d with hasEnumerable_ := true, attrs := clearAttr d.attrs JSPROP_ENUMERATE }
  else d

/-- Modelled from the spec: third part of `PropDesc::complete` (`jsobj.cpp`): the
configurable attribute. -/
def completeConfigurable (d : PropDesc) : PropDesc :=
  if !d.hasConfigurable_ then
    { d with hasConfigurable_ := true, attrs := setAttr d.attrs JSPROP_PERMANENT }
  else d

/-- Modelled from the spec: `PropDesc::complete` of `jsobj.cpp`, not among the
sources: every attribute the descriptor leaves out gets its default. -/
def complete (d : PropDesc) : PropDesc :=
  completeConfigurable (completeEnumerable (completeKind d))

/-- Modelled from the spec: `CastAsObjectJsval` (`jsobj.h`): the value of an
operation pointer that holds a script object. -/
def valueOfOp : PropertyOp → Value
  | .object r c => .object r c
  | _ => .undefined

/-- Modelled from the spec: `PropDesc::initFromPropertyDescriptor` of
`jsobj.cpp`, not among the sources: the descriptor that specifies the state of
a present property (8.10.4 FromPropertyDescriptor). -/
def initFromPropertyDescriptor (desc : PropertyDescriptor) : PropDesc :=
  if hasAttr desc.attrs (JSPROP_GETTER ||| JSPROP_SETTER) then
    { value_ := .undefined,
      get_ := if hasAttr desc.attrs JSPROP_GETTER && desc.getter != .null
              then valueOfOp desc.getter else .undefined,
      set_ := if hasAttr desc.attrs JSPROP_SETTER && desc.setter != .null
              then valueOfOp desc.setter else .undefined,
      attrs := desc.attrs % 256,
      hasGet_ := true, hasSet_ := true, hasValue_ := false, hasWritable_ := false,
      hasEnumerable_ := true, hasConfigurable_ := true, isUndefined_ := false }
  else
    { value_ := desc.value, get_ := .undefined, set_ := .undefined,
      attrs := desc.attrs % 256,
      hasGet_ := false, hasSet_ := false, hasValue_ := true, hasWritable_ := true,
      hasEnumerable_ := true, hasConfigurable_ := true, isUndefined_ := false }

/-- Modelled from the spec: `PropDesc::makeObject` of `jsobj.cpp`, not among the
sources: the script object `pd()` holding exactly the specified attributes. -/
def makeObject (d : PropDesc) : DescriptorObject :=
  { enumerable := if d.hasEnumerable then some (.bool ((d.attrs &&& JSPROP_ENUMERATE) != 0)) else none,
    configurable := if d.hasConfigurable then some (.bool ((d.attrs &&& JSPROP_PERMANENT) == 0)) else none,
    value := if d.hasValue then some d.value else none,
    writable := if d.hasWritable then some (.bool ((d.attrs &&& JSPROP_READONLY) == 0)) else none,
    get := if d.hasGet then some d.get_ else none,
    set := if d.hasSet then some d.set_ else none }

end PropDesc

/-- Aux.2 `FromGenericPropertyDescriptor(Desc)`; the result is `rval`. -/
def FromGenericPropertyDescriptor (desc : PropDesc) : Except Error DescriptorValue :=
  -- Aux.2 step 1
  if desc.isUndefined then
    .ok .undefined
  -- steps 3-9
  else
    .ok (.object desc.makeObject)

/-- Aux.3 `NormalizePropertyDescriptor(Attributes)`, shared with Aux.4 through
`complete`; the result is the new content of `vp`.  The closing loop copies the
properties other than the six standard ones, which a `DescriptorObject` does
not carry. -/
def NormalizePropertyDescriptor (vp : DescriptorValue) (complete : Bool) :
    Except Error DescriptorValue :=
  -- Aux.4 step 1
  if complete && vp.isUndefined then
    .ok vp
  else
    -- Aux.3 steps 1-2 / Aux.4 steps 2-3
    match PropDesc.initialize_ vp true with
    | .error e => .error e
    | .ok desc =>
      let desc := if complete then desc.complete else desc
      -- Aux.3 step 3 / Aux.4 step 4
      FromGenericPropertyDescriptor desc

/-- Aux.4 `NormalizeAndCompletePropertyDescriptor(Attributes)`. -/
def NormalizeAndCompletePropertyDescriptor (vp : DescriptorValue) :
    Except Error DescriptorValue :=
  NormalizePropertyDescriptor vp true

/-- Modelled from the spec: `NewPropertyDescriptorObject` of `jsobj.cpp`, not
among the sources: undefined for an absent property, else the script object
that describes it. -/
def NewPropertyDescriptorObject (desc : PropertyDescriptor) : Except Error DescriptorValue :=
  if desc.obj.isNone then
    .ok .undefined
  else
    .ok (.object (PropDesc.initFromPropertyDescriptor desc).makeObject)

/-- The static `ParsePropertyDescriptorObject(cx, obj, v, desc, complete)`; the
result is `*desc`. -/
def ParsePropertyDescriptorObject (obj : ObjRef) (v : DescriptorValue) (complete : Bool) :
    Except Error PropertyDescriptor :=
  match PropDesc.initialize_ v true with
  | .error e => .error e
  | .ok d =>
    let d := if complete then d.complete else d
    .ok { obj := some obj,
          value := if d.hasValue then d.value else .undefined,
          attrs := d.attributes,
          getter := d.getter,
          setter := d.setter,
          shortid := 0 }

/-- What is stored under a trap name of the handler object: the property read
fails, the value is undefined, or it is some other value, in which case `Invoke`
on the trap's arguments fails (`none`: the value is not callable or the call
throws) or returns a result. -/
inductive TrapSlot (α ρ : Type) where
  | getFailed
  | undefined
  | value (invoke : α → Option ρ)

/-- The handler object of a scripted direct proxy, by trap name.  The argument
tuples are the `argv` arrays of the source: the target first, then the key as a
string value, then the rest.  The `defineProperty` trap is handed a descriptor
object that the code reads again once the trap has returned: next to its result
it answers the content of that object after the call. -/
structure HandlerObject where
  getOwnPropertyDescriptor : TrapSlot (JSObject × Value) DescriptorValue
  defineProperty : TrapSlot (JSObject × Value × DescriptorValue) (Value × DescriptorValue)
  getOwnPropertyNames : TrapSlot JSObject ArrayValue
  deleteProperty : TrapSlot (JSObject × Value) Value
  enumerate : TrapSlot JSObject ArrayValue
  has : TrapSlot (JSObject × Value) Value
  hasOwn : TrapSlot (JSObject × Value) Value
  get : TrapSlot (JSObject × Value × ObjRef) Value
  set : TrapSlot (JSObject × Value × Value × ObjRef) Value
  keys : TrapSlot JSObject ArrayValue

/-- A handler object that defines no trap. -/
def HandlerObject.empty : HandlerObject :=
  ⟨.undefined, .undefined, .undefined, .undefined, .undefined,
   .undefined, .undefined, .undefined, .undefined, .undefined⟩

/-- A scripted direct proxy: the target in its private slot, the handler object
in its first extra slot, its own prototype, and whether its class is the
function proxy class. -/
structure ProxyObject where
  target : JSObject
  handler : HandlerObject
  proto : Option JSObject
  isFunction : Bool

/-- Modelled from the spec: `GetProxyTargetObject` of `jsproxy.h`, not among the
sources: the wrapped target held in the private slot. -/
def GetProxyTargetObject (proxy : ProxyObject) : JSObject := proxy.target

/-- `GetDirectProxyHandlerObject`: the handler object in the first extra slot. -/
def GetDirectProxyHandlerObject (proxy : ProxyObject) : HandlerObject := proxy.handler

/-- The part of `JSContext` the modelled code depends on: whether
`JS_CHECK_RECURSION` trips at the entry point, what calling a script getter on a
receiver yields (`none`: it throws), the property key an object converts to
through its script conversion methods (`none`: the conversion throws), whether
calling a script setter on a receiver with a value returns normally, and what
`CallSetter` (`jsobjinlines.h`) on a receiver, key, setter, attributes, short
id, strict flag and value yields (`none`: it fails; else the value slot
afterwards and whether the proxy at hand still is a proxy of the same handler
once the setter has run). -/
structure JSContext where
  overRecursed : Bool
  invokeGetter : PropertyOp → ObjRef → Option Value
  objectToId : Nat → Option jsid
  invokeSetter : PropertyOp → ObjRef → Value → Bool
  callSetter : ObjRef → jsid → PropertyOp → Nat → Nat → Bool → Value → Option (Value × Bool)

/-- Modelled from the spec: `JSObject::getGeneric` of `jsobj.h`, not among the
sources: the ordinary property read of a native object, built from the inbound
`NativeLookup` and `NativeInvoke`. -/
def JSObject.getGeneric (cx : JSContext) (obj : JSObject) (receiver : ObjRef) (id : jsid) :
    Except Error Value :=
  let desc := JS_GetPropertyDescriptorById obj id 0
  if desc.obj.isNone then
    .ok .undefined
  else if hasAttr desc.attrs JSPROP_GETTER then
    match cx.invokeGetter desc.getter receiver with
    | some v => .ok v
    | none => .error .thrown
  else if hasAttr desc.attrs JSPROP_SETTER then
    .ok .undefined
  else
    .ok desc.value

/-- Modelled from the spec: the largest integer a `jsid` holds as an index
(`JSID_INT_MAX` of `jsapi.h`, not among the sources). -/
def JSID_INT_MAX : Int := 2147483647

/-- Modelled from the spec: part of the index test on a string key
(`jsatominlines.h`, not among the sources): the number spelled by a list of
decimal digits, continuing from `acc`. -/
def digitsToNat : List Char → Nat → Option Nat
  | [], acc => some acc
  | c :: cs, acc =>
    if c.isDigit then digitsToNat cs (acc * 10 + (c.toNat - 48)) else none

/-- Modelled from the spec: the index test on a string key (`jsatominlines.h`,
not among the sources): the number a string spells canonically, that is in
decimal digits without a leading zero. -/
def stringToIndex (s : String) : Option Nat :=
  match s.data with
  | [] => none
  | [c] => if c.isDigit then some (c.toNat - 48) else none
  | c :: cs => if c == '0' then none else digitsToNat (c :: cs) 0

/-- Modelled from the spec: `ValueToId` of `jsatominlines.h`, not among the
sources: the property key of a value.  A non-negative integer within the index
range, or a string that spells one canonically, is an integer key; any other
primitive is the key of its string form; an object converts through script. -/
def ValueToId (cx : JSContext) : Value → Option jsid
  | .undefined => some (.atom "undefined")
  | .null => some (.atom "null")
  | .bool b => some (.atom (if b then "true" else "false"))
  | .number n =>
    if 0 ≤ n ∧ n ≤ JSID_INT_MAX then some (.int n) else some (.atom (toString n))
  | .string s =>
    match stringToIndex s with
    | some n => if (n : Int) ≤ JSID_INT_MAX then some (.int n) else some (.atom s)
    | none => some (.atom s)
  | .object ref _ => cx.objectToId ref

/-- Modelled from the spec: iteration flag of `jsapi.h`: own properties only. -/
def JSITER_OWNONLY : Nat := 0x8
/-- Modelled from the spec: iteration flag of `jsapi.h`: non-enumerable
properties as well. -/
def JSITER_HIDDEN : Nat := 0x10

/-- Modelled from the spec: the key-collecting pass of `GetPropertyNames`
(`jsiter.cpp`, not among the sources) over the stored properties of the visited
objects, `seen` holding the keys met so far: a key counts at its
first occurrence, and is listed when it is enumerable there or hidden keys are
asked for. -/
def snapshot (hidden : Bool) : List (jsid × Shape) → List jsid → List jsid
  | [], _ => []
  | (k, s) :: rest, seen =>
    if seen.contains k then
      snapshot hidden rest seen
    else if hasAttr s.attrs JSPROP_ENUMERATE || hidden then
      k :: snapshot hidden rest (k :: seen)
    else
      snapshot hidden rest (k :: seen)

/-- Modelled from the spec: `GetPropertyNames` of `jsiter.cpp`, not among the
sources; the inbound `NativeOwnKeys(includeHidden) -> ordered sequence of key`,
continued along the prototype chain unless own keys only are asked for. -/
def GetPropertyNames (obj : JSObject) (flags : Nat) : List jsid :=
  let visited :=
    if hasAttr flags JSITER_OWNONLY then [obj.own] else obj.own :: obj.protos
  snapshot (hasAttr flags JSITER_HIDDEN) (visited.map ObjectData.props).flatten []

/-- Modelled from the spec: `JS_DeletePropertyById2` of `jsapi.cpp`, not among
the sources; the inbound `NativeDelete(id) -> bool`: the value stored in `rval`
and the object afterwards.  An absent property counts as deleted, a permanent
one stays. -/
def JS_DeletePropertyById2 (obj : JSObject) (id : jsid) : Value × JSObject :=
  match obj.own.props.lookup id with
  | none => (.bool true, obj)
  | some s =>
    if hasAttr s.attrs JSPROP_PERMANENT then
      (.bool false, obj)
    else
      (.bool true,
        { obj with own := { obj.own with props := obj.own.props.filter (fun p => p.1 != id) } })

/-- Modelled from the spec: `JSObject::setGeneric` of `jsobj.h`, not among the
sources: the ordinary assignment to a native object, built from the inbound
`NativeLookup`, `NativeDefine` and `NativeInvoke`; the result is `*vp` and the
object afterwards.  A script setter is called on the receiver; every change is
made to `obj`. -/
def JSObject.setGeneric (cx : JSContext) (obj : JSObject) (receiver : ObjRef) (id : jsid)
    (vp : Value) (strict : Bool) : Except Error Value × JSObject :=
  let desc := JS_GetPropertyDescriptorById obj id 0
  if desc.obj.isSome && hasAttr desc.attrs (JSPROP_GETTER ||| JSPROP_SETTER) then
    if !hasAttr desc.attrs JSPROP_SETTER || desc.setter == .null then
      (if strict then .error (.reported .JSMSG_GETTER_ONLY) else .ok vp, obj)
    else if cx.invokeSetter desc.setter receiver vp then
      (.ok vp, obj)
    else
      (.error .thrown, obj)
  else if desc.obj.isSome && hasAttr desc.attrs JSPROP_READONLY then
    (if strict then .error (.reported .JSMSG_READ_ONLY) else .ok vp, obj)
  else if desc.obj == some (.target 0) then
    (.ok vp,
      { obj with own := { obj.own with props := obj.own.props.map (fun p =>
          if p.1 == id then (p.1, { p.2 with value := vp }) else p) } })
  else if !obj.isExtensible then
    (if strict then .error (.reported .JSMSG_OBJECT_NOT_EXTENSIBLE) else .ok vp, obj)
  else
    (.ok vp,
      { obj with own := { obj.own with props :=
          obj.own.props ++ [(id, ⟨JSPROP_ENUMERATE, .null, .null, vp⟩)] } })

/-- Modelled from the spec: `JS_DefinePropertyById` of `jsapi.cpp`, not among the
sources; the inbound `NativeDefine(id, descriptor) -> bool`: the status and the
object afterwards.  An own property at the key is redefined with the given
value, accessors and attributes; a new property is added after the existing
ones, which a non-extensible object refuses. -/
def JS_DefinePropertyById (obj : JSObject) (id : jsid) (value : Value)
    (getter setter : PropertyOp) (attrs : Nat) : Except Error Unit × JSObject :=
  match obj.own.props.lookup id with
  | some _ =>
    (.ok (),
      { obj with own := { obj.own with props := obj.own.props.map (fun p =>
          if p.1 == id then (p.1, ⟨attrs, getter, setter, value⟩) else p) } })
  | none =>
    if !obj.isExtensible then
      (.error (.reported .JSMSG_OBJECT_NOT_EXTENSIBLE), obj)
    else
      (.ok (),
        { obj with own := { obj.own with props :=
            obj.own.props ++ [(id, ⟨attrs, getter, setter, value⟩)] } })

/-- Modelled from the spec: `CheckDefineProperty` of `jsobj.cpp`, not among the
sources: the check ahead of a definition on a native object.  An own property
that is not configurable may be redefined only with the same accessors and the
same attributes, the read-only attribute apart, which may be added; the value of
a non-configurable, non-writable data property may not change. -/
def CheckDefineProperty (obj : JSObject) (id : jsid) (value : Value)
    (getter setter : PropertyOp) (attrs : Nat) : Except Error Unit :=
  let desc := GetOwnPropertyDescriptor obj id 0
  if desc.obj.isSome && hasAttr desc.attrs JSPROP_PERMANENT then
    if getter != desc.getter || setter != desc.setter ||
        (attrs != desc.attrs && attrs != (desc.attrs ||| JSPROP_READONLY)) then
      .error (.reported .JSMSG_CANT_REDEFINE_PROP)
    else if (desc.attrs &&& (JSPROP_GETTER ||| JSPROP_SETTER ||| JSPROP_READONLY)) ==
        JSPROP_READONLY && !SameValue value desc.value then
      .error (.reported .JSMSG_READ_ONLY)
    else
      .ok ()
  else
    .ok ()

/-- Modelled from the spec: `UnwrapObject` of `jswrapper.cpp`, not among the
sources: the object a forwarding proxy wraps ("a forwarding handler returns the
unwrapped target"), named relative to the proxy. -/
def UnwrapObject (_proxy : ProxyObject) : ObjRef := .target 0

/-- Modelled from the spec: `IndexToId` of `jsatominlines.h`, not among the
sources: the key of an element index, an integer key within the index range and
the key of its decimal string beyond. -/
def IndexToId (index : Nat) : jsid :=
  if (index : Int) ≤ JSID_INT_MAX then .int index else .atom (toString index)

/-- Modelled from the spec: `JSObject::getElementIfPresent` of `jsobj.h`, not
among the sources, on a native object: the content of `vp` and `*present`
afterwards.  An element found on the object or its prototype chain is read as
by the ordinary property read; without one `vp` is left as it is. -/
def JSObject.getElementIfPresent (cx : JSContext) (obj : JSObject) (receiver : ObjRef)
    (index : Nat) (vp : Value) (_present : Bool) : Except Error (Value × Bool) :=
  if JS_HasPropertyById obj (IndexToId index) then
    match JSObject.getGeneric cx obj receiver (IndexToId index) with
    | .error e => .error e
    | .ok v => .ok (v, true)
  else
    .ok (vp, false)

/-- What an iteration operation stores in its value slot: undefined, an iterator
over a snapshot of keys made with the given flags, or another value. -/
inductive IterValue where
  | undefined
  | iterator (flags : Nat) (props : List jsid)
  | value (v : Value)
  deriving DecidableEq, Repr

/-- Modelled from the spec: `EnumeratedIdVectorToIterator` of `jsiter.cpp`, not
among the sources: the key snapshot wrapped "as a restartable-once iterator
value". -/
def EnumeratedIdVectorToIterator (_proxy : ProxyObject) (flags : Nat) (props : List jsid) :
    IterValue :=
  .iterator flags props

/-- Modelled from the spec: `IsFunctionProxy` of `jsproxy.h`, not among the
sources: the class of the proxy is the function proxy class. -/
def IsFunctionProxy (proxy : ProxyObject) : Bool := proxy.isFunction

/-- Modelled from the spec: `JSObject::isCallable` of `jsobj.h`, not among the
sources, on a proxy: a proxy is callable when its class is the function proxy
class. -/
def ProxyObject.isCallable (proxy : ProxyObject) : Bool := proxy.isFunction

/-- Modelled from the spec: `CallArgs` of `jsapi.h`, not among the sources: the
`this` value and the arguments of a native call. -/
structure CallArgs where
  thisv : Value
  argv : List Value
  deriving DecidableEq, Repr

/-! ## `DirectProxyHandler` -/

/-- `DirectProxyHandler::getPropertyDescriptor`; the result is `*desc`. -/
def DirectProxyHandler.getPropertyDescriptor (_cx : JSContext) (proxy : ProxyObject)
    (id : jsid) (_desc : PropertyDescriptor) : Except Error PropertyDescriptor :=
  let target := GetProxyTargetObject proxy
  .ok (JS_GetPropertyDescriptorById target id 0)

/-- `DirectProxyHandler::getOwnPropertyDescriptor`; the result is `*desc`. -/
def DirectProxyHandler.getOwnPropertyDescriptor (_cx : JSContext) (proxy : ProxyObject)
    (id : jsid) (_desc : PropertyDescriptor) : Except Error PropertyDescriptor :=
  let target := GetProxyTargetObject proxy
  .ok (GetOwnPropertyDescriptor target id 0)

/-- `DirectProxyHandler::defineProperty`; the result is the status and the
target afterwards. -/
def DirectProxyHandler.defineProperty (_cx : JSContext) (proxy : ProxyObject) (id : jsid)
    (desc : PropertyDescriptor) : Except Error Unit × JSObject :=
  let obj := GetProxyTargetObject proxy
  let v := desc.value
  match CheckDefineProperty obj id v desc.getter desc.setter desc.attrs with
  | .error e => (.error e, obj)
  | .ok _ => JS_DefinePropertyById obj id v desc.getter desc.setter desc.attrs

/-- `DirectProxyHandler::has`; the result is `*bp`. -/
def DirectProxyHandler.has (_cx : JSContext) (proxy : ProxyObject) (id : jsid) :
    Except Error Bool :=
  let target := GetProxyTargetObject proxy
  .ok (JS_HasPropertyById target id)

/-- `DirectProxyHandler::hasOwn`; the result is `*bp`. -/
def DirectProxyHandler.hasOwn (_cx : JSContext) (proxy : ProxyObject) (id : jsid) :
    Except Error Bool :=
  let target := GetProxyTargetObject proxy
  let desc := JS_GetPropertyDescriptorById target id 0
  .ok (desc.obj == some (.target 0))

/-- `DirectProxyHandler::get`; the result is `*vp`. -/
def DirectProxyHandler.get (cx : JSContext) (proxy : ProxyObject) (receiver : ObjRef)
    (id : jsid) (_vp : Value) : Except Error Value :=
  let target := GetProxyTargetObject proxy
  JSObject.getGeneric cx target receiver id

/-- `DirectProxyHandler::getOwnPropertyNames`; `props` is the content of the
caller's vector on entry, the result its content on success. -/
def DirectProxyHandler.getOwnPropertyNames (_cx : JSContext) (proxy : ProxyObject)
    (props : List jsid) : Except Error (List jsid) :=
  let target := GetProxyTargetObject proxy
  .ok (props ++ GetPropertyNames target (JSITER_OWNONLY ||| JSITER_HIDDEN))

/-- `DirectProxyHandler::delete_`; the result is `*bp` and the target
afterwards. -/
def DirectProxyHandler.delete_ (_cx : JSContext) (proxy : ProxyObject) (id : jsid) :
    Except Error Bool × JSObject :=
  let target := GetProxyTargetObject proxy
  let r := JS_DeletePropertyById2 target id
  (.ok (ToBoolean r.1), r.2)

/-- `DirectProxyHandler::enumerate`; `props` is the content of the caller's
vector on entry, the result its content on success. -/
def DirectProxyHandler.enumerate (_cx : JSContext) (proxy : ProxyObject)
    (props : List jsid) : Except Error (List jsid) :=
  let target := GetProxyTargetObject proxy
  .ok (props ++ GetPropertyNames target 0)

/-- `DirectProxyHandler::set`; `vp` is the content of the caller's value slot on
entry, the result its content on success and the target afterwards. -/
def DirectProxyHandler.set (cx : JSContext) (proxy : ProxyObject) (receiver : ObjRef)
    (id : jsid) (strict : Bool) (vp : Value) : Except Error Value × JSObject :=
  let target := GetProxyTargetObject proxy
  JSObject.setGeneric cx target receiver id vp strict

/-- `DirectProxyHandler::weakmapKeyDelegate`; `none` is `NULL`. -/
def DirectProxyHandler.weakmapKeyDelegate (proxy : ProxyObject) : Option ObjRef :=
  some (UnwrapObject proxy)

/-- `DirectProxyHandler::keys`; `props` is the content of the caller's vector on
entry, the result its content on success. -/
def DirectProxyHandler.keys (_cx : JSContext) (proxy : ProxyObject)
    (props : List jsid) : Except Error (List jsid) :=
  .ok (props ++ GetPropertyNames (GetProxyTargetObject proxy) JSITER_OWNONLY)

/-! ## `ScriptedDirectProxyHandler` -/

/-- `TrapGetOwnProperty(O, P)`; the result is `rval`. -/
def TrapGetOwnProperty (proxy : ProxyObject) (id : jsid) : Except Error DescriptorValue :=
  -- step 1
  let handler := GetDirectProxyHandlerObject proxy
  -- step 2
  let target := GetProxyTargetObject proxy
  -- step 3
  match handler.getOwnPropertyDescriptor with
  | .getFailed => .error .thrown
  -- step 4
  | .undefined => NewPropertyDescriptorObject (jsobj.GetOwnPropertyDescriptor target id)
  | .value invoke =>
    -- step 5
    let value := IdToValue id
    match invoke (target, value) with
    | none => .error .thrown
    | some trapResult =>
      -- step 6
      match NormalizeAndCompletePropertyDescriptor trapResult with
      | .error e => .error e
      | .ok trapResult =>
        -- step 7
        if trapResult.isUndefined then
          if IsSealed target id then
            .error (.reported .JSMSG_CANT_REPORT_NC_AS_NE)
          else if !target.isExtensible && HasOwn target id then
            .error (.reported .JSMSG_CANT_REPORT_E_AS_NE)
          else
            .ok .undefined
        else
          -- step 8
          let isFixed := HasOwn target id
          -- step 9
          if target.isExtensible && !isFixed then
            .error (.reported .JSMSG_CANT_REPORT_NEW)
          else
            match PropDesc.initialize_ trapResult true with
            | .error e => .error e
            | .ok desc =>
              -- step 10
              if isFixed && !ValidateProperty target id desc then
                .error (.reported .JSMSG_CANT_REPORT_INVALID)
              -- step 11
              else if !desc.configurable && !isFixed then
                .error (.reported .JSMSG_CANT_REPORT_NE_AS_NC)
              -- step 12
              else
                .ok trapResult

/-- `TrapDefineOwnProperty(O, P, DescObj, Throw)`; `vp` is the descriptor value
handed in.  The result is the content of `vp` on success (`none`: it still
holds the descriptor value, else the boolean stored at steps 7-9) and the target
afterwards.  The trap is handed the object `normalizedDesc`; steps 7-8 read that
object as the trap left it. -/
def TrapDefineOwnProperty (proxy : ProxyObject) (id : jsid) (vp : DescriptorValue) :
    Except Error (Option Bool) × JSObject :=
  -- step 1
  let handler := GetDirectProxyHandlerObject proxy
  -- step 2
  let target := GetProxyTargetObject proxy
  -- step 3
  match handler.defineProperty with
  | .getFailed => (.error .thrown, target)
  -- step 4
  | .undefined =>
    match ParsePropertyDescriptorObject .proxy vp false with
    | .error e => (.error e, target)
    | .ok desc =>
      match JS_DefinePropertyById target id desc.value desc.getter desc.setter desc.attrs with
      | (.error e, t) => (.error e, t)
      | (.ok _, t) => (.ok none, t)
  | .value invoke =>
    -- step 5
    match NormalizePropertyDescriptor vp false with
    | .error e => (.error e, target)
    | .ok normalizedDesc =>
      -- step 6
      let value := IdToValue id
      match invoke (target, value, normalizedDesc) with
      | none => (.error .thrown, target)
      | some (trapResult, normalizedDesc) =>
        -- steps 7-8
        if ToBoolean trapResult then
          let isFixed := HasOwn target id
          if !target.isExtensible && !isFixed then
            (.error (.reported .JSMSG_CANT_DEFINE_NEW), target)
          else
            match PropDesc.initialize_ normalizedDesc true with
            | .error e => (.error e, target)
            | .ok desc =>
              if isFixed && !ValidateProperty target id desc then
                (.error (.reported .JSMSG_CANT_DEFINE_INVALID), target)
              else if !desc.configurable && !isFixed then
                (.error (.reported .JSMSG_CANT_DEFINE_NE_AS_NC), target)
              else
                (.ok (some true), target)
        -- step 9
        else
          (.ok (some false), target)

/-- Steps i-k of the scripted direct `ArrayToIdVector`: the elements of the
returned array from index `i` on, `props` being the output vector so far. -/
def ArrayToIdVector.convert (cx : JSContext) (target : JSObject) :
    List Value → Nat → List jsid → Except Error (List jsid)
  | [], _, props => .ok props
  | v :: rest, i, props =>
    -- step ii
    match ValueToId cx v with
    | none => .error .thrown
    | some id =>
      -- step iii
      if (List.range i).any (fun j => props[j]? == some id) then
        .error (.reported .JSMSG_INVALID_TRAP_RESULT)
      -- steps iv, v
      else if !target.isExtensible && !HasOwn target id then
        .error (.reported .JSMSG_CANT_REPORT_NEW)
      -- step vi
      else
        ArrayToIdVector.convert cx target rest (i + 1) (props ++ [id])

/-- Step m of the scripted direct `ArrayToIdVector`: the keys of the target that
remain to be checked against the output vector. -/
def ArrayToIdVector.checkOwn (target : JSObject) (props : List jsid) :
    List jsid → Except Error Unit
  | [] => .ok ()
  | id :: rest =>
    if props.contains id then
      ArrayToIdVector.checkOwn target props rest
    -- step i
    else if IsSealed target id then
      .error (.reported .JSMSG_CANT_SKIP_NC)
    -- steps ii, iii
    else if !target.isExtensible && HasOwn target id then
      .error (.reported .JSMSG_CANT_REPORT_E_AS_NE)
    else
      ArrayToIdVector.checkOwn target props rest

/-- The scripted direct `ArrayToIdVector`, shared between `getOwnPropertyNames`,
`enumerate` and `keys`; `props` is the content of the output vector on entry,
the result its content on success.  The returned array is a plain array: its
length and elements are read without running script.  A primitive `v` is
excluded by the assertion at the head of the source function. -/
def ArrayToIdVector (cx : JSContext) (_proxy : ProxyObject) (target : JSObject)
    (v : ArrayValue) (props : List jsid) (flags : Nat) : Except Error (List jsid) :=
  match v with
  | .primitive => .error .thrown
  | .array elems =>
    -- steps g-k
    match ArrayToIdVector.convert cx target elems 0 props with
    | .error e => .error e
    | .ok props =>
      -- step l
      let ownProps := GetPropertyNames target flags
      -- step m
      match ArrayToIdVector.checkOwn target props ownProps with
      | .error e => .error e
      -- step n
      | .ok _ => .ok props

namespace ScriptedDirectProxyHandler

/-- `ScriptedDirectProxyHandler::getOwnPropertyDescriptor`; `desc` is the content
of the caller's descriptor on entry, the result its content on success. -/
def getOwnPropertyDescriptor (_cx : JSContext) (proxy : ProxyObject) (id : jsid)
    (desc : PropertyDescriptor) : Except Error PropertyDescriptor :=
  -- step 1
  match TrapGetOwnProperty proxy id with
  | .error e => .error e
  | .ok v =>
    -- step 2
    if v.isUndefined then
      .ok { desc with obj := none }
    -- steps 3-4
    else
      ParsePropertyDescriptorObject .proxy v true

/-- `ScriptedDirectProxyHandler::has`; the result is `*bp`. -/
def has (cx : JSContext) (proxy : ProxyObject) (id : jsid) : Except Error Bool :=
  -- step 1
  let handler := GetDirectProxyHandlerObject proxy
  -- step 2
  let target := GetProxyTargetObject proxy
  -- step 3
  match handler.has with
  | .getFailed => .error .thrown
  -- step 4
  | .undefined => DirectProxyHandler.has cx proxy id
  | .value invoke =>
    -- step 5
    let value := IdToValue id
    match invoke (target, value) with
    | none => .error .thrown
    | some trapResult =>
      -- step 6
      let success := ToBoolean trapResult
      -- step 7
      if !success then
        if IsSealed target id then
          .error (.reported .JSMSG_CANT_REPORT_NC_AS_NE)
        else if !target.isExtensible && HasOwn target id then
          .error (.reported .JSMSG_CANT_REPORT_E_AS_NE)
        else
          .ok success
      -- step 8
      else
        .ok success

/-- `ScriptedDirectProxyHandler::hasOwn`; the result is `*bp`. -/
def hasOwn (cx : JSContext) (proxy : ProxyObject) (id : jsid) : Except Error Bool :=
  -- step 1
  let handler := GetDirectProxyHandlerObject proxy
  -- step 2
  let target := GetProxyTargetObject proxy
  -- step 3
  match handler.hasOwn with
  | .getFailed => .error .thrown
  -- step 4
  | .undefined => DirectProxyHandler.hasOwn cx proxy id
  | .value invoke =>
    -- step 5
    let value := IdToValue id
    match invoke (target, value) with
    | none => .error .thrown
    | some trapResult =>
      -- step 6
      let success := ToBoolean trapResult
      -- steps 7-8
      if !success then
        if IsSealed target id then
          .error (.reported .JSMSG_CANT_REPORT_NC_AS_NE)
        else if !target.isExtensible && HasOwn target id then
          .error (.reported .JSMSG_CANT_REPORT_E_AS_NE)
        else
          .ok success
      else if !target.isExtensible && !HasOwn target id then
        .error (.reported .JSMSG_CANT_REPORT_NEW)
      -- step 9
      else
        .ok success

/-- `ScriptedDirectProxyHandler::get`; `vp` is the content of the caller's result
slot on entry, the result its content on success. -/
def get (cx : JSContext) (proxy : ProxyObject) (receiver : ObjRef) (id : jsid) (vp : Value) :
    Except Error Value :=
  -- step 1
  let handler := GetDirectProxyHandlerObject proxy
  -- step 2
  let target := GetProxyTargetObject proxy
  -- step 3
  match handler.get with
  | .getFailed => .error .thrown
  -- step 4
  | .undefined => DirectProxyHandler.get cx proxy receiver id vp
  | .value invoke =>
    -- step 5
    let value := IdToValue id
    match invoke (target, value, receiver) with
    | none => .error .thrown
    | some trapResult =>
      -- step 6
      let desc := jsobj.GetOwnPropertyDescriptor target id
      -- step 7
      if desc.obj.isSome &&
          (IsDataDescriptor desc && hasAttr desc.attrs JSPROP_PERMANENT &&
            hasAttr desc.attrs JSPROP_READONLY) &&
          !SameValue vp desc.value then
        .error (.reported .JSMSG_MUST_REPORT_SAME_VALUE)
      else if desc.obj.isSome &&
          (IsAccessorDescriptor desc && hasAttr desc.attrs JSPROP_PERMANENT &&
            !hasAttr desc.attrs JSPROP_GETTER) &&
          !trapResult.isUndefined then
        .error (.reported .JSMSG_MUST_REPORT_UNDEFINED)
      -- step 8
      else
        .ok trapResult

/-- `ScriptedDirectProxyHandler::defineProperty`; the result is the status and
the target afterwards. -/
def defineProperty (_cx : JSContext) (proxy : ProxyObject) (id : jsid)
    (desc : PropertyDescriptor) : Except Error Unit × JSObject :=
  -- step 1
  let d := PropDesc.initFromPropertyDescriptor desc
  match FromGenericPropertyDescriptor d with
  | .error e => (.error e, GetProxyTargetObject proxy)
  | .ok v =>
    -- step 2
    match TrapDefineOwnProperty proxy id v with
    | (.error e, t) => (.error e, t)
    | (.ok _, t) => (.ok (), t)

/-- `ScriptedDirectProxyHandler::getOwnPropertyNames`; `props` is the content of
the caller's vector on entry, the result its content on success. -/
def getOwnPropertyNames (cx : JSContext) (proxy : ProxyObject) (props : List jsid) :
    Except Error (List jsid) :=
  -- step a
  let handler := GetDirectProxyHandlerObject proxy
  -- step b
  let target := GetProxyTargetObject proxy
  -- step c
  match handler.getOwnPropertyNames with
  | .getFailed => .error .thrown
  -- step d
  | .undefined => DirectProxyHandler.getOwnPropertyNames cx proxy props
  | .value invoke =>
    -- step e
    match invoke target with
    | none => .error .thrown
    | some trapResult =>
      -- step f
      if trapResult.isPrimitive then
        .error (.reported .JSMSG_INVALID_TRAP_RESULT)
      -- steps g to n are shared
      else
        ArrayToIdVector cx proxy target trapResult props (JSITER_OWNONLY ||| JSITER_HIDDEN)

/-- `ScriptedDirectProxyHandler::delete_`; the result is `*bp` and the target
afterwards. -/
def delete_ (cx : JSContext) (proxy : ProxyObject) (id : jsid) :
    Except Error Bool × JSObject :=
  -- step 1
  let handler := GetDirectProxyHandlerObject proxy
  -- step 2
  let target := GetProxyTargetObject proxy
  -- step 3
  match handler.deleteProperty with
  | .getFailed => (.error .thrown, target)
  -- step 4
  | .undefined => DirectProxyHandler.delete_ cx proxy id
  | .value invoke =>
    -- step 5
    let value := IdToValue id
    match invoke (target, value) with
    | none => (.error .thrown, target)
    | some trapResult =>
      -- step 6-7
      if ToBoolean trapResult then
        if IsSealed target id then
          (.error (.reported .JSMSG_CANT_DELETE), target)
        else
          (.ok true, target)
      -- step 8
      else
        (.ok false, target)

/-- `ScriptedDirectProxyHandler::enumerate`; `props` is the content of the
caller's vector on entry, the result its content on success. -/
def enumerate (cx : JSContext) (proxy : ProxyObject) (props : List jsid) :
    Except Error (List jsid) :=
  -- step a
  let handler := GetDirectProxyHandlerObject proxy
  -- step b
  let target := GetProxyTargetObject proxy
  -- step c
  match handler.enumerate with
  | .getFailed => .error .thrown
  -- step d
  | .undefined => DirectProxyHandler.enumerate cx proxy props
  | .value invoke =>
    -- step e
    match invoke target with
    | none => .error .thrown
    | some trapResult =>
      -- step f
      if trapResult.isPrimitive then
        .error (.reported .JSMSG_INVALID_TRAP_RESULT)
      -- steps g-m are shared
      else
        ArrayToIdVector cx proxy target trapResult props 0

/-- `ScriptedDirectProxyHandler::set`; `vp` is the content of the caller's value
slot on entry (the assigned value), the result its content on success and the
target afterwards. -/
def set (cx : JSContext) (proxy : ProxyObject) (receiver : ObjRef) (id : jsid)
    (strict : Bool) (vp : Value) : Except Error Value × JSObject :=
  -- step 1
  let handler := GetDirectProxyHandlerObject proxy
  -- step 2
  let target := GetProxyTargetObject proxy
  -- step 3
  match handler.set with
  | .getFailed => (.error .thrown, target)
  -- step 4
  | .undefined => DirectProxyHandler.set cx proxy receiver id strict vp
  | .value invoke =>
    -- step 5
    let value := IdToValue id
    match invoke (target, value, vp, receiver) with
    | none => (.error .thrown, target)
    | some trapResult =>
      -- step 6
      let success := ToBoolean trapResult
      -- step 7
      if success then
        let desc := jsobj.GetOwnPropertyDescriptor target id
        if desc.obj.isSome &&
            (IsDataDescriptor desc && hasAttr desc.attrs JSPROP_PERMANENT &&
              hasAttr desc.attrs JSPROP_READONLY) &&
            !SameValue vp desc.value then
          (.error (.reported .JSMSG_CANT_SET_NW_NC), target)
        else if desc.obj.isSome &&
            (IsAccessorDescriptor desc && hasAttr desc.attrs JSPROP_PERMANENT) &&
            !hasAttr desc.attrs JSPROP_SETTER then
          (.error (.reported .JSMSG_CANT_SET_WO_SETTER), target)
        -- step 8
        else
          (.ok (.bool success), target)
      else
        (.ok (.bool success), target)

/-- `ScriptedDirectProxyHandler::keys`; `props` is the content of the caller's
vector on entry, the result its content on success. -/
def keys (cx : JSContext) (proxy : ProxyObject) (props : List jsid) :
    Except Error (List jsid) :=
  -- step a
  let handler := GetDirectProxyHandlerObject proxy
  -- step b
  let target := GetProxyTargetObject proxy
  -- step c
  match handler.keys with
  | .getFailed => .error .thrown
  -- step d
  | .undefined => DirectProxyHandler.keys cx proxy props
  | .value invoke =>
    -- step e
    match invoke target with
    | none => .error .thrown
    | some trapResult =>
      -- step f
      if trapResult.isPrimitive then
        .error (.reported .JSMSG_INVALID_TRAP_RESULT)
      -- steps g-n are shared
      else
        ArrayToIdVector cx proxy target trapResult props JSITER_OWNONLY

end ScriptedDirectProxyHandler

/-! ## The dispatcher -/

/-- `BaseProxyHandler::Action`. -/
inductive Action where
  | GET
  | SET
  | CALL
  deriving DecidableEq, Repr

/-- The virtual interface of `BaseProxyHandler`: the two flags, `enter`, and the
methods behind the own-descriptor lookup, `has`, `hasOwn`, `get` and
`getPrototypeOf`; `ProxyHandler` below adds the other methods.  `enter` yields
the returned flag and `*bp`. -/
structure BaseProxyHandler where
  mHasPrototype : Bool
  mHasPolicy : Bool
  enter : JSContext → ProxyObject → jsid → Action → Bool × Bool
  getOwnPropertyDescriptor :
    JSContext → ProxyObject → jsid → PropertyDescriptor → Except Error PropertyDescriptor
  has : JSContext → ProxyObject → jsid → Except Error Bool
  hasOwn : JSContext → ProxyObject → jsid → Except Error Bool
  get : JSContext → ProxyObject → ObjRef → jsid → Value → Except Error Value
  getPrototypeOf : JSContext → ProxyObject → Except Error (Option JSObject)

/-- `BaseProxyHandler::hasPrototype`. -/
def BaseProxyHandler.hasPrototype (h : BaseProxyHandler) : Bool := h.mHasPrototype

/-- `BaseProxyHandler::hasPolicy`. -/
def BaseProxyHandler.hasPolicy (h : BaseProxyHandler) : Bool := h.mHasPolicy

/-- `BaseProxyHandler::enter`: the returned flag and `*bp`. -/
def BaseProxyHandler.defaultEnter (_cx : JSContext) (_wrapper : ProxyObject) (_id : jsid)
    (_act : Action) : Bool × Bool :=
  (true, true)

/-- `BaseProxyHandler::weakmapKeyDelegate`; `none` is `NULL`. -/
def BaseProxyHandler.weakmapKeyDelegate (_proxy : ProxyObject) : Option ObjRef := none

/-- `BaseProxyHandler::getPrototypeOf`: the prototype of the proxy object. -/
def BaseProxyHandler.defaultGetPrototypeOf (_cx : JSContext) (proxy : ProxyObject) :
    Except Error (Option JSObject) :=
  .ok proxy.proto

/-- `ScriptedDirectProxyHandler::singleton`: the constructors leave
`mHasPrototype` and `mHasPolicy` false; `enter` and `getPrototypeOf` are
inherited from `BaseProxyHandler`. -/
def ScriptedDirectProxyHandler.singleton : BaseProxyHandler :=
  { mHasPrototype := false,
    mHasPolicy := false,
    enter := BaseProxyHandler.defaultEnter,
    getOwnPropertyDescriptor := ScriptedDirectProxyHandler.getOwnPropertyDescriptor,
    has := ScriptedDirectProxyHandler.has,
    hasOwn := ScriptedDirectProxyHandler.hasOwn,
    get := ScriptedDirectProxyHandler.get,
    getPrototypeOf := BaseProxyHandler.defaultGetPrototypeOf }

/-- Modelled from the spec: the `AutoEnterPolicy` guard of `jsproxy.h`, not among
the sources: the policy gate, which grants access or prescribes the value to
return instead. -/
structure AutoEnterPolicy where
  allow : Bool
  rv : Bool
  deriving DecidableEq, Repr

/-- Modelled from the spec: the constructor of `AutoEnterPolicy` (`jsproxy.h`):
a handler without a policy always grants access. -/
def AutoEnterPolicy.create (cx : JSContext) (handler : BaseProxyHandler)
    (wrapper : ProxyObject) (id : jsid) (act : Action) (_mayThrow : Bool) : AutoEnterPolicy :=
  if handler.hasPolicy then
    ⟨(handler.enter cx wrapper id act).1, (handler.enter cx wrapper id act).2⟩
  else
    ⟨true, false⟩

/-- `AutoEnterPolicy::allowed`. -/
def AutoEnterPolicy.allowed (p : AutoEnterPolicy) : Bool := p.allow

/-- `AutoEnterPolicy::returnValue`. -/
def AutoEnterPolicy.returnValue (p : AutoEnterPolicy) : Bool := p.rv

/-- How a dispatcher entry point ends: the recursion check tripped; the policy
gate refused, with the status returned and the content of the output slots; or
the operation was carried out. -/
inductive Dispatch (α : Type) where
  | overRecursed
  | denied (rv : Bool) (out : α)
  | performed (r : Except Error α)

/-- The virtual methods of `BaseProxyHandler` beyond those above.  A handler is
known by what its methods answer; `defineProperty` is told which object it is
applied to, the proxy or the receiver of an assignment.  The `flags` argument of
the descriptor lookups is left out, as it is from `getOwnPropertyDescriptor`;
a class value and a type hint are passed as their numbers, a shared regular
expression as its reference.  `getElementIfPresent` yields `vp` and
`*present`, `call` the content of `vp[0]` given the array `vp`. -/
structure ProxyHandler extends BaseProxyHandler where
  getPropertyDescriptor :
    JSContext → ProxyObject → jsid → PropertyDescriptor → Except Error PropertyDescriptor
  defineProperty :
    JSContext → ProxyObject → ObjRef → jsid → PropertyDescriptor → Except Error Unit
  getOwnPropertyNames : JSContext → ProxyObject → List jsid → Except Error (List jsid)
  delete_ : JSContext → ProxyObject → jsid → Except Error Bool
  enumerate : JSContext → ProxyObject → List jsid → Except Error (List jsid)
  set : JSContext → ProxyObject → ObjRef → jsid → Bool → Value → Except Error Value
  keys : JSContext → ProxyObject → List jsid → Except Error (List jsid)
  iterate : JSContext → ProxyObject → Nat → Except Error IterValue
  call : JSContext → ProxyObject → List Value → Except Error Value
  construct : JSContext → ProxyObject → List Value → Value → Except Error Value
  nativeCall :
    JSContext → (Value → Bool) → (CallArgs → Except Error Value) → CallArgs → Except Error Value
  hasInstance : JSContext → ProxyObject → Value → Except Error Bool
  objectClassIs : ProxyObject → Nat → JSContext → Bool
  obj_toString : JSContext → ProxyObject → Except Error String
  fun_toString : JSContext → ProxyObject → Nat → Except Error String
  regexp_toShared : JSContext → ProxyObject → Except Error Nat
  defaultValue : JSContext → ProxyObject → Nat → Except Error Value
  getElementIfPresent :
    JSContext → ProxyObject → ObjRef → Nat → Value → Bool → Except Error (Value × Bool)
  weakmapKeyDelegate : ProxyObject → Option ObjRef

/-- `BaseProxyHandler::obj_toString`. -/
def BaseProxyHandler.obj_toString (_cx : JSContext) (proxy : ProxyObject) :
    Except Error String :=
  .ok (if IsFunctionProxy proxy then "[object Function]" else "[object Object]")

/-- The virtual methods of `BaseProxyHandler`, by name. -/
inductive Method where
  | enter
  | getPropertyDescriptor
  | getOwnPropertyDescriptor
  | defineProperty
  | getOwnPropertyNames
  | delete_
  | enumerate
  | has
  | hasOwn
  | get
  | set
  | keys
  | iterate
  | call
  | construct
  | nativeCall
  | hasInstance
  | objectClassIs
  | obj_toString
  | fun_toString
  | regexp_toShared
  | defaultValue
  | getElementIfPresent
  | getPrototypeOf
  | weakmapKeyDelegate
  deriving DecidableEq, Repr

/-- What a dispatcher entry point yields: how it ends, and the virtual methods
of the handler it entered on the way, in order; each entry is one more on the
counter a handler keeps of the entries into that method. -/
structure Entered (α : Type) where
  out : Dispatch α
  methods : List Method

/-- The method the constructor of `AutoEnterPolicy` enters: `enter`, for a
handler that has a policy. -/
def AutoEnterPolicy.entered (handler : BaseProxyHandler) : List Method :=
  if handler.hasPolicy then [.enter] else []

/-- The macro `INVOKE_ON_PROTOTYPE(cx, handler, proxy, protoCall)`, which enters
`getPrototypeOf`; `outputs` is the content of the output slots when the macro is
reached, which a proxy without prototype returns as they are. -/
def INVOKE_ON_PROTOTYPE {α : Type} (cx : JSContext) (handler : BaseProxyHandler)
    (proxy : ProxyObject) (outputs : α) (protoCall : JSObject → Except Error α) :
    Except Error α :=
  match handler.getPrototypeOf cx proxy with
  | .error e => .error e
  | .ok none => .ok outputs
  | .ok (some proto) => protoCall proto

/-- `Proxy::getOwnPropertyDescriptor`, descriptor form; `handler` is
`GetProxyHandler(proxy)`, `desc` the content of the caller's descriptor on
entry. -/
def Proxy.getOwnPropertyDescriptor (cx : JSContext) (handler : BaseProxyHandler)
    (proxy : ProxyObject) (id : jsid) (desc : PropertyDescriptor) :
    Entered PropertyDescriptor :=
  if cx.overRecursed then
    ⟨.overRecursed, []⟩
  else
    -- default result if we refuse to perform this action
    let desc := { desc with obj := none }
    let policy := AutoEnterPolicy.create cx handler proxy id .GET true
    let entered := AutoEnterPolicy.entered handler
    if !policy.allowed then
      ⟨.denied policy.returnValue desc, entered⟩
    else
      ⟨.performed (handler.getOwnPropertyDescriptor cx proxy id desc),
        entered ++ [.getOwnPropertyDescriptor]⟩

/-- `Proxy::getOwnPropertyDescriptor`, value form; `vp` is the content of the
caller's value slot on entry.  The local descriptor starts out as the rooter
leaves it. -/
def Proxy.getOwnPropertyDescriptorValue (cx : JSContext) (handler : BaseProxyHandler)
    (proxy : ProxyObject) (id : jsid) (vp : DescriptorValue) : Entered DescriptorValue :=
  if cx.overRecursed then
    ⟨.overRecursed, []⟩
  else
    let inner := Proxy.getOwnPropertyDescriptor cx handler proxy id PropertyDescriptor.notFound
    match inner.out with
    | .overRecursed => ⟨.overRecursed, inner.methods⟩
    | .denied rv desc =>
      if !rv then
        ⟨.denied false vp, inner.methods⟩
      else
        match NewPropertyDescriptorObject desc with
        | .error e => ⟨.performed (.error e), inner.methods⟩
        | .ok value => ⟨.denied true value, inner.methods⟩
    | .performed (.error e) => ⟨.performed (.error e), inner.methods⟩
    | .performed (.ok desc) => ⟨.performed (NewPropertyDescriptorObject desc), inner.methods⟩

/-- `Proxy::has`; `_bp` is the content of the caller's flag on entry. -/
def Proxy.has (cx : JSContext) (handler : BaseProxyHandler) (proxy : ProxyObject) (id : jsid)
    (_bp : Bool) : Entered Bool :=
  if cx.overRecursed then
    ⟨.overRecursed, []⟩
  else
    -- default result if we refuse to perform this action
    let bp := false
    let policy := AutoEnterPolicy.create cx handler proxy id .GET true
    let entered := AutoEnterPolicy.entered handler
    if !policy.allowed then
      ⟨.denied policy.returnValue bp, entered⟩
    else if !handler.hasPrototype then
      ⟨.performed (handler.has cx proxy id), entered ++ [.has]⟩
    else
      match handler.hasOwn cx proxy id with
      | .error e => ⟨.performed (.error e), entered ++ [.hasOwn]⟩
      | .ok bp =>
        if bp then
          ⟨.performed (.ok bp), entered ++ [.hasOwn]⟩
        else
          ⟨.performed (INVOKE_ON_PROTOTYPE cx handler proxy bp
              (fun proto => .ok (JS_HasPropertyById proto id))),
            entered ++ [.hasOwn, .getPrototypeOf]⟩

/-- `Proxy::hasOwn`; `_bp` is the content of the caller's flag on entry. -/
def Proxy.hasOwn (cx : JSContext) (handler : BaseProxyHandler) (proxy : ProxyObject) (id : jsid)
    (_bp : Bool) : Entered Bool :=
  if cx.overRecursed then
    ⟨.overRecursed, []⟩
  else
    -- default result if we refuse to perform this action
    let bp := false
    let policy := AutoEnterPolicy.create cx handler proxy id .GET true
    let entered := AutoEnterPolicy.entered handler
    if !policy.allowed then
      ⟨.denied policy.returnValue bp, entered⟩
    else
      ⟨.performed (handler.hasOwn cx proxy id), entered ++ [.hasOwn]⟩

/-- `Proxy::get`; `handler` is `GetProxyHandler(proxy)`, `_vp` the content of the
caller's result slot on entry. -/
def Proxy.get (cx : JSContext) (handler : BaseProxyHandler) (proxy : ProxyObject)
    (receiver : ObjRef) (id : jsid) (_vp : Value) : Entered Value :=
  if cx.overRecursed then
    ⟨.overRecursed, []⟩
  else
    -- default result if we refuse to perform this action
    let vp := Value.undefined
    let policy := AutoEnterPolicy.create cx handler proxy id .GET true
    let entered := AutoEnterPolicy.entered handler
    if !policy.allowed then
      ⟨.denied policy.returnValue vp, entered⟩
    else if !handler.hasPrototype then
      ⟨.performed (handler.get cx proxy receiver id vp), entered ++ [.get]⟩
    else
      match handler.hasOwn cx proxy id with
      | .error e => ⟨.performed (.error e), entered ++ [.hasOwn]⟩
      | .ok own =>
        if own then
          ⟨.performed (handler.get cx proxy receiver id vp), entered ++ [.hasOwn, .get]⟩
        else
          ⟨.performed (INVOKE_ON_PROTOTYPE cx handler proxy vp
              (fun proto => JSObject.getGeneric cx proto receiver id)),
            entered ++ [.hasOwn, .getPrototypeOf]⟩

/-- Modelled from the spec: `JS_PropertyStub` of `jsapi.h`, not among the
sources: the native getter of a plain value slot. -/
def JS_PropertyStub : PropertyOp := .native 0

/-- Modelled from the spec: `JS_StrictPropertyStub` of `jsapi.h`, not among the
sources: the native setter of a plain value slot. -/
def JS_StrictPropertyStub : PropertyOp := .native 1

/-- Modelled from the spec: `Throw(cx, id, nr)` of `jsobj.cpp`, not among the
sources: it reports the error of the given number for the key ("signals a
TypeError-class error") and returns false. -/
def Throw {α : Type} (_id : jsid) (nr : JSErrNum) : Except Error α :=
  .error (.reported nr)

/-- A call `BaseProxyHandler::set` makes beyond its lookups: `CallSetter` on the
receiver, or the `defineProperty` method of the handler applied to the
receiver, each with its arguments. -/
inductive SetCall where
  | CallSetter (receiver : ObjRef) (id : jsid) (setter : PropertyOp) (attrs shortid : Nat)
      (strict : Bool) (value : Value)
  | defineProperty (receiver : ObjRef) (id : jsid) (desc : PropertyDescriptor)
  deriving DecidableEq, Repr

/-- What `BaseProxyHandler::set` yields: the content of `*vp` on success, and the
calls it made beyond its lookups, in order; the receiver is changed by these
calls only. -/
structure SetOutcome where
  result : Except Error Value
  calls : List SetCall

/-- The block of `BaseProxyHandler::set` applied to the descriptor of an own
property (source lines 214-238); `desc.obj` is not `NULL`. -/
def BaseProxyHandler.set.ownBlock (cx : JSContext) (this : ProxyHandler) (proxy : ProxyObject)
    (receiver : ObjRef) (id : jsid) (strict : Bool) (desc : PropertyDescriptor) (vp : Value) :
    SetOutcome :=
  -- Check for read-only properties.
  if hasAttr desc.attrs JSPROP_READONLY then
    ⟨if strict then Throw id .JSMSG_CANT_REDEFINE_PROP else .ok vp, []⟩
  else
    let afterSetter : SetOutcome ⊕ (PropertyDescriptor × Value × List SetCall) :=
      if desc.setter == .null then
        -- Be wary of the odd explicit undefined setter case possible through
        -- Object.defineProperty.
        if !hasAttr desc.attrs JSPROP_SETTER then
          .inr ({ desc with setter := JS_StrictPropertyStub }, vp, [])
        else
          .inr (desc, vp, [])
      else if hasAttr desc.attrs JSPROP_SETTER || desc.setter != JS_StrictPropertyStub then
        match cx.callSetter receiver id desc.setter desc.attrs desc.shortid strict vp with
        | none =>
          .inl ⟨.error .thrown,
            [.CallSetter receiver id desc.setter desc.attrs desc.shortid strict vp]⟩
        | some (value, handled) =>
          if !handled then
            .inl ⟨.ok value,
              [.CallSetter receiver id desc.setter desc.attrs desc.shortid strict vp]⟩
          else if hasAttr desc.attrs JSPROP_SHARED then
            .inl ⟨.ok value,
              [.CallSetter receiver id desc.setter desc.attrs desc.shortid strict vp]⟩
          else
            .inr (desc, value,
              [.CallSetter receiver id desc.setter desc.attrs desc.shortid strict vp])
      else
        .inr (desc, vp, [])
    match afterSetter with
    | .inl outcome => outcome
    | .inr (desc, vp, calls) =>
      -- Same as above for the null setter case.
      let desc :=
        if desc.getter == .null && !hasAttr desc.attrs JSPROP_GETTER then
          { desc with getter := JS_PropertyStub }
        else desc
      let desc := { desc with value := vp }
      ⟨match this.defineProperty cx proxy receiver id desc with
        | .error e => .error e
        | .ok _ => .ok vp,
       calls ++ [.defineProperty receiver id desc]⟩

/-- The block of `BaseProxyHandler::set` applied to the descriptor of an
inherited property (source lines 243-267); `desc.obj` is not `NULL`. -/
def BaseProxyHandler.set.inheritedBlock (cx : JSContext) (this : ProxyHandler)
    (proxy : ProxyObject) (receiver : ObjRef) (id : jsid) (strict : Bool)
    (desc : PropertyDescriptor) (vp : Value) : SetOutcome :=
  -- Check for read-only properties.
  if hasAttr desc.attrs JSPROP_READONLY then
    ⟨if strict then Throw id .JSMSG_CANT_REDEFINE_PROP else .ok vp, []⟩
  else
    let afterSetter : SetOutcome ⊕ (PropertyDescriptor × Value × List SetCall) :=
      if desc.setter == .null then
        -- Be wary of the odd explicit undefined setter case possible through
        -- Object.defineProperty.
        if !hasAttr desc.attrs JSPROP_SETTER then
          .inr ({ desc with setter := JS_StrictPropertyStub }, vp, [])
        else
          .inr (desc, vp, [])
      else if hasAttr desc.attrs JSPROP_SETTER || desc.setter != JS_StrictPropertyStub then
        match cx.callSetter receiver id desc.setter desc.attrs desc.shortid strict vp with
        | none =>
          .inl ⟨.error .thrown,
            [.CallSetter receiver id desc.setter desc.attrs desc.shortid strict vp]⟩
        | some (value, handled) =>
          if !handled then
            .inl ⟨.ok value,
              [.CallSetter receiver id desc.setter desc.attrs desc.shortid strict vp]⟩
          else if hasAttr desc.attrs JSPROP_SHARED then
            .inl ⟨.ok value,
              [.CallSetter receiver id desc.setter desc.attrs desc.shortid strict vp]⟩
          else
            .inr (desc, value,
              [.CallSetter receiver id desc.setter desc.attrs desc.shortid strict vp])
      else
        .inr (desc, vp, [])
    match afterSetter with
    | .inl outcome => outcome
    | .inr (desc, vp, calls) =>
      -- Same as above for the null setter case.
      let desc :=
        if desc.getter == .null && !hasAttr desc.attrs JSPROP_GETTER then
          { desc with getter := JS_PropertyStub }
        else desc
      let desc := { desc with value := vp }
      ⟨match this.defineProperty cx proxy receiver id desc with
        | .error e => .error e
        | .ok _ => .ok vp,
       calls ++ [.defineProperty receiver id desc]⟩

/-- `BaseProxyHandler::set`; `this` is the handler, `vp` the content of the
caller's value slot on entry.  The local descriptor starts out as the rooter
leaves it. -/
def BaseProxyHandler.set (cx : JSContext) (this : ProxyHandler) (proxy : ProxyObject)
    (receiver : ObjRef) (id : jsid) (strict : Bool) (vp : Value) : SetOutcome :=
  match this.getOwnPropertyDescriptor cx proxy id PropertyDescriptor.notFound with
  | .error e => ⟨.error e, []⟩
  | .ok desc =>
    -- The control-flow here differs from ::get() because of the fall-through case below.
    if desc.obj.isSome then
      BaseProxyHandler.set.ownBlock cx this proxy receiver id strict desc vp
    else
      match this.getPropertyDescriptor cx proxy id desc with
      | .error e => ⟨.error e, []⟩
      | .ok desc =>
        if desc.obj.isSome then
          BaseProxyHandler.set.inheritedBlock cx this proxy receiver id strict desc vp
        else
          let desc : PropertyDescriptor :=
            { desc with obj := some receiver, value := vp, attrs := JSPROP_ENUMERATE,
                        shortid := 0, getter := .null, setter := .null }
          ⟨match this.defineProperty cx proxy receiver id desc with
            | .error e => .error e
            | .ok _ => .ok vp,
           [.defineProperty receiver id desc]⟩

/-- The state of the loop of `BaseProxyHandler::keys`: the vector, the write
index `i` and the descriptor the lookups share. -/
structure KeysLoop where
  props : List jsid
  i : Nat
  desc : PropertyDescriptor
  deriving DecidableEq, Repr

/-- The body of the loop of `BaseProxyHandler::keys` at read index `j`, which is
below the length of the vector. -/
def BaseProxyHandler.keys.body (cx : JSContext) (this : ProxyHandler) (proxy : ProxyObject)
    (j : Nat) (s : KeysLoop) : Except Error KeysLoop :=
  match s.props[j]? with
  | none => .ok s
  | some id =>
    match this.getOwnPropertyDescriptor cx proxy id s.desc with
    | .error e => .error e
    | .ok desc =>
      if desc.obj.isSome && hasAttr desc.attrs JSPROP_ENUMERATE then
        .ok ⟨s.props.set s.i id, s.i + 1, desc⟩
      else
        .ok ⟨s.props, s.i, desc⟩

/-- The loop of `BaseProxyHandler::keys`: `n` iterations from read index `j`
on. -/
def BaseProxyHandler.keys.loop (cx : JSContext) (this : ProxyHandler) (proxy : ProxyObject) :
    Nat → Nat → KeysLoop → Except Error KeysLoop
  | 0, _, s => .ok s
  | n + 1, j, s =>
    match BaseProxyHandler.keys.body cx this proxy j s with
    | .error e => .error e
    | .ok s => BaseProxyHandler.keys.loop cx this proxy n (j + 1) s

/-- `BaseProxyHandler::keys`; `props` is the content of the caller's vector on
entry, which the source asserts to be empty, the result its content on
success.  The `AutoWaivePolicy` guard around each lookup acts on the debug
assertions only. -/
def BaseProxyHandler.keys (cx : JSContext) (this : ProxyHandler) (proxy : ProxyObject)
    (props : List jsid) : Except Error (List jsid) :=
  match this.getOwnPropertyNames cx proxy props with
  | .error e => .error e
  | .ok props =>
    -- Select only the enumerable properties through in-place iteration.
    match BaseProxyHandler.keys.loop cx this proxy props.length 0
        ⟨props, 0, PropertyDescriptor.notFound⟩ with
    | .error e => .error e
    | .ok s => .ok (s.props.take s.i)

/-- `Proxy::getPropertyDescriptor`, descriptor form; `desc` is the content of the
caller's descriptor on entry.  A descriptor found on the prototype names its
holder by the position on the chain of the prototype. -/
def Proxy.getPropertyDescriptor (cx : JSContext) (handler : ProxyHandler) (proxy : ProxyObject)
    (id : jsid) (desc : PropertyDescriptor) : Entered PropertyDescriptor :=
  if cx.overRecursed then
    ⟨.overRecursed, []⟩
  else
    -- default result if we refuse to perform this action
    let desc := { desc with obj := none }
    let policy := AutoEnterPolicy.create cx handler.toBaseProxyHandler proxy id .GET true
    let entered := AutoEnterPolicy.entered handler.toBaseProxyHandler
    if !policy.allowed then
      ⟨.denied policy.returnValue desc, entered⟩
    else if !handler.hasPrototype then
      ⟨.performed (handler.getPropertyDescriptor cx proxy id desc),
        entered ++ [.getPropertyDescriptor]⟩
    else
      match handler.getOwnPropertyDescriptor cx proxy id desc with
      | .error e => ⟨.performed (.error e), entered ++ [.getOwnPropertyDescriptor]⟩
      | .ok desc =>
        if desc.obj.isSome then
          ⟨.performed (.ok desc), entered ++ [.getOwnPropertyDescriptor]⟩
        else
          ⟨.performed (INVOKE_ON_PROTOTYPE cx handler.toBaseProxyHandler proxy desc
              (fun proto => .ok (JS_GetPropertyDescriptorById proto id 0))),
            entered ++ [.getOwnPropertyDescriptor, .getPrototypeOf]⟩

/-- `Proxy::getPropertyDescriptor`, value form; `vp` is the content of the
caller's value slot on entry.  The local descriptor starts out as the rooter
leaves it. -/
def Proxy.getPropertyDescriptorValue (cx : JSContext) (handler : ProxyHandler)
    (proxy : ProxyObject) (id : jsid) (vp : DescriptorValue) : Entered DescriptorValue :=
  if cx.overRecursed then
    ⟨.overRecursed, []⟩
  else
    let inner := Proxy.getPropertyDescriptor cx handler proxy id PropertyDescriptor.notFound
    match inner.out with
    | .overRecursed => ⟨.overRecursed, inner.methods⟩
    | .denied rv desc =>
      if !rv then
        ⟨.denied false vp, inner.methods⟩
      else
        match NewPropertyDescriptorObject desc with
        | .error e => ⟨.performed (.error e), inner.methods⟩
        | .ok value => ⟨.denied true value, inner.methods⟩
    | .performed (.error e) => ⟨.performed (.error e), inner.methods⟩
    | .performed (.ok desc) => ⟨.performed (NewPropertyDescriptorObject desc), inner.methods⟩

/-- `Proxy::defineProperty`, descriptor form. -/
def Proxy.defineProperty (cx : JSContext) (handler : ProxyHandler) (proxy : ProxyObject)
    (id : jsid) (desc : PropertyDescriptor) : Entered Unit :=
  if cx.overRecursed then
    ⟨.overRecursed, []⟩
  else
    let policy := AutoEnterPolicy.create cx handler.toBaseProxyHandler proxy id .SET true
    let entered := AutoEnterPolicy.entered handler.toBaseProxyHandler
    if !policy.allowed then
      ⟨.denied policy.returnValue (), entered⟩
    else
      ⟨.performed (handler.defineProperty cx proxy .proxy id desc), entered ++ [.defineProperty]⟩

/-- `Proxy::defineProperty`, value form. -/
def Proxy.definePropertyValue (cx : JSContext) (handler : ProxyHandler) (proxy : ProxyObject)
    (id : jsid) (v : DescriptorValue) : Entered Unit :=
  if cx.overRecursed then
    ⟨.overRecursed, []⟩
  else
    match ParsePropertyDescriptorObject .proxy v false with
    | .error e => ⟨.performed (.error e), []⟩
    | .ok desc => Proxy.defineProperty cx handler proxy id desc

/-- `Proxy::getOwnPropertyNames`; `props` is the content of the caller's vector
on entry. -/
def Proxy.getOwnPropertyNames (cx : JSContext) (handler : ProxyHandler) (proxy : ProxyObject)
    (props : List jsid) : Entered (List jsid) :=
  if cx.overRecursed then
    ⟨.overRecursed, []⟩
  else
    let policy := AutoEnterPolicy.create cx handler.toBaseProxyHandler proxy .void .GET true
    let entered := AutoEnterPolicy.entered handler.toBaseProxyHandler
    if !policy.allowed then
      ⟨.denied policy.returnValue props, entered⟩
    else
      ⟨.performed (handler.getOwnPropertyNames cx proxy props),
        entered ++ [.getOwnPropertyNames]⟩

/-- `Proxy::delete_`; `_bp` is the content of the caller's flag on entry. -/
def Proxy.delete_ (cx : JSContext) (handler : ProxyHandler) (proxy : ProxyObject) (id : jsid)
    (_bp : Bool) : Entered Bool :=
  if cx.overRecursed then
    ⟨.overRecursed, []⟩
  else
    -- default result if we refuse to perform this action
    let bp := true
    let policy := AutoEnterPolicy.create cx handler.toBaseProxyHandler proxy id .SET true
    let entered := AutoEnterPolicy.entered handler.toBaseProxyHandler
    if !policy.allowed then
      ⟨.denied policy.returnValue bp, entered⟩
    else
      ⟨.performed (handler.delete_ cx proxy id), entered ++ [.delete_]⟩

/-- The inner loop of `js::AppendUnique`: whether `id` equals no element of
`base`. -/
def AppendUnique.unique (id : jsid) : List jsid → Bool
  | [] => true
  | b :: rest => if id == b then false else AppendUnique.unique id rest

/-- The outer loop of `js::AppendUnique` over `others`, `uniqueOthers` being the
vector collected so far. -/
def AppendUnique.collect (base : List jsid) : List jsid → List jsid → List jsid
  | [], uniqueOthers => uniqueOthers
  | o :: rest, uniqueOthers =>
    AppendUnique.collect base rest
      (if AppendUnique.unique o base then uniqueOthers ++ [o] else uniqueOthers)

/-- `js::AppendUnique(cx, base, others)`: the content of `base` afterwards;
growing a vector does not fail. -/
def AppendUnique (base others : List jsid) : List jsid :=
  base ++ AppendUnique.collect base others []

/-- `Proxy::enumerate`; `props` is the content of the caller's vector on entry. -/
def Proxy.enumerate (cx : JSContext) (handler : ProxyHandler) (proxy : ProxyObject)
    (props : List jsid) : Entered (List jsid) :=
  if cx.overRecursed then
    ⟨.overRecursed, []⟩
  else
    let policy := AutoEnterPolicy.create cx handler.toBaseProxyHandler proxy .void .GET true
    let entered := AutoEnterPolicy.entered handler.toBaseProxyHandler
    if !policy.allowed then
      ⟨.denied policy.returnValue props, entered⟩
    else if !handler.hasPrototype then
      ⟨.performed (handler.enumerate cx proxy props), entered ++ [.enumerate]⟩
    else
      match handler.keys cx proxy props with
      | .error e => ⟨.performed (.error e), entered ++ [.keys]⟩
      | .ok props =>
        ⟨.performed (INVOKE_ON_PROTOTYPE cx handler.toBaseProxyHandler proxy props
            (fun proto => .ok (AppendUnique props (GetPropertyNames proto 0)))),
          entered ++ [.keys, .getPrototypeOf]⟩

/-- `Proxy::getElementIfPresent`; `vp` and `present` are the contents of the
caller's value slot and flag on entry. -/
def Proxy.getElementIfPresent (cx : JSContext) (handler : ProxyHandler) (proxy : ProxyObject)
    (receiver : ObjRef) (index : Nat) (vp : Value) (present : Bool) : Entered (Value × Bool) :=
  if cx.overRecursed then
    ⟨.overRecursed, []⟩
  else
    let id := IndexToId index
    let policy := AutoEnterPolicy.create cx handler.toBaseProxyHandler proxy id .GET true
    let entered := AutoEnterPolicy.entered handler.toBaseProxyHandler
    if !policy.allowed then
      ⟨.denied policy.returnValue (vp, present), entered⟩
    else if !handler.hasPrototype then
      ⟨.performed (handler.getElementIfPresent cx proxy receiver index vp present),
        entered ++ [.getElementIfPresent]⟩
    else
      match handler.hasOwn cx proxy id with
      | .error e => ⟨.performed (.error e), entered ++ [.hasOwn]⟩
      | .ok hasOwn =>
        if hasOwn then
          ⟨.performed
              (match handler.get cx proxy receiver id vp with
               | .error e => .error e
               | .ok v => .ok (v, true)),
            entered ++ [.hasOwn, .get]⟩
        else
          ⟨.performed (INVOKE_ON_PROTOTYPE cx handler.toBaseProxyHandler proxy (vp, present)
              (fun proto => JSObject.getElementIfPresent cx proto receiver index vp present)),
            entered ++ [.hasOwn, .getPrototypeOf]⟩

/-- `Proxy::set`; `vp` is the content of the caller's value slot on entry.  The
outputs are the content of the value slot and, when the assignment was carried
out on the prototype, the prototype afterwards. -/
def Proxy.set (cx : JSContext) (handler : ProxyHandler) (proxy : ProxyObject)
    (receiver : ObjRef) (id : jsid) (strict : Bool) (vp : Value) :
    Entered (Value × Option JSObject) :=
  if cx.overRecursed then
    ⟨.overRecursed, []⟩
  else
    let policy := AutoEnterPolicy.create cx handler.toBaseProxyHandler proxy id .SET true
    let entered := AutoEnterPolicy.entered handler.toBaseProxyHandler
    let viaHandler : Except Error (Value × Option JSObject) :=
      match handler.set cx proxy receiver id strict vp with
      | .error e => .error e
      | .ok v => .ok (v, none)
    if !policy.allowed then
      ⟨.denied policy.returnValue (vp, none), entered⟩
    else if handler.hasPrototype then
      -- If we're using a prototype, we still want to use the proxy trap unless
      -- we have a non-own property with a setter.
      match handler.hasOwn cx proxy id with
      | .error e => ⟨.performed (.error e), entered ++ [.hasOwn]⟩
      | .ok hasOwn =>
        if !hasOwn then
          match handler.getPrototypeOf cx proxy with
          | .error e => ⟨.performed (.error e), entered ++ [.hasOwn, .getPrototypeOf]⟩
          | .ok none => ⟨.performed viaHandler, entered ++ [.hasOwn, .getPrototypeOf, .set]⟩
          | .ok (some proto) =>
            let desc := JS_GetPropertyDescriptorById proto id 0
            if desc.obj.isSome && desc.setter != .null then
              ⟨.performed
                  (match JSObject.setGeneric cx proto receiver id vp strict with
                   | (.error e, _) => .error e
                   | (.ok v, proto) => .ok (v, some proto)),
                entered ++ [.hasOwn, .getPrototypeOf]⟩
            else
              ⟨.performed viaHandler, entered ++ [.hasOwn, .getPrototypeOf, .set]⟩
        else
          ⟨.performed viaHandler, entered ++ [.hasOwn, .set]⟩
    else
      ⟨.performed viaHandler, entered ++ [.set]⟩

/-- `Proxy::keys`; `props` is the content of the caller's vector on entry. -/
def Proxy.keys (cx : JSContext) (handler : ProxyHandler) (proxy : ProxyObject)
    (props : List jsid) : Entered (List jsid) :=
  if cx.overRecursed then
    ⟨.overRecursed, []⟩
  else
    let policy := AutoEnterPolicy.create cx handler.toBaseProxyHandler proxy .void .GET true
    let entered := AutoEnterPolicy.entered handler.toBaseProxyHandler
    if !policy.allowed then
      ⟨.denied policy.returnValue props, entered⟩
    else
      ⟨.performed (handler.keys cx proxy props), entered ++ [.keys]⟩

/-- `Proxy::iterate`; `_vp` is the content of the caller's value slot on entry.
With a prototype the key snapshot comes from `Proxy::keys` or
`Proxy::enumerate` on a fresh vector. -/
def Proxy.iterate (cx : JSContext) (handler : ProxyHandler) (proxy : ProxyObject)
    (flags : Nat) (_vp : IterValue) : Entered IterValue :=
  if cx.overRecursed then
    ⟨.overRecursed, []⟩
  else
    -- default result if we refuse to perform this action
    let vp := IterValue.undefined
    if !handler.hasPrototype then
      let policy := AutoEnterPolicy.create cx handler.toBaseProxyHandler proxy .void .GET true
      let entered := AutoEnterPolicy.entered handler.toBaseProxyHandler
      -- If the policy denies access but wants us to return true, we need
      -- to hand a valid (empty) iterator object to the caller.
      if !policy.allowed then
        if policy.returnValue then
          ⟨.denied true (EnumeratedIdVectorToIterator proxy flags []), entered⟩
        else
          ⟨.denied false vp, entered⟩
      else
        ⟨.performed (handler.iterate cx proxy flags), entered ++ [.iterate]⟩
    else
      -- The other Proxy::foo methods do the prototype-aware work for us here.
      let inner :=
        if hasAttr flags JSITER_OWNONLY then Proxy.keys cx handler proxy []
        else Proxy.enumerate cx handler proxy []
      match inner.out with
      | .overRecursed => ⟨.overRecursed, inner.methods⟩
      | .denied rv props =>
        if !rv then
          ⟨.denied false vp, inner.methods⟩
        else
          ⟨.denied true (EnumeratedIdVectorToIterator proxy flags props), inner.methods⟩
      | .performed (.error e) => ⟨.performed (.error e), inner.methods⟩
      | .performed (.ok props) =>
        ⟨.performed (.ok (EnumeratedIdVectorToIterator proxy flags props)), inner.methods⟩

/-- `Proxy::call`; `vp` is the array of callee, `this` and arguments, the output
the content of `vp[0]`. -/
def Proxy.call (cx : JSContext) (handler : ProxyHandler) (proxy : ProxyObject)
    (vp : List Value) : Entered Value :=
  if cx.overRecursed then
    ⟨.overRecursed, []⟩
  else
    -- Because vp[0] is JS_CALLEE on the way in and JS_RVAL on the way out, we
    -- can only set our default value once we're sure that we're not calling the
    -- trap.
    let policy := AutoEnterPolicy.create cx handler.toBaseProxyHandler proxy .void .CALL true
    let entered := AutoEnterPolicy.entered handler.toBaseProxyHandler
    if !policy.allowed then
      ⟨.denied policy.returnValue .undefined, entered⟩
    else
      ⟨.performed (handler.call cx proxy vp), entered ++ [.call]⟩

/-- `Proxy::construct`; `rval` is the content of the caller's result slot on
entry. -/
def Proxy.construct (cx : JSContext) (handler : ProxyHandler) (proxy : ProxyObject)
    (argv : List Value) (rval : Value) : Entered Value :=
  if cx.overRecursed then
    ⟨.overRecursed, []⟩
  else
    let policy := AutoEnterPolicy.create cx handler.toBaseProxyHandler proxy .void .CALL true
    let entered := AutoEnterPolicy.entered handler.toBaseProxyHandler
    if !policy.allowed then
      ⟨.denied policy.returnValue .undefined, entered⟩
    else
      ⟨.performed (handler.construct cx proxy argv rval), entered ++ [.construct]⟩

/-- `Proxy::nativeCall`; `handler` is the handler of the proxy that is the
`this` value of `args`.  No policy is entered. -/
def Proxy.nativeCall (cx : JSContext) (handler : ProxyHandler) (test : Value → Bool)
    (impl : CallArgs → Except Error Value) (args : CallArgs) : Entered Value :=
  if cx.overRecursed then
    ⟨.overRecursed, []⟩
  else
    ⟨.performed (handler.nativeCall cx test impl args), [.nativeCall]⟩

/-- `Proxy::hasInstance`; `_bp` is the content of the caller's flag on entry. -/
def Proxy.hasInstance (cx : JSContext) (handler : ProxyHandler) (proxy : ProxyObject)
    (v : Value) (_bp : Bool) : Entered Bool :=
  if cx.overRecursed then
    ⟨.overRecursed, []⟩
  else
    -- default result if we refuse to perform this action
    let bp := false
    let policy := AutoEnterPolicy.create cx handler.toBaseProxyHandler proxy .void .GET true
    let entered := AutoEnterPolicy.entered handler.toBaseProxyHandler
    if !policy.allowed then
      ⟨.denied policy.returnValue bp, entered⟩
    else
      ⟨.performed (handler.hasInstance cx proxy v), entered ++ [.hasInstance]⟩

/-- `Proxy::objectClassIs`: the answer of the handler. -/
def Proxy.objectClassIs (handler : ProxyHandler) (proxy : ProxyObject) (classValue : Nat)
    (cx : JSContext) : Entered Bool :=
  ⟨.performed (.ok (handler.objectClassIs proxy classValue cx)), [.objectClassIs]⟩

/-- `Proxy::obj_toString`; a failure is the null pointer.  A refusing policy
gets the answer of `BaseProxyHandler::obj_toString`. -/
def Proxy.obj_toString (cx : JSContext) (handler : ProxyHandler) (proxy : ProxyObject) :
    Entered String :=
  if cx.overRecursed then
    ⟨.overRecursed, []⟩
  else
    let policy := AutoEnterPolicy.create cx handler.toBaseProxyHandler proxy .void .GET false
    let entered := AutoEnterPolicy.entered handler.toBaseProxyHandler
    -- Do the safe thing if the policy rejects.
    if !policy.allowed then
      ⟨.performed (BaseProxyHandler.obj_toString cx proxy), entered⟩
    else
      ⟨.performed (handler.obj_toString cx proxy), entered ++ [.obj_toString]⟩

/-- `Proxy::fun_toString`; a failure is the null pointer. -/
def Proxy.fun_toString (cx : JSContext) (handler : ProxyHandler) (proxy : ProxyObject)
    (indent : Nat) : Entered String :=
  if cx.overRecursed then
    ⟨.overRecursed, []⟩
  else
    let policy := AutoEnterPolicy.create cx handler.toBaseProxyHandler proxy .void .GET false
    let entered := AutoEnterPolicy.entered handler.toBaseProxyHandler
    -- Do the safe thing if the policy rejects.
    if !policy.allowed then
      if proxy.isCallable then
        ⟨.performed (.ok "function () \x7b\n    [native code]\n\x7d"), entered⟩
      else
        ⟨.performed (.error (.reported .JSMSG_NOT_FUNCTION)), entered⟩
    else
      ⟨.performed (handler.fun_toString cx proxy indent), entered ++ [.fun_toString]⟩

/-- `Proxy::regexp_toShared`. -/
def Proxy.regexp_toShared (cx : JSContext) (handler : ProxyHandler) (proxy : ProxyObject) :
    Entered Nat :=
  if cx.overRecursed then
    ⟨.overRecursed, []⟩
  else
    ⟨.performed (handler.regexp_toShared cx proxy), [.regexp_toShared]⟩

/-- `Proxy::defaultValue`. -/
def Proxy.defaultValue (cx : JSContext) (handler : ProxyHandler) (proxy : ProxyObject)
    (hint : Nat) : Entered Value :=
  if cx.overRecursed then
    ⟨.overRecursed, []⟩
  else
    ⟨.performed (handler.defaultValue cx proxy hint), [.defaultValue]⟩

/-- `Proxy::getPrototypeOf`. -/
def Proxy.getPrototypeOf (cx : JSContext) (handler : ProxyHandler) (proxy : ProxyObject) :
    Entered (Option JSObject) :=
  if cx.overRecursed then
    ⟨.overRecursed, []⟩
  else
    ⟨.performed (handler.getPrototypeOf cx proxy), [.getPrototypeOf]⟩

/-! ## Named conditions of the properties and example objects -/

/-- The descriptor specifies exactly the current state of a present property:
the same kind, the same value or getter and setter, and the same writable,
enumerable and configurable attributes. -/
def specifiesCurrentState (current : PropertyDescriptor) (desc : PropDesc) : Bool :=
  desc.hasEnumerable && desc.enumerable == hasAttr current.attrs JSPROP_ENUMERATE &&
  desc.hasConfigurable && desc.configurable == !hasAttr current.attrs JSPROP_PERMANENT &&
  (if IsDataDescriptor current then
    desc.hasValue && SameValue desc.value current.value &&
    desc.hasWritable && desc.writable == !hasAttr current.attrs JSPROP_READONLY &&
    !desc.hasGet && !desc.hasSet
  else
    desc.hasGet && desc.getter == current.getter &&
    desc.hasSet && desc.setter == current.setter &&
    !desc.hasValue && !desc.hasWritable)

/-- The ids of a list at which a lookup reports a present descriptor with the
enumerable attribute, in their order.  Each lookup is handed the descriptor the
one before left; a failing lookup fails the selection. -/
def enumerableIds (lookup : jsid → PropertyDescriptor → Except Error PropertyDescriptor) :
    List jsid → PropertyDescriptor → Except Error (List jsid)
  | [], _ => .ok []
  | id :: rest, desc =>
    match lookup id desc with
    | .error e => .error e
    | .ok d =>
      match enumerableIds lookup rest d with
      | .error e => .error e
      | .ok r => .ok (if d.obj.isSome && hasAttr d.attrs JSPROP_ENUMERATE then id :: r else r)

/-- The three scripted direct traps that return a key list. -/
inductive KeyListTrap where
  | getOwnPropertyNames
  | keys
  | enumerate
  deriving DecidableEq, Repr

/-- The slot of the handler object a key-list trap is read from. -/
def KeyListTrap.slot (t : KeyListTrap) (h : HandlerObject) : TrapSlot JSObject ArrayValue :=
  match t with
  | .getOwnPropertyNames => h.getOwnPropertyNames
  | .keys => h.keys
  | .enumerate => h.enumerate

/-- The handler operation behind a key-list trap. -/
def KeyListTrap.run (t : KeyListTrap) (cx : JSContext) (proxy : ProxyObject)
    (props : List jsid) : Except Error (List jsid) :=
  match t with
  | .getOwnPropertyNames => ScriptedDirectProxyHandler.getOwnPropertyNames cx proxy props
  | .keys => ScriptedDirectProxyHandler.keys cx proxy props
  | .enumerate => ScriptedDirectProxyHandler.enumerate cx proxy props

/-- The iteration flags the handler operation of a key-list trap hands to
`ArrayToIdVector`. -/
def KeyListTrap.flags : KeyListTrap → Nat
  | .getOwnPropertyNames => JSITER_OWNONLY ||| JSITER_HIDDEN
  | .keys => JSITER_OWNONLY
  | .enumerate => 0


/-- The policy gate of `handler` refuses the action `act` at the key `id` of
`proxy` and prescribes `rv`: the handler has a policy, `enter` returns false and
leaves `rv` in `*bp`. -/
def policyRefuses (cx : JSContext) (handler : BaseProxyHandler) (proxy : ProxyObject)
    (id : jsid) (act : Action) (rv : Bool) : Bool :=
  handler.hasPolicy && handler.enter cx proxy id act == (false, rv)

namespace Example

/-- The key `x`. -/
def x : jsid := .atom "x"

/-- A target without prototype whose only own property is a data property `x`. -/
def dataTarget (attrs : Nat) (v : Value) (extensible : Bool) : JSObject :=
  ⟨⟨[(x, ⟨attrs, .null, .null, v⟩)], extensible⟩, []⟩

/-- A target without prototype whose only own property is an accessor property
`x` with a getter and a setter object. -/
def accessorTarget (attrs : Nat) (getter setter : PropertyOp) : JSObject :=
  ⟨⟨[(x, ⟨attrs ||| JSPROP_GETTER ||| JSPROP_SETTER ||| JSPROP_SHARED, getter, setter,
      .undefined⟩)], true⟩, []⟩

/-- A target without prototype and without own properties. -/
def emptyTarget (extensible : Bool) : JSObject := ⟨⟨[], extensible⟩, []⟩

/-- A reported descriptor that specifies only a value. -/
def valueOnly (v : Value) : PropDesc :=
  { PropDesc.undefined with isUndefined_ := false, hasValue_ := true, value_ := v,
                            attrs := JSPROP_PERMANENT ||| JSPROP_READONLY }

/-- A reported descriptor that specifies only a getter. -/
def getOnly (g : Value) : PropDesc :=
  { PropDesc.undefined with isUndefined_ := false, hasGet_ := true, get_ := g,
                            attrs := JSPROP_PERMANENT ||| JSPROP_GETTER ||| JSPROP_SHARED }

/-- A complete data descriptor. -/
def dataDesc (v : Value) (writable enumerable configurable : Bool) : PropDesc :=
  { value_ := v, get_ := .undefined, set_ := .undefined,
    attrs := (if writable then 0 else JSPROP_READONLY) |||
             (if enumerable then JSPROP_ENUMERATE else 0) |||
             (if configurable then 0 else JSPROP_PERMANENT),
    hasGet_ := false, hasSet_ := false, hasValue_ := true, hasWritable_ := true,
    hasEnumerable_ := true, hasConfigurable_ := true, isUndefined_ := false }

/-- The script object of a complete data descriptor. -/
def dataDescObject (v : Value) (writable enumerable configurable : Bool) : DescriptorValue :=
  .object ⟨some (.bool enumerable), some (.bool configurable), some v, some (.bool writable),
           none, none⟩

/-- A context below the recursion limit in which script getters, setters and
object conversions throw. -/
def cx : JSContext :=
  ⟨false, fun _ _ => none, fun _ => none, fun _ _ _ => false, fun _ _ _ _ _ _ _ => none⟩

/-- A proxy whose handler object defines only `getOwnPropertyDescriptor`, as a
function that returns `r` whatever its arguments. -/
def describing (target : JSObject) (r : DescriptorValue) : ProxyObject :=
  ⟨target, { HandlerObject.empty with getOwnPropertyDescriptor := .value (fun _ => some r) }, none, false⟩

/-- A proxy whose handler object defines only `get`, as a function that returns
`w` whatever its arguments. -/
def getting (target : JSObject) (w : Value) : ProxyObject :=
  ⟨target, { HandlerObject.empty with get := .value (fun _ => some w) }, none, false⟩

/-- A target without prototype whose only own property is `x`, stored as the
given shape. -/
def shapeTarget (s : Shape) (extensible : Bool) : JSObject :=
  ⟨⟨[(x, s)], extensible⟩, []⟩

/-- A proxy whose handler object defines only `has` and `hasOwn`, both as
functions that return `r` whatever their arguments. -/
def answering (target : JSObject) (r : Value) : ProxyObject :=
  ⟨target, { HandlerObject.empty with has := .value (fun _ => some r),
                                      hasOwn := .value (fun _ => some r) }, none, false⟩

/-- A proxy whose handler object defines only the three key-list traps, each as
a function that returns the array with the given elements. -/
def listing (target : JSObject) (elems : List Value) : ProxyObject :=
  ⟨target, { HandlerObject.empty with getOwnPropertyNames := .value (fun _ => some (.array elems)),
                                      enumerate := .value (fun _ => some (.array elems)),
                                      keys := .value (fun _ => some (.array elems)) }, none, false⟩

/-- A proxy whose handler object defines only `set`, as a function that returns
`r` whatever its arguments. -/
def setting (target : JSObject) (r : Value) : ProxyObject :=
  ⟨target, { HandlerObject.empty with set := .value (fun _ => some r) }, none, false⟩

/-- A proxy whose handler object defines only `deleteProperty`, as a function
that returns `r` whatever its arguments. -/
def deleting (target : JSObject) (r : Value) : ProxyObject :=
  ⟨target, { HandlerObject.empty with deleteProperty := .value (fun _ => some r) }, none, false⟩

/-- A proxy whose handler object defines only `defineProperty`, as a function
that returns `r` whatever its arguments and leaves its descriptor argument as it
received it. -/
def defining (target : JSObject) (r : Value) : ProxyObject :=
  ⟨target, { HandlerObject.empty with defineProperty := .value (fun a => some (r, a.2.2)) },
    none, false⟩

/-- A proxy whose handler object defines only `defineProperty`, as a function
that returns `r` whatever its arguments and leaves its descriptor argument with
the content `after`. -/
def redefining (target : JSObject) (r : Value) (after : DescriptorValue) : ProxyObject :=
  ⟨target, { HandlerObject.empty with defineProperty := .value (fun _ => some (r, after)) },
    none, false⟩

/-- A context beyond the recursion limit. -/
def deepCx : JSContext := { Example.cx with overRecursed := true }

/-- A handler with a policy that answers every `enter` with `allow` and stores
`rv`.  Its other methods succeed with fixed answers: the own-property question
with `own`, a key list by appending `ks` to the vector, `getPrototypeOf` with the
prototype of the proxy. -/
def guarded (hasPrototype allow rv own : Bool) (ks : List jsid) : ProxyHandler :=
  { mHasPrototype := hasPrototype
    mHasPolicy := true
    enter := fun _ _ _ _ => (allow, rv)
    getOwnPropertyDescriptor := fun _ _ _ desc => .ok desc
    has := fun _ _ _ => .ok true
    hasOwn := fun _ _ _ => .ok own
    get := fun _ _ _ _ _ => .ok (.number 7)
    getPrototypeOf := fun _ proxy => .ok proxy.proto
    getPropertyDescriptor := fun _ _ _ desc => .ok desc
    defineProperty := fun _ _ _ _ _ => .ok ()
    getOwnPropertyNames := fun _ _ props => .ok (props ++ ks)
    delete_ := fun _ _ _ => .ok true
    enumerate := fun _ _ props => .ok (props ++ ks)
    set := fun _ _ _ _ _ vp => .ok vp
    keys := fun _ _ props => .ok (props ++ ks)
    iterate := fun _ _ flags => .ok (.iterator flags ks)
    call := fun _ _ _ => .ok (.number 7)
    construct := fun _ _ _ _ => .ok (.number 7)
    nativeCall := fun _ _ impl args => impl args
    hasInstance := fun _ _ _ => .ok true
    objectClassIs := fun _ _ _ => true
    obj_toString := fun _ _ => .ok "[object Proxy]"
    fun_toString := fun _ _ _ => .ok "function"
    regexp_toShared := fun _ _ => .ok 0
    defaultValue := fun _ _ _ => .ok (.number 7)
    getElementIfPresent := fun _ _ _ _ _ _ => .ok (.number 7, true)
    weakmapKeyDelegate := fun _ => none }

/-- A proxy without traps over `target` whose own prototype is `proto`. -/
def inheriting (target proto : JSObject) : ProxyObject :=
  ⟨target, HandlerObject.empty, some proto, false⟩

/-- The key `y`. -/
def y : jsid := .atom "y"

/-- An object without prototype whose own properties are the enumerable data
properties `x` and `y`. -/
def xy : JSObject :=
  ⟨⟨[(x, ⟨JSPROP_ENUMERATE, .null, .null, .number 1⟩),
     (y, ⟨JSPROP_ENUMERATE, .null, .null, .number 2⟩)], true⟩, []⟩

/-- A handler without policy and prototype that answers the descriptor lookups
and the own key list from the target, as `DirectProxyHandler` does. -/
def direct : ProxyHandler :=
  { guarded false true false true [] with
    mHasPolicy := false
    getOwnPropertyDescriptor := DirectProxyHandler.getOwnPropertyDescriptor
    getPropertyDescriptor := DirectProxyHandler.getPropertyDescriptor
    getOwnPropertyNames := DirectProxyHandler.getOwnPropertyNames }

/-- An object without prototype whose own properties are the enumerable data
property `x` and the non-enumerable data property `y`. -/
def xShown : JSObject :=
  ⟨⟨[(x, ⟨JSPROP_ENUMERATE, .null, .null, .number 1⟩),
     (y, ⟨0, .null, .null, .number 2⟩)], true⟩, []⟩

/-- A proxy whose handler object defines no trap. -/
def trapless (target : JSObject) : ProxyObject :=
  ⟨target, HandlerObject.empty, none, false⟩

end Example

/-! # Theorems -/

/-! ## Lookups on a native object -/

theorem lookupChain_obj_ne_self (id : jsid) (l : List ObjectData) (n : Nat) :
    (lookupChain id l (n + 1)).obj ≠ some (.target 0) := by
  induction l generalizing n with
  | nil => simp [lookupChain, PropertyDescriptor.notFound]
  | cons o rest ih =>
    unfold lookupChain
    split
    · simp
    · exact ih (n + 1)

theorem JS_GetPropertyDescriptorById_own {obj : JSObject} {id : jsid} {s : Shape} (flags : Nat)
    (h : obj.own.props.lookup id = some s) :
    JS_GetPropertyDescriptorById obj id flags =
      ⟨some (.target 0), s.attrs, s.getter, s.setter, s.value, 0⟩ := by
  simp [JS_GetPropertyDescriptorById, lookupChain, h]

theorem GetOwnPropertyDescriptor_own {obj : JSObject} {id : jsid} {s : Shape} (flags : Nat)
    (h : obj.own.props.lookup id = some s) :
    GetOwnPropertyDescriptor obj id flags =
      ⟨some (.target 0), s.attrs, s.getter, s.setter, s.value, 0⟩ := by
  simp [GetOwnPropertyDescriptor, JS_GetPropertyDescriptorById_own flags h]

theorem HasOwn_eq_isSome (obj : JSObject) (id : jsid) :
    HasOwn obj id = (obj.own.props.lookup id).isSome := by
  unfold HasOwn JS_GetPropertyDescriptorById
  cases h : obj.own.props.lookup id with
  | some s => simp [lookupChain, h]
  | none =>
    have := lookupChain_obj_ne_self id obj.protos 0
    simp [lookupChain, h]
    simpa using this

theorem IsSealed_own {obj : JSObject} {id : jsid} {s : Shape}
    (h : obj.own.props.lookup id = some s) :
    IsSealed obj id = hasAttr s.attrs JSPROP_PERMANENT := by
  simp [IsSealed, GetOwnPropertyDescriptor_own 0 h]

theorem IsSealed_of_not_own {obj : JSObject} {id : jsid}
    (h : obj.own.props.lookup id = none) : IsSealed obj id = false := by
  have h1 : HasOwn obj id = false := by simp [HasOwn_eq_isSome, h]
  unfold HasOwn at h1
  unfold IsSealed GetOwnPropertyDescriptor
  simp only [beq_eq_false_iff_ne, ne_eq] at h1
  simp [h1]

/-! ## `ValidateProperty` -/

/-- C5. `ValidateProperty` is reflexive: at a key where the target has an own
property, a descriptor that specifies exactly the current state of that property
is judged compatible. -/
theorem ValidateProperty_reflexive (obj : JSObject) (id : jsid) (desc : PropDesc)
    (_hown : (GetOwnPropertyDescriptor obj id 0).obj.isSome = true)
    (hsame : specifiesCurrentState (GetOwnPropertyDescriptor obj id 0) desc = true) :
    ValidateProperty obj id desc = true := by
  unfold ValidateProperty
  generalize GetOwnPropertyDescriptor obj id 0 = current at *
  have h6 : (ValidateProperty.step6 current desc &&
      (!desc.hasValue || SameValue desc.value current.value)) = true := by
    unfold specifiesCurrentState at hsame
    unfold ValidateProperty.step6
    by_cases hd : IsDataDescriptor current = true
    · simp [hd] at hsame
      simp [hsame]
    · simp [hd] at hsame
      simp [hsame]
  simp only [h6]
  split <;> simp

theorem ValidateProperty_reflexive_witness :
    (GetOwnPropertyDescriptor (Example.dataTarget 6 (.number 1) true) Example.x 0).obj.isSome = true ∧
    specifiesCurrentState (GetOwnPropertyDescriptor (Example.dataTarget 6 (.number 1) true) Example.x 0)
      (Example.dataDesc (.number 1) false false false) = true ∧
    ValidateProperty (Example.dataTarget 6 (.number 1) true) Example.x
      (Example.dataDesc (.number 1) false false false) = true :=
  ⟨by decide, by decide,
    ValidateProperty_reflexive _ _ _ (by decide) (by decide)⟩

/-- C6, as stated, fails: the target has a non-configurable accessor property
`x` and the reported descriptor is the data descriptor that specifies only the
value undefined; `ValidateProperty` answers compatible, although the current
property is not configurable. -/
theorem ValidateProperty_kind_mismatch_counterexample :
    (Example.valueOnly .undefined).isDataDescriptor = true ∧
    (Example.valueOnly .undefined).isAccessorDescriptor = false ∧
    IsAccessorDescriptor (GetOwnPropertyDescriptor
      (Example.accessorTarget JSPROP_PERMANENT (.object 7 true) .null) Example.x 0) = true ∧
    hasAttr (GetOwnPropertyDescriptor
      (Example.accessorTarget JSPROP_PERMANENT (.object 7 true) .null) Example.x 0).attrs
      JSPROP_PERMANENT = true ∧
    ValidateProperty (Example.accessorTarget JSPROP_PERMANENT (.object 7 true) .null) Example.x
      (Example.valueOnly .undefined) = true := by
  decide

/-- C6, amended. When the reported descriptor is a data descriptor and the
current own property an accessor property, or the other way round, and step 6
does not accept the descriptor (some attribute it specifies differs from the
current one, or its value is not the same value as the current value), the
result equals "the current property is configurable". -/
theorem ValidateProperty_kind_mismatch (obj : JSObject) (id : jsid) (desc : PropDesc)
    (_hown : (GetOwnPropertyDescriptor obj id 0).obj.isSome = true)
    (hkind :
      (desc.isDataDescriptor = true ∧ desc.isAccessorDescriptor = false ∧
        IsAccessorDescriptor (GetOwnPropertyDescriptor obj id 0) = true) ∨
      (desc.isAccessorDescriptor = true ∧ desc.isDataDescriptor = false ∧
        IsDataDescriptor (GetOwnPropertyDescriptor obj id 0) = true))
    (hstep6 : ¬ (ValidateProperty.step6 (GetOwnPropertyDescriptor obj id 0) desc = true ∧
      (desc.hasValue = true →
        SameValue desc.value (GetOwnPropertyDescriptor obj id 0).value = true))) :
    ValidateProperty obj id desc =
      !hasAttr (GetOwnPropertyDescriptor obj id 0).attrs JSPROP_PERMANENT := by
  unfold ValidateProperty
  generalize GetOwnPropertyDescriptor obj id 0 = current at *
  have h6 : (ValidateProperty.step6 current desc &&
      (!desc.hasValue || SameValue desc.value current.value)) = false := by
    cases h1 : ValidateProperty.step6 current desc
    · simp
    · cases h2 : desc.hasValue
      · exact absurd ⟨h1, by simp [h2]⟩ hstep6
      · cases h3 : SameValue desc.value current.value
        · simp
        · exact absurd ⟨h1, fun _ => h3⟩ hstep6
  simp only [h6]
  unfold IsAccessorDescriptor IsDataDescriptor at hkind
  unfold IsDataDescriptor
  unfold PropDesc.isGenericDescriptor
  unfold PropDesc.isDataDescriptor PropDesc.isAccessorDescriptor at *
  rcases hkind with ⟨hd, ha, hc⟩ | ⟨ha, hd, hc⟩
  · simp only [Bool.and_eq_true, Bool.not_eq_true', Bool.or_eq_true, Bool.and_eq_false_iff,
      Bool.not_eq_false', Bool.or_eq_false_iff] at hd ha hc
    cases hp : hasAttr current.attrs JSPROP_PERMANENT <;>
      cases hv : desc.hasValue <;> cases hw : desc.hasWritable <;>
      cases hg : desc.hasGet <;> cases hs : desc.hasSet <;>
      cases hu : desc.isUndefined <;>
      cases hcfg : (desc.hasConfigurable && desc.configurable) <;>
      cases hen : (desc.hasEnumerable &&
        desc.enumerable != hasAttr current.attrs JSPROP_ENUMERATE) <;>
      simp_all
  · simp only [Bool.and_eq_true, Bool.not_eq_true', Bool.or_eq_true, Bool.and_eq_false_iff,
      Bool.not_eq_false', Bool.or_eq_false_iff] at hd ha hc
    cases hp : hasAttr current.attrs JSPROP_PERMANENT <;>
      cases hv : desc.hasValue <;> cases hw : desc.hasWritable <;>
      cases hg : desc.hasGet <;> cases hs : desc.hasSet <;>
      cases hu : desc.isUndefined <;>
      cases hcfg : (desc.hasConfigurable && desc.configurable) <;>
      cases hen : (desc.hasEnumerable &&
        desc.enumerable != hasAttr current.attrs JSPROP_ENUMERATE) <;>
      simp_all

theorem ValidateProperty_kind_mismatch_witness :
    ValidateProperty (Example.accessorTarget JSPROP_PERMANENT (.object 7 true) .null) Example.x
      (Example.valueOnly (.number 1)) =
      !hasAttr (GetOwnPropertyDescriptor
        (Example.accessorTarget JSPROP_PERMANENT (.object 7 true) .null) Example.x 0).attrs
        JSPROP_PERMANENT :=
  ValidateProperty_kind_mismatch _ _ _ (by decide) (Or.inl (by decide)) (by decide)

/-- C7. When the current own property is non-configurable, a reported descriptor
that specifies configurable = true is incompatible, and so is one that specifies
an enumerable attribute different from the current one. -/
theorem ValidateProperty_nonconfigurable (obj : JSObject) (id : jsid) (desc : PropDesc)
    (_hown : (GetOwnPropertyDescriptor obj id 0).obj.isSome = true)
    (hperm : hasAttr (GetOwnPropertyDescriptor obj id 0).attrs JSPROP_PERMANENT = true) :
    (desc.hasConfigurable = true → desc.configurable = true →
      ValidateProperty obj id desc = false) ∧
    (desc.hasEnumerable = true →
      desc.enumerable ≠ hasAttr (GetOwnPropertyDescriptor obj id 0).attrs JSPROP_ENUMERATE →
      ValidateProperty obj id desc = false) := by
  unfold ValidateProperty ValidateProperty.step6
  generalize GetOwnPropertyDescriptor obj id 0 = current at *
  constructor
  · intro hc hv
    simp [hperm, hc, hv]
  · intro he hne
    have hne' : (desc.enumerable != hasAttr current.attrs JSPROP_ENUMERATE) = true := by
      simpa using hne
    have hne'' : (desc.enumerable == hasAttr current.attrs JSPROP_ENUMERATE) = false := by
      simpa using hne
    simp [hperm, he, hne', hne'']

theorem ValidateProperty_nonconfigurable_witness :
    ValidateProperty (Example.dataTarget 6 (.number 1) true) Example.x
        (Example.dataDesc (.number 1) false false true) = false ∧
    ValidateProperty (Example.dataTarget 6 (.number 1) true) Example.x
        (Example.dataDesc (.number 1) false true false) = false :=
  ⟨(ValidateProperty_nonconfigurable (Example.dataTarget 6 (.number 1) true) Example.x
      (Example.dataDesc (.number 1) false false true) (by decide) (by decide)).1
      (by decide) (by decide),
   (ValidateProperty_nonconfigurable (Example.dataTarget 6 (.number 1) true) Example.x
      (Example.dataDesc (.number 1) false true false) (by decide) (by decide)).2
      (by decide) (by decide)⟩

/-- C8. When the reported descriptor and the current own property are both data
descriptors and the current one is non-configurable and non-writable, the
descriptor is compatible only if it does not request writable = true and any
value it specifies is the same value as the current one. -/
theorem ValidateProperty_readonly_data (obj : JSObject) (id : jsid) (desc : PropDesc)
    (hcur : IsDataDescriptor (GetOwnPropertyDescriptor obj id 0) = true)
    (hdesc : desc.isDataDescriptor = true)
    (hperm : hasAttr (GetOwnPropertyDescriptor obj id 0).attrs JSPROP_PERMANENT = true)
    (hro : hasAttr (GetOwnPropertyDescriptor obj id 0).attrs JSPROP_READONLY = true)
    (hvalid : ValidateProperty obj id desc = true) :
    ¬ (desc.hasWritable = true ∧ desc.writable = true) ∧
    (desc.hasValue = true →
      SameValue desc.value (GetOwnPropertyDescriptor obj id 0).value = true) := by
  unfold ValidateProperty ValidateProperty.step6 at hvalid
  generalize GetOwnPropertyDescriptor obj id 0 = current at *
  unfold PropDesc.isGenericDescriptor at hvalid
  simp only [hcur, hdesc, hperm, hro] at hvalid
  have hdesc' := hdesc
  unfold PropDesc.isDataDescriptor at hdesc'
  cases hv : desc.hasValue <;> cases hw : desc.hasWritable <;>
    cases hwr : desc.writable <;>
    cases hsv : SameValue desc.value current.value <;>
    simp_all

theorem ValidateProperty_readonly_data_witness :
    ValidateProperty (Example.dataTarget 6 (.number 1) true) Example.x
      (Example.valueOnly (.number 1)) = true ∧
    ¬ ((Example.valueOnly (.number 1)).hasWritable = true ∧
        (Example.valueOnly (.number 1)).writable = true) ∧
    ((Example.valueOnly (.number 1)).hasValue = true →
      SameValue (Example.valueOnly (.number 1)).value
        (GetOwnPropertyDescriptor (Example.dataTarget 6 (.number 1) true) Example.x 0).value
        = true) :=
  ⟨by decide,
   ValidateProperty_readonly_data (Example.dataTarget 6 (.number 1) true) Example.x
     (Example.valueOnly (.number 1)) (by decide) (by decide) (by decide) (by decide)
     (by decide)⟩

/-- C9. When the reported descriptor and the current own property are both
accessor descriptors and the current one is non-configurable, the descriptor is
compatible only if the getter it specifies, if any, is the current getter and
the setter it specifies, if any, is the current setter. -/
theorem ValidateProperty_nonconfigurable_accessor (obj : JSObject) (id : jsid)
    (desc : PropDesc)
    (hcur : IsAccessorDescriptor (GetOwnPropertyDescriptor obj id 0) = true)
    (hdesc : desc.isAccessorDescriptor = true)
    (hperm : hasAttr (GetOwnPropertyDescriptor obj id 0).attrs JSPROP_PERMANENT = true)
    (hvalid : ValidateProperty obj id desc = true) :
    (desc.hasGet = true → desc.getter = (GetOwnPropertyDescriptor obj id 0).getter) ∧
    (desc.hasSet = true → desc.setter = (GetOwnPropertyDescriptor obj id 0).setter) := by
  unfold ValidateProperty ValidateProperty.step6 at hvalid
  generalize GetOwnPropertyDescriptor obj id 0 = current at *
  have hnd : IsDataDescriptor current = false := by
    unfold IsAccessorDescriptor at hcur
    unfold IsDataDescriptor
    simp only [Bool.and_eq_true] at hcur
    simp [hcur.1, hcur.2]
  unfold PropDesc.isGenericDescriptor at hvalid
  simp only [hnd, hdesc, hperm] at hvalid
  have hdesc' := hdesc
  unfold PropDesc.isAccessorDescriptor at hdesc'
  cases hg : desc.hasGet <;> cases hs : desc.hasSet <;>
    cases hge : (desc.getter == current.getter) <;>
    cases hse : (desc.setter == current.setter) <;>
    cases hdd : desc.isDataDescriptor <;>
    simp_all

theorem ValidateProperty_nonconfigurable_accessor_witness :
    ValidateProperty (Example.accessorTarget JSPROP_PERMANENT (.object 7 true) .null) Example.x
      (Example.getOnly (.object 7 true)) = true ∧
    ((Example.getOnly (.object 7 true)).hasGet = true →
      (Example.getOnly (.object 7 true)).getter =
        (GetOwnPropertyDescriptor
          (Example.accessorTarget JSPROP_PERMANENT (.object 7 true) .null) Example.x 0).getter) ∧
    ((Example.getOnly (.object 7 true)).hasSet = true →
      (Example.getOnly (.object 7 true)).setter =
        (GetOwnPropertyDescriptor
          (Example.accessorTarget JSPROP_PERMANENT (.object 7 true) .null) Example.x 0).setter) :=
  ⟨by decide,
   ValidateProperty_nonconfigurable_accessor
     (Example.accessorTarget JSPROP_PERMANENT (.object 7 true) .null) Example.x
     (Example.getOnly (.object 7 true)) (by decide) (by decide) (by decide) (by decide)⟩

/-! ## `TrapGetOwnProperty`, `has`, `hasOwn` -/

theorem jsobj_GetOwnPropertyDescriptor_own {obj : JSObject} {id : jsid} {s : Shape}
    (h : obj.own.props.lookup id = some s) :
    (jsobj.GetOwnPropertyDescriptor obj id).obj = some (.target 0) := by
  unfold jsobj.GetOwnPropertyDescriptor
  simp only [h]
  split <;> rfl

theorem ParsePropertyDescriptorObject_obj {obj : ObjRef} {v : DescriptorValue} {c : Bool}
    {d : PropertyDescriptor} (h : ParsePropertyDescriptorObject obj v c = .ok d) :
    d.obj = some obj := by
  unfold ParsePropertyDescriptorObject at h
  split at h
  · cases h
  · cases h
    rfl

theorem TrapGetOwnProperty_sealed_not_undefined {proxy : ProxyObject} {id : jsid} {s : Shape}
    (hown : proxy.target.own.props.lookup id = some s)
    (hperm : hasAttr s.attrs JSPROP_PERMANENT = true)
    {v : DescriptorValue} (h : TrapGetOwnProperty proxy id = .ok v) :
    v.isUndefined = false := by
  have hsealed : IsSealed proxy.target id = true := by rw [IsSealed_own hown]; exact hperm
  unfold TrapGetOwnProperty at h
  simp only [GetDirectProxyHandlerObject, GetProxyTargetObject] at h
  split at h
  · cases h
  · unfold NewPropertyDescriptorObject at h
    simp only [jsobj_GetOwnPropertyDescriptor_own hown] at h
    cases h
    rfl
  · split at h
    · cases h
    · split at h
      · cases h
      · rename_i r hr
        cases hu : r.isUndefined
        · simp only [hu] at h
          repeat' split at h
          all_goals first
            | cases h; exact hu
            | cases h
        · simp [hu, hsealed] at h

/-- C1. When the target has a non-configurable own property at a key, then for
every handler object (trap undefined, trap lookup failing, trap throwing or
returning any value) the scripted direct traps `has`, `hasOwn` and
`getOwnPropertyDescriptor` never complete successfully with the answer absent:
`has` and `hasOwn` do not return false and a descriptor returned by
`getOwnPropertyDescriptor` has a holder. -/
theorem sealed_property_never_reported_absent (cx : JSContext) (proxy : ProxyObject)
    (id : jsid) (s : Shape) (desc0 : PropertyDescriptor)
    (hown : proxy.target.own.props.lookup id = some s)
    (hperm : hasAttr s.attrs JSPROP_PERMANENT = true) :
    ScriptedDirectProxyHandler.has cx proxy id ≠ .ok false ∧
    ScriptedDirectProxyHandler.hasOwn cx proxy id ≠ .ok false ∧
    (∀ d, ScriptedDirectProxyHandler.getOwnPropertyDescriptor cx proxy id desc0 = .ok d →
      d.obj.isSome = true) := by
  have hsealed : IsSealed proxy.target id = true := by rw [IsSealed_own hown]; exact hperm
  have hfixed : HasOwn proxy.target id = true := by simp [HasOwn_eq_isSome, hown]
  refine ⟨?_, ?_, ?_⟩
  · unfold ScriptedDirectProxyHandler.has
    simp only [GetDirectProxyHandlerObject, GetProxyTargetObject]
    split
    · simp
    · simp [DirectProxyHandler.has, GetProxyTargetObject, JS_HasPropertyById,
        JS_GetPropertyDescriptorById_own 0 hown]
    · split
      · simp
      · rename_i r _
        cases hb : ToBoolean r <;> simp [hsealed]
  · unfold ScriptedDirectProxyHandler.hasOwn
    simp only [GetDirectProxyHandlerObject, GetProxyTargetObject]
    split
    · simp
    · simp [DirectProxyHandler.hasOwn, GetProxyTargetObject,
        JS_GetPropertyDescriptorById_own 0 hown]
    · split
      · simp
      · rename_i r _
        cases hb : ToBoolean r <;> simp [hsealed, hfixed]
  · intro d hd
    unfold ScriptedDirectProxyHandler.getOwnPropertyDescriptor at hd
    split at hd
    · cases hd
    · rename_i v hv
      have hu := TrapGetOwnProperty_sealed_not_undefined hown hperm hv
      simp only [hu] at hd
      simp [ParsePropertyDescriptorObject_obj hd]

theorem sealed_property_never_reported_absent_witness :
    ScriptedDirectProxyHandler.has Example.cx
      (Example.getting (Example.dataTarget 6 (.number 1) true) (.number 2)) Example.x
      ≠ .ok false ∧
    ScriptedDirectProxyHandler.hasOwn Example.cx
      (Example.getting (Example.dataTarget 6 (.number 1) true) (.number 2)) Example.x
      ≠ .ok false ∧
    (∀ d, ScriptedDirectProxyHandler.getOwnPropertyDescriptor Example.cx
      (Example.getting (Example.dataTarget 6 (.number 1) true) (.number 2)) Example.x
      PropertyDescriptor.notFound = .ok d → d.obj.isSome = true) :=
  sealed_property_never_reported_absent Example.cx
    (Example.getting (Example.dataTarget 6 (.number 1) true) (.number 2)) Example.x
    ⟨6, .null, .null, .number 1⟩ PropertyDescriptor.notFound (by decide) (by decide)

/-- C2 fails on the code: the target is non-extensible and has no own property
`x`, the trap reports a configurable data descriptor for `x`, and
`TrapGetOwnProperty` succeeds with that descriptor.  Step 9 tests
`target->isExtensible() && !isFixed`, so it fires on extensible targets
instead. -/
theorem TrapGetOwnProperty_reports_new_on_nonextensible :
    (Example.emptyTarget false).isExtensible = false ∧
    (Example.emptyTarget false).own.props.lookup Example.x = none ∧
    TrapGetOwnProperty
      (Example.describing (Example.emptyTarget false)
        (Example.dataDescObject (.number 1) true true true)) Example.x =
      .ok (Example.dataDescObject (.number 1) true true true) ∧
    TrapGetOwnProperty
      (Example.describing (Example.emptyTarget true)
        (Example.dataDescObject (.number 1) true true true)) Example.x =
      .error (.reported .JSMSG_CANT_REPORT_NEW) :=
  ⟨rfl, rfl, rfl, rfl⟩

/-- C3 fails on the code: step 7 of `ScriptedDirectProxyHandler::get` compares
the stored value with the content of the caller's result slot, not with the
trap result.  With the slot holding the stored value 1 a trap result 2 is
returned; through `Proxy::get`, which clears the slot, a stored value undefined
lets the trap result 2 through. -/
theorem ScriptedDirectProxyHandler_get_compares_slot :
    ScriptedDirectProxyHandler.get Example.cx
      (Example.getting
        (Example.dataTarget (JSPROP_PERMANENT ||| JSPROP_READONLY) (.number 1) true)
        (.number 2))
      .proxy Example.x (.number 1) = .ok (.number 2) ∧
    (Proxy.get Example.cx ScriptedDirectProxyHandler.singleton
      (Example.getting
        (Example.dataTarget (JSPROP_PERMANENT ||| JSPROP_READONLY) .undefined true)
        (.number 2))
      .proxy Example.x .null).out = .performed (.ok (.number 2)) :=
  ⟨rfl, rfl⟩

/-- C4, as stated, fails: the target has a configurable own data property `x`,
so no non-configurable one, the trap reports a non-configurable descriptor for
`x`, and `TrapGetOwnProperty` succeeds with it. -/
theorem TrapGetOwnProperty_nonconfigurable_counterexample :
    IsSealed (Example.dataTarget JSPROP_ENUMERATE (.number 1) true) Example.x = false ∧
    (PropDesc.initialize_ (Example.dataDescObject (.number 1) true true false) true).toOption.map
      PropDesc.configurable = some false ∧
    TrapGetOwnProperty
      (Example.describing (Example.dataTarget JSPROP_ENUMERATE (.number 1) true)
        (Example.dataDescObject (.number 1) true true false)) Example.x =
      .ok (Example.dataDescObject (.number 1) true true false) :=
  ⟨rfl, rfl, rfl⟩

/-- C10. At a key that is an own property of the target, with the trap present:
a reported descriptor that `ValidateProperty` judges incompatible makes the
operation fail, and whenever the operation returns a descriptor,
`ValidateProperty` judged that descriptor compatible. -/
theorem TrapGetOwnProperty_fixed_requires_valid (proxy : ProxyObject) (id : jsid) (s : Shape)
    (invoke : JSObject × Value → Option DescriptorValue)
    (hown : proxy.target.own.props.lookup id = some s)
    (htrap : proxy.handler.getOwnPropertyDescriptor = .value invoke) :
    (∀ r r' desc, invoke (proxy.target, IdToValue id) = some r →
      NormalizeAndCompletePropertyDescriptor r = .ok r' → r'.isUndefined = false →
      PropDesc.initialize_ r' true = .ok desc →
      ValidateProperty proxy.target id desc = false →
      TrapGetOwnProperty proxy id = .error (.reported .JSMSG_CANT_REPORT_INVALID)) ∧
    (∀ out, TrapGetOwnProperty proxy id = .ok out → out.isUndefined = false →
      ∃ desc, PropDesc.initialize_ out true = .ok desc ∧
        ValidateProperty proxy.target id desc = true) := by
  have hfixed : HasOwn proxy.target id = true := by simp [HasOwn_eq_isSome, hown]
  constructor
  · intro r r' desc hr hn hu hi hv
    unfold TrapGetOwnProperty
    simp [GetDirectProxyHandlerObject, GetProxyTargetObject, htrap, hr, hn, hu, hfixed, hi, hv]
  · intro out h hu
    unfold TrapGetOwnProperty at h
    simp only [GetDirectProxyHandlerObject, GetProxyTargetObject, htrap] at h
    split at h
    · cases h
    · split at h
      · cases h
      · rename_i r' _
        cases hu' : r'.isUndefined
        · simp only [hu', hfixed] at h
          simp only [Bool.not_true, Bool.and_false, Bool.false_eq_true, if_false,
            Bool.true_and] at h
          split at h
          · cases h
          · rename_i desc hdesc
            cases hv : ValidateProperty proxy.target id desc
            · simp [hv] at h
            · simp [hv] at h
              subst h
              exact ⟨desc, hdesc, hv⟩
        · simp only [hu', if_true] at h
          repeat' split at h
          all_goals first
            | cases h; simp [DescriptorValue.isUndefined] at hu
            | cases h

theorem TrapGetOwnProperty_fixed_requires_valid_witness :
    TrapGetOwnProperty
      (Example.describing (Example.dataTarget 6 (.number 1) true)
        (Example.dataDescObject (.number 2) false false false)) Example.x =
      .error (.reported .JSMSG_CANT_REPORT_INVALID) ∧
    (∃ desc, PropDesc.initialize_ (Example.dataDescObject (.number 1) false false false) true =
        .ok desc ∧
      ValidateProperty (Example.dataTarget 6 (.number 1) true) Example.x desc = true) :=
  ⟨(TrapGetOwnProperty_fixed_requires_valid
      (Example.describing (Example.dataTarget 6 (.number 1) true)
        (Example.dataDescObject (.number 2) false false false))
      Example.x ⟨6, .null, .null, .number 1⟩ (fun _ => some
        (Example.dataDescObject (.number 2) false false false)) (by decide) rfl).1
      (Example.dataDescObject (.number 2) false false false)
      (Example.dataDescObject (.number 2) false false false)
      (Example.dataDesc (.number 2) false false false) rfl rfl rfl rfl (by decide),
   (TrapGetOwnProperty_fixed_requires_valid
      (Example.describing (Example.dataTarget 6 (.number 1) true)
        (Example.dataDescObject (.number 1) false false false))
      Example.x ⟨6, .null, .null, .number 1⟩ (fun _ => some
        (Example.dataDescObject (.number 1) false false false)) (by decide) rfl).2
      (Example.dataDescObject (.number 1) false false false) rfl rfl⟩

/-! ## The configurable attribute along the descriptor conversion -/

theorem and_setAttr (a m p : Nat) (h : m &&& p = 0) : setAttr a m &&& p = a &&& p := by
  unfold setAttr
  rw [Nat.and_distrib_right, h, Nat.or_zero]

theorem and_clearAttr (a m p : Nat) (h : (0xFF ^^^ m) &&& p = p) :
    clearAttr a m &&& p = a &&& p := by
  unfold clearAttr
  rw [Nat.and_assoc, h]

theorem and_clearAttr_self (a m : Nat) (h : (0xFF ^^^ m) &&& m = 0) :
    clearAttr a m &&& m = 0 := by
  unfold clearAttr
  rw [Nat.and_assoc, h, Nat.and_zero]

theorem and_setAttr_self (a m : Nat) : setAttr a m &&& m = m := by
  unfold setAttr
  apply Nat.eq_of_testBit_eq
  intro i
  simp only [Nat.testBit_and, Nat.testBit_or]
  cases a.testBit i <;> cases m.testBit i <;> rfl

theorem PropDesc.readEnumerable_permanent (f : Option Value) (d : PropDesc) :
    (PropDesc.readEnumerable f d).hasConfigurable_ = d.hasConfigurable_ ∧
    (PropDesc.readEnumerable f d).isUndefined_ = d.isUndefined_ ∧
    (PropDesc.readEnumerable f d).attrs &&& JSPROP_PERMANENT = d.attrs &&& JSPROP_PERMANENT := by
  cases f with
  | none => simp [PropDesc.readEnumerable]
  | some v =>
    simp only [PropDesc.readEnumerable, true_and]
    split
    · exact and_setAttr _ _ _ rfl
    · rfl

theorem PropDesc.readConfigurable_permanent (f : Option Value) (d : PropDesc) :
    (PropDesc.readConfigurable f d).isUndefined_ = d.isUndefined_ ∧
    (PropDesc.readConfigurable f d).hasConfigurable_ = (f.isSome || d.hasConfigurable_) ∧
    (PropDesc.readConfigurable f d).attrs &&& JSPROP_PERMANENT =
      (match f with
       | some v => if ToBoolean v then 0 else d.attrs &&& JSPROP_PERMANENT
       | none => d.attrs &&& JSPROP_PERMANENT) := by
  cases f with
  | none => simp [PropDesc.readConfigurable]
  | some v =>
    simp only [PropDesc.readConfigurable, Option.isSome, Bool.true_or, true_and]
    split
    · exact and_clearAttr_self _ _ rfl
    · rfl

theorem PropDesc.readValue_permanent (f : Option Value) (d : PropDesc) :
    (PropDesc.readValue f d).hasConfigurable_ = d.hasConfigurable_ ∧
    (PropDesc.readValue f d).isUndefined_ = d.isUndefined_ ∧
    (PropDesc.readValue f d).attrs = d.attrs := by
  cases f <;> simp [PropDesc.readValue]

theorem PropDesc.readWritable_permanent (f : Option Value) (d : PropDesc) :
    (PropDesc.readWritable f d).hasConfigurable_ = d.hasConfigurable_ ∧
    (PropDesc.readWritable f d).isUndefined_ = d.isUndefined_ ∧
    (PropDesc.readWritable f d).attrs &&& JSPROP_PERMANENT = d.attrs &&& JSPROP_PERMANENT := by
  cases f with
  | none => simp [PropDesc.readWritable]
  | some v =>
    simp only [PropDesc.readWritable, true_and]
    split
    · exact and_clearAttr _ _ _ rfl
    · rfl

theorem PropDesc.readGet_permanent (f : Option Value) (d : PropDesc) :
    (PropDesc.readGet f d).hasConfigurable_ = d.hasConfigurable_ ∧
    (PropDesc.readGet f d).isUndefined_ = d.isUndefined_ ∧
    (PropDesc.readGet f d).attrs &&& JSPROP_PERMANENT = d.attrs &&& JSPROP_PERMANENT := by
  cases f with
  | none => simp [PropDesc.readGet]
  | some v =>
    simp only [PropDesc.readGet, true_and]
    rw [and_clearAttr _ _ _ rfl, and_setAttr _ _ _ rfl]

theorem PropDesc.readSet_permanent (f : Option Value) (d : PropDesc) :
    (PropDesc.readSet f d).hasConfigurable_ = d.hasConfigurable_ ∧
    (PropDesc.readSet f d).isUndefined_ = d.isUndefined_ ∧
    (PropDesc.readSet f d).attrs &&& JSPROP_PERMANENT = d.attrs &&& JSPROP_PERMANENT := by
  cases f with
  | none => simp [PropDesc.readSet]
  | some v =>
    simp only [PropDesc.readSet, true_and]
    rw [and_clearAttr _ _ _ rfl, and_setAttr _ _ _ rfl]

/-- The permanent bit a descriptor object asks for: clear exactly when its
`configurable` property is present and truthy. -/
theorem PropDesc.initialize_permanent {o : DescriptorObject} {chk : Bool} {d : PropDesc}
    (h : PropDesc.initialize_ (.object o) chk = .ok d) :
    d.isUndefined_ = false ∧
    d.hasConfigurable_ = o.configurable.isSome ∧
    d.attrs &&& JSPROP_PERMANENT =
      (match o.configurable with
       | some v => if ToBoolean v then 0 else JSPROP_PERMANENT
       | none => JSPROP_PERMANENT) := by
  unfold PropDesc.initialize_ at h
  simp only at h
  split at h
  · cases h
  · split at h
    · cases h
    · split at h
      · cases h
      · cases h
        refine ⟨?_, ?_, ?_⟩
        · simp only [PropDesc.readSet_permanent, PropDesc.readGet_permanent,
            PropDesc.readWritable_permanent, PropDesc.readValue_permanent,
            PropDesc.readConfigurable_permanent, PropDesc.readEnumerable_permanent]
        · simp only [PropDesc.readSet_permanent, PropDesc.readGet_permanent,
            PropDesc.readWritable_permanent, PropDesc.readValue_permanent,
            PropDesc.readConfigurable_permanent, PropDesc.readEnumerable_permanent]
          simp [PropDesc.undefined]
        · simp only [PropDesc.readSet_permanent, PropDesc.readGet_permanent,
            PropDesc.readWritable_permanent, PropDesc.readValue_permanent,
            PropDesc.readConfigurable_permanent, PropDesc.readEnumerable_permanent]
          cases o.configurable <;> rfl

theorem PropDesc.completeKind_permanent (d : PropDesc) :
    d.completeKind.isUndefined_ = d.isUndefined_ ∧
    d.completeKind.hasConfigurable_ = d.hasConfigurable_ ∧
    d.completeKind.attrs &&& JSPROP_PERMANENT = d.attrs &&& JSPROP_PERMANENT := by
  have k1 : ∀ a, setAttr a JSPROP_READONLY &&& JSPROP_PERMANENT = a &&& JSPROP_PERMANENT :=
    fun a => and_setAttr a _ _ rfl
  unfold PropDesc.completeKind
  split
  · simp only
    split <;> split <;> simp [k1]
  · simp only
    split <;> split <;> simp

theorem PropDesc.completeEnumerable_permanent (d : PropDesc) :
    d.completeEnumerable.isUndefined_ = d.isUndefined_ ∧
    d.completeEnumerable.hasConfigurable_ = d.hasConfigurable_ ∧
    d.completeEnumerable.attrs &&& JSPROP_PERMANENT = d.attrs &&& JSPROP_PERMANENT := by
  have k2 : ∀ a, clearAttr a JSPROP_ENUMERATE &&& JSPROP_PERMANENT = a &&& JSPROP_PERMANENT :=
    fun a => and_clearAttr a _ _ rfl
  unfold PropDesc.completeEnumerable
  split <;> simp [k2]

theorem PropDesc.completeConfigurable_permanent (d : PropDesc) :
    d.completeConfigurable.isUndefined_ = d.isUndefined_ ∧
    d.completeConfigurable.hasConfigurable_ = true ∧
    d.completeConfigurable.attrs &&& JSPROP_PERMANENT =
      (if d.hasConfigurable_ then d.attrs &&& JSPROP_PERMANENT else JSPROP_PERMANENT) := by
  have k3 : ∀ a, setAttr a JSPROP_PERMANENT &&& JSPROP_PERMANENT = JSPROP_PERMANENT :=
    fun a => and_setAttr_self a _
  unfold PropDesc.completeConfigurable
  cases h : d.hasConfigurable_ <;> simp [k3, h]

theorem PropDesc.complete_permanent (d : PropDesc) :
    d.complete.isUndefined_ = d.isUndefined_ ∧
    d.complete.hasConfigurable_ = true ∧
    d.complete.attrs &&& JSPROP_PERMANENT =
      (if d.hasConfigurable_ then d.attrs &&& JSPROP_PERMANENT else JSPROP_PERMANENT) := by
  unfold PropDesc.complete
  obtain ⟨a1, a2, a3⟩ := PropDesc.completeKind_permanent d
  obtain ⟨b1, b2, b3⟩ := PropDesc.completeEnumerable_permanent d.completeKind
  obtain ⟨c1, c2, c3⟩ := PropDesc.completeConfigurable_permanent d.completeKind.completeEnumerable
  refine ⟨by rw [c1, b1, a1], c2, ?_⟩
  rw [c3, b2, a2, b3, a3]

theorem NormalizeAndComplete_object {o : DescriptorObject} {r' : DescriptorValue}
    (hn : NormalizeAndCompletePropertyDescriptor (.object o) = .ok r') :
    ∃ d1, PropDesc.initialize_ (.object o) true = .ok d1 ∧
      r' = .object d1.complete.makeObject := by
  unfold NormalizeAndCompletePropertyDescriptor NormalizePropertyDescriptor at hn
  simp only [DescriptorValue.isUndefined, Bool.and_false, Bool.false_eq_true, if_false,
    if_true] at hn
  split at hn
  · cases hn
  · rename_i d1 hd1
    have hu1 := (PropDesc.initialize_permanent hd1).1
    have hu2 := (PropDesc.complete_permanent d1).1
    unfold FromGenericPropertyDescriptor at hn
    simp only [PropDesc.isUndefined, hu2, hu1, Bool.false_eq_true, if_false] at hn
    cases hn
    exact ⟨d1, hd1, rfl⟩

/-- The descriptor that `TrapGetOwnProperty` validates, parsed from the
normalised and completed trap result, is configurable exactly when the object
the trap returned has a truthy `configurable` property. -/
theorem reported_configurable {o : DescriptorObject} {r' : DescriptorValue} {desc : PropDesc}
    (hn : NormalizeAndCompletePropertyDescriptor (.object o) = .ok r')
    (hi : PropDesc.initialize_ r' true = .ok desc) :
    desc.configurable =
      (match o.configurable with
       | some v => ToBoolean v
       | none => false) := by
  obtain ⟨d1, hd1, rfl⟩ := NormalizeAndComplete_object hn
  obtain ⟨_, hc1, hp1⟩ := PropDesc.initialize_permanent hd1
  obtain ⟨_, hc2, hp2⟩ := PropDesc.complete_permanent d1
  obtain ⟨_, _, hp3⟩ := PropDesc.initialize_permanent hi
  have tb : ∀ b, ToBoolean (.bool b) = b := fun _ => rfl
  have hmk : d1.complete.makeObject.configurable =
      some (.bool ((d1.complete.attrs &&& JSPROP_PERMANENT) == 0)) := by
    simp [PropDesc.makeObject, PropDesc.hasConfigurable, hc2]
  rw [hmk] at hp3
  simp only [tb] at hp3
  unfold PropDesc.configurable
  rw [hp3, hp2, hc1, hp1]
  cases o.configurable with
  | none => simp [JSPROP_PERMANENT]
  | some v => cases hb : ToBoolean v <;> simp [JSPROP_PERMANENT, hb]

/-- C4, amended. If the trap returns an object whose `configurable` property is
absent or falsy, so that the reported descriptor is non-configurable, and the
target has no own property at the key, the operation fails. -/
theorem TrapGetOwnProperty_nonconfigurable_new (proxy : ProxyObject) (id : jsid)
    (invoke : JSObject × Value → Option DescriptorValue) (o : DescriptorObject)
    (htrap : proxy.handler.getOwnPropertyDescriptor = .value invoke)
    (hres : invoke (proxy.target, IdToValue id) = some (.object o))
    (hnc : ∀ v, o.configurable = some v → ToBoolean v = false)
    (hnew : proxy.target.own.props.lookup id = none) :
    ∃ e, TrapGetOwnProperty proxy id = .error e := by
  have hfixed : HasOwn proxy.target id = false := by simp [HasOwn_eq_isSome, hnew]
  unfold TrapGetOwnProperty
  simp only [GetDirectProxyHandlerObject, GetProxyTargetObject, htrap, hres]
  cases hn : NormalizeAndCompletePropertyDescriptor (.object o) with
  | error e => exact ⟨e, rfl⟩
  | ok r' =>
    simp only
    cases hi : PropDesc.initialize_ r' true with
    | error e =>
      obtain ⟨d1, _, hr'⟩ := NormalizeAndComplete_object hn
      have hu : r'.isUndefined = false := by rw [hr']; rfl
      simp only [hu, hfixed, Bool.false_eq_true, if_false, Bool.not_false, Bool.and_true]
      split
      · exact ⟨_, rfl⟩
      · exact ⟨e, rfl⟩
    | ok desc =>
      obtain ⟨d1, _, hr'⟩ := NormalizeAndComplete_object hn
      have hu : r'.isUndefined = false := by rw [hr']; rfl
      have hc := reported_configurable hn hi
      have hc' : desc.configurable = false := by
        rw [hc]
        cases hoc : o.configurable with
        | none => rfl
        | some v => exact hnc v hoc
      simp only [hu, hfixed, hc', Bool.false_eq_true, if_false, Bool.not_false, Bool.and_true,
        Bool.false_and, Bool.and_self, if_true]
      split
      · exact ⟨_, rfl⟩
      · exact ⟨_, rfl⟩

theorem TrapGetOwnProperty_nonconfigurable_new_witness :
    ∃ e, TrapGetOwnProperty
      (Example.describing (Example.emptyTarget false)
        (Example.dataDescObject (.number 1) true true false)) Example.x = .error e :=
  TrapGetOwnProperty_nonconfigurable_new
    (Example.describing (Example.emptyTarget false)
      (Example.dataDescObject (.number 1) true true false))
    Example.x (fun _ => some (Example.dataDescObject (.number 1) true true false))
    ⟨some (.bool true), some (.bool false), some (.number 1), some (.bool true), none, none⟩
    rfl rfl (by intro v hv; cases hv; rfl) rfl

/-! ## Reports of absence and presence on a non-extensible target -/

/-- C11. On a non-extensible target, at a key that is an own property of it, a
trap answer "absent" is rejected: `getOwnPropertyDescriptor` with a trap that
returns undefined fails, and `has` and `hasOwn` with a trap that returns a falsy
value fail, each with the error for a non-configurable or for an existing
property reported as non-existent. -/
theorem fixed_property_not_reported_absent (cx : JSContext) (proxy : ProxyObject) (id : jsid)
    (s : Shape) (desc0 : PropertyDescriptor)
    (hown : proxy.target.own.props.lookup id = some s)
    (hne : proxy.target.isExtensible = false) :
    (∀ invoke, proxy.handler.getOwnPropertyDescriptor = .value invoke →
      invoke (proxy.target, IdToValue id) = some .undefined →
      ∃ n, (n = .JSMSG_CANT_REPORT_NC_AS_NE ∨ n = .JSMSG_CANT_REPORT_E_AS_NE) ∧
        TrapGetOwnProperty proxy id = .error (.reported n) ∧
        ScriptedDirectProxyHandler.getOwnPropertyDescriptor cx proxy id desc0 =
          .error (.reported n)) ∧
    (∀ invoke r, proxy.handler.has = .value invoke →
      invoke (proxy.target, IdToValue id) = some r → ToBoolean r = false →
      ∃ n, (n = .JSMSG_CANT_REPORT_NC_AS_NE ∨ n = .JSMSG_CANT_REPORT_E_AS_NE) ∧
        ScriptedDirectProxyHandler.has cx proxy id = .error (.reported n)) ∧
    (∀ invoke r, proxy.handler.hasOwn = .value invoke →
      invoke (proxy.target, IdToValue id) = some r → ToBoolean r = false →
      ∃ n, (n = .JSMSG_CANT_REPORT_NC_AS_NE ∨ n = .JSMSG_CANT_REPORT_E_AS_NE) ∧
        ScriptedDirectProxyHandler.hasOwn cx proxy id = .error (.reported n)) := by
  have hfixed : HasOwn proxy.target id = true := by simp [HasOwn_eq_isSome, hown]
  refine ⟨?_, ?_, ?_⟩
  · intro invoke htrap hres
    have hn : NormalizeAndCompletePropertyDescriptor .undefined = .ok .undefined := rfl
    cases hs : IsSealed proxy.target id
    · refine ⟨.JSMSG_CANT_REPORT_E_AS_NE, Or.inr rfl, ?_⟩
      have h1 : TrapGetOwnProperty proxy id =
          .error (.reported .JSMSG_CANT_REPORT_E_AS_NE) := by
        unfold TrapGetOwnProperty
        simp [GetDirectProxyHandlerObject, GetProxyTargetObject, htrap, hres, hn,
          DescriptorValue.isUndefined, hs, hne, hfixed]
      exact ⟨h1, by simp [ScriptedDirectProxyHandler.getOwnPropertyDescriptor, h1]⟩
    · refine ⟨.JSMSG_CANT_REPORT_NC_AS_NE, Or.inl rfl, ?_⟩
      have h1 : TrapGetOwnProperty proxy id =
          .error (.reported .JSMSG_CANT_REPORT_NC_AS_NE) := by
        unfold TrapGetOwnProperty
        simp [GetDirectProxyHandlerObject, GetProxyTargetObject, htrap, hres, hn,
          DescriptorValue.isUndefined, hs]
      exact ⟨h1, by simp [ScriptedDirectProxyHandler.getOwnPropertyDescriptor, h1]⟩
  · intro invoke r htrap hres hfalsy
    cases hs : IsSealed proxy.target id
    · exact ⟨.JSMSG_CANT_REPORT_E_AS_NE, Or.inr rfl, by
        unfold ScriptedDirectProxyHandler.has
        simp [GetDirectProxyHandlerObject, GetProxyTargetObject, htrap, hres, hfalsy, hs, hne,
          hfixed]⟩
    · exact ⟨.JSMSG_CANT_REPORT_NC_AS_NE, Or.inl rfl, by
        unfold ScriptedDirectProxyHandler.has
        simp [GetDirectProxyHandlerObject, GetProxyTargetObject, htrap, hres, hfalsy, hs]⟩
  · intro invoke r htrap hres hfalsy
    cases hs : IsSealed proxy.target id
    · exact ⟨.JSMSG_CANT_REPORT_E_AS_NE, Or.inr rfl, by
        unfold ScriptedDirectProxyHandler.hasOwn
        simp [GetDirectProxyHandlerObject, GetProxyTargetObject, htrap, hres, hfalsy, hs, hne,
          hfixed]⟩
    · exact ⟨.JSMSG_CANT_REPORT_NC_AS_NE, Or.inl rfl, by
        unfold ScriptedDirectProxyHandler.hasOwn
        simp [GetDirectProxyHandlerObject, GetProxyTargetObject, htrap, hres, hfalsy, hs]⟩

theorem fixed_property_not_reported_absent_witness :
    (∃ n, (n = JSErrNum.JSMSG_CANT_REPORT_NC_AS_NE ∨ n = JSErrNum.JSMSG_CANT_REPORT_E_AS_NE) ∧
      TrapGetOwnProperty
        (Example.describing (Example.dataTarget JSPROP_ENUMERATE (.number 1) false) .undefined)
        Example.x = .error (.reported n) ∧
      ScriptedDirectProxyHandler.getOwnPropertyDescriptor Example.cx
        (Example.describing (Example.dataTarget JSPROP_ENUMERATE (.number 1) false) .undefined)
        Example.x PropertyDescriptor.notFound = .error (.reported n)) ∧
    (∃ n, (n = JSErrNum.JSMSG_CANT_REPORT_NC_AS_NE ∨ n = JSErrNum.JSMSG_CANT_REPORT_E_AS_NE) ∧
      ScriptedDirectProxyHandler.has Example.cx
        (Example.answering (Example.dataTarget JSPROP_ENUMERATE (.number 1) false) (.bool false))
        Example.x = .error (.reported n)) ∧
    (∃ n, (n = JSErrNum.JSMSG_CANT_REPORT_NC_AS_NE ∨ n = JSErrNum.JSMSG_CANT_REPORT_E_AS_NE) ∧
      ScriptedDirectProxyHandler.hasOwn Example.cx
        (Example.answering (Example.dataTarget JSPROP_ENUMERATE (.number 1) false) (.bool false))
        Example.x = .error (.reported n)) :=
  ⟨(fixed_property_not_reported_absent Example.cx
      (Example.describing (Example.dataTarget JSPROP_ENUMERATE (.number 1) false) .undefined)
      Example.x ⟨JSPROP_ENUMERATE, .null, .null, .number 1⟩ PropertyDescriptor.notFound
      (by decide) rfl).1 (fun _ => some .undefined) rfl rfl,
   (fixed_property_not_reported_absent Example.cx
      (Example.answering (Example.dataTarget JSPROP_ENUMERATE (.number 1) false) (.bool false))
      Example.x ⟨JSPROP_ENUMERATE, .null, .null, .number 1⟩ PropertyDescriptor.notFound
      (by decide) rfl).2.1 (fun _ => some (.bool false)) (.bool false) rfl rfl rfl,
   (fixed_property_not_reported_absent Example.cx
      (Example.answering (Example.dataTarget JSPROP_ENUMERATE (.number 1) false) (.bool false))
      Example.x ⟨JSPROP_ENUMERATE, .null, .null, .number 1⟩ PropertyDescriptor.notFound
      (by decide) rfl).2.2 (fun _ => some (.bool false)) (.bool false) rfl rfl rfl⟩

/-- C12. In `hasOwn`, on a non-extensible target, at a key that is not an own
property of the target, a trap that returns a truthy value makes the operation
fail, with the error for a new property reported on a non-extensible object. -/
theorem hasOwn_rejects_new_on_nonextensible (cx : JSContext) (proxy : ProxyObject) (id : jsid)
    (invoke : JSObject × Value → Option Value) (r : Value)
    (hnew : proxy.target.own.props.lookup id = none)
    (hne : proxy.target.isExtensible = false)
    (htrap : proxy.handler.hasOwn = .value invoke)
    (hres : invoke (proxy.target, IdToValue id) = some r)
    (htruthy : ToBoolean r = true) :
    ScriptedDirectProxyHandler.hasOwn cx proxy id =
      .error (.reported .JSMSG_CANT_REPORT_NEW) := by
  have hfixed : HasOwn proxy.target id = false := by simp [HasOwn_eq_isSome, hnew]
  unfold ScriptedDirectProxyHandler.hasOwn
  simp [GetDirectProxyHandlerObject, GetProxyTargetObject, htrap, hres, htruthy, hne, hfixed]

theorem hasOwn_rejects_new_on_nonextensible_witness :
    ScriptedDirectProxyHandler.hasOwn Example.cx
      (Example.answering (Example.emptyTarget false) (.bool true)) Example.x =
      .error (.reported .JSMSG_CANT_REPORT_NEW) :=
  hasOwn_rejects_new_on_nonextensible Example.cx
    (Example.answering (Example.emptyTarget false) (.bool true)) Example.x
    (fun _ => some (.bool true)) (.bool true) rfl rfl rfl rfl rfl

/-! ## `get` -/

/-- C13. In `get`, at a key where the target has a non-configurable but writable
data property, the operation succeeds and returns exactly the value the trap
returned, whatever the stored value and the content of the result slot. -/
theorem get_writable_returns_trap_result (cx : JSContext) (proxy : ProxyObject)
    (receiver : ObjRef) (id : jsid) (s : Shape)
    (invoke : JSObject × Value × ObjRef → Option Value) (w vp : Value)
    (hown : proxy.target.own.props.lookup id = some s)
    (hdata : hasAttr s.attrs (JSPROP_GETTER ||| JSPROP_SETTER) = false)
    (_hperm : hasAttr s.attrs JSPROP_PERMANENT = true)
    (hwritable : hasAttr s.attrs JSPROP_READONLY = false)
    (htrap : proxy.handler.get = .value invoke)
    (hres : invoke (proxy.target, IdToValue id, receiver) = some w) :
    ScriptedDirectProxyHandler.get cx proxy receiver id vp = .ok w := by
  unfold ScriptedDirectProxyHandler.get
  simp [GetDirectProxyHandlerObject, GetProxyTargetObject, htrap, hres,
    jsobj.GetOwnPropertyDescriptor, hown, hdata, hwritable, IsAccessorDescriptor]

theorem get_writable_returns_trap_result_witness :
    ScriptedDirectProxyHandler.get Example.cx
      (Example.getting (Example.dataTarget JSPROP_PERMANENT (.number 1) true) (.number 2))
      .proxy Example.x .undefined = .ok (.number 2) :=
  get_writable_returns_trap_result Example.cx
    (Example.getting (Example.dataTarget JSPROP_PERMANENT (.number 1) true) (.number 2))
    .proxy Example.x ⟨JSPROP_PERMANENT, .null, .null, .number 1⟩ (fun _ => some (.number 2))
    (.number 2) .undefined (by decide) (by decide) (by decide) (by decide) rfl rfl

/-- In `get`, at a key where the target has a non-configurable accessor property
whose attributes carry no getter flag, a trap result other than undefined makes
the operation fail. -/
theorem get_getterless_flag_requires_undefined (cx : JSContext) (proxy : ProxyObject)
    (receiver : ObjRef) (id : jsid) (s : Shape)
    (invoke : JSObject × Value × ObjRef → Option Value) (w vp : Value)
    (hown : proxy.target.own.props.lookup id = some s)
    (hacc : hasAttr s.attrs (JSPROP_GETTER ||| JSPROP_SETTER) = true)
    (hperm : hasAttr s.attrs JSPROP_PERMANENT = true)
    (hnoget : hasAttr s.attrs JSPROP_GETTER = false)
    (htrap : proxy.handler.get = .value invoke)
    (hres : invoke (proxy.target, IdToValue id, receiver) = some w)
    (hw : w.isUndefined = false) :
    ScriptedDirectProxyHandler.get cx proxy receiver id vp =
      .error (.reported .JSMSG_MUST_REPORT_UNDEFINED) := by
  unfold ScriptedDirectProxyHandler.get
  simp [GetDirectProxyHandlerObject, GetProxyTargetObject, htrap, hres,
    jsobj.GetOwnPropertyDescriptor, hown, hacc, hperm, hnoget, hw, IsAccessorDescriptor,
    IsDataDescriptor]

/-- C14 fails on the code: the target has a non-configurable accessor property
`x` whose getter is undefined (its attributes carry the getter flag, its getter
object is `NULL`, as after defining it with an explicit undefined getter), the
trap returns 2, and `get` succeeds with 2.  Step 7 tests the getter flag only;
on a property without that flag the same trap result is rejected. -/
theorem ScriptedDirectProxyHandler_get_explicit_undefined_getter :
    IsAccessorDescriptor (jsobj.GetOwnPropertyDescriptor
      (Example.accessorTarget JSPROP_PERMANENT .null (.object 8 true)) Example.x) = true ∧
    hasAttr (jsobj.GetOwnPropertyDescriptor
      (Example.accessorTarget JSPROP_PERMANENT .null (.object 8 true)) Example.x).attrs
      JSPROP_PERMANENT = true ∧
    (jsobj.GetOwnPropertyDescriptor
      (Example.accessorTarget JSPROP_PERMANENT .null (.object 8 true)) Example.x).getter
      = .null ∧
    ScriptedDirectProxyHandler.get Example.cx
      (Example.getting (Example.accessorTarget JSPROP_PERMANENT .null (.object 8 true))
        (.number 2))
      .proxy Example.x .undefined = .ok (.number 2) ∧
    ScriptedDirectProxyHandler.get Example.cx
      (Example.getting
        (Example.shapeTarget
          ⟨JSPROP_PERMANENT ||| JSPROP_SETTER ||| JSPROP_SHARED, .null, .object 8 true,
           .undefined⟩ true)
        (.number 2))
      .proxy Example.x .undefined = .error (.reported .JSMSG_MUST_REPORT_UNDEFINED) :=
  ⟨rfl, rfl, rfl, rfl, rfl⟩

/-! ## Key lists: `ArrayToIdVector` -/

theorem KeyListTrap.run_eq (t : KeyListTrap) (cx : JSContext) (proxy : ProxyObject)
    (props : List jsid) (invoke : JSObject → Option ArrayValue) (elems : List Value)
    (htrap : t.slot proxy.handler = .value invoke)
    (hres : invoke proxy.target = some (.array elems)) :
    t.run cx proxy props =
      ArrayToIdVector cx proxy proxy.target (.array elems) props t.flags := by
  cases t <;>
    simp only [KeyListTrap.slot] at htrap <;>
    simp [KeyListTrap.run, KeyListTrap.flags, ScriptedDirectProxyHandler.getOwnPropertyNames,
      ScriptedDirectProxyHandler.keys, ScriptedDirectProxyHandler.enumerate,
      GetDirectProxyHandlerObject, GetProxyTargetObject, htrap, hres, ArrayValue.isPrimitive]

theorem any_range_eq_contains (props : List jsid) (id : jsid) :
    (List.range props.length).any (fun j => props[j]? == some id) = props.contains id := by
  have hc : props.contains id = true ↔ id ∈ props := by simp
  rw [Bool.eq_iff_iff, hc]
  simp only [List.any_eq_true, List.mem_range, beq_iff_eq]
  constructor
  · rintro ⟨j, _, hj⟩
    exact List.mem_iff_getElem?.mpr ⟨j, hj⟩
  · intro h
    obtain ⟨j, hj⟩ := List.mem_iff_getElem?.mp h
    obtain ⟨hlt, _⟩ := List.getElem?_eq_some.mp hj
    exact ⟨j, hlt, hj⟩

theorem ArrayToIdVector.convert_fails_of_duplicate (cx : JSContext) (target : JSObject) :
    ∀ (elems : List Value) (i : Nat) (props : List jsid), props.length = i →
      ((∃ (p q : Nat) (k : jsid), p < q ∧ (elems[p]?).bind (ValueToId cx) = some k ∧
          (elems[q]?).bind (ValueToId cx) = some k) ∨
        (∃ (q : Nat) (k : jsid), (elems[q]?).bind (ValueToId cx) = some k ∧ k ∈ props)) →
      ∃ e, ArrayToIdVector.convert cx target elems i props = .error e := by
  intro elems
  induction elems with
  | nil =>
    intro i props _ h
    rcases h with ⟨p, q, k, _, hp, _⟩ | ⟨q, k, hq, _⟩
    · simp at hp
    · simp at hq
  | cons v rest ih =>
    intro i props hlen h
    unfold ArrayToIdVector.convert
    cases hv : ValueToId cx v with
    | none => exact ⟨_, rfl⟩
    | some id =>
      simp only
      rw [← hlen, any_range_eq_contains]
      by_cases hc : props.contains id = true
      · simp only [hc, if_true]
        exact ⟨_, rfl⟩
      · simp only [hc, Bool.false_eq_true, if_false]
        split
        · exact ⟨_, rfl⟩
        · have hnot : id ∉ props := by simpa using hc
          apply ih (props.length + 1) (props ++ [id]) (by simp)
          rcases h with ⟨p, q, k, hpq, hp, hq⟩ | ⟨q, k, hq, hk⟩
          · cases p with
            | zero =>
              cases q with
              | zero => exact absurd hpq (Nat.lt_irrefl 0)
              | succ q' =>
                simp only [List.getElem?_cons_zero, Option.some_bind, hv] at hp
                simp only [List.getElem?_cons_succ] at hq
                cases hp
                exact Or.inr ⟨q', id, hq, by simp⟩
            | succ p' =>
              cases q with
              | zero => exact absurd hpq (Nat.not_lt_zero _)
              | succ q' =>
                simp only [List.getElem?_cons_succ] at hp hq
                exact Or.inl ⟨p', q', k, Nat.lt_of_succ_lt_succ hpq, hp, hq⟩
          · cases q with
            | zero =>
              simp only [List.getElem?_cons_zero, Option.some_bind, hv] at hq
              cases hq
              exact absurd hk hnot
            | succ q' =>
              simp only [List.getElem?_cons_succ] at hq
              exact Or.inr ⟨q', k, hq, by simp [hk]⟩

theorem ArrayToIdVector.convert_fails_of_new (cx : JSContext) (target : JSObject)
    (hne : target.isExtensible = false) :
    ∀ (elems : List Value) (i : Nat) (props : List jsid),
      (∃ v k, v ∈ elems ∧ ValueToId cx v = some k ∧ HasOwn target k = false) →
      ∃ e, ArrayToIdVector.convert cx target elems i props = .error e := by
  intro elems
  induction elems with
  | nil =>
    intro i props h
    obtain ⟨v, k, hv, _⟩ := h
    simp at hv
  | cons v rest ih =>
    intro i props h
    unfold ArrayToIdVector.convert
    cases hv : ValueToId cx v with
    | none => exact ⟨_, rfl⟩
    | some id =>
      simp only
      split
      · exact ⟨_, rfl⟩
      · split
        · exact ⟨_, rfl⟩
        · rename_i hnew
          apply ih
          obtain ⟨v', k, hmem, hk, hown⟩ := h
          rcases List.mem_cons.mp hmem with rfl | hmem'
          · rw [hv] at hk
            cases hk
            simp [hne, hown] at hnew
          · exact ⟨v', k, hmem', hk, hown⟩

theorem ArrayToIdVector.convert_ok_mem (cx : JSContext) (target : JSObject) :
    ∀ (elems : List Value) (i : Nat) (props out : List jsid),
      ArrayToIdVector.convert cx target elems i props = .ok out →
      ∀ k, k ∈ out → k ∈ props ∨ ∃ v, v ∈ elems ∧ ValueToId cx v = some k := by
  intro elems
  induction elems with
  | nil =>
    intro i props out h k hk
    unfold ArrayToIdVector.convert at h
    cases h
    exact Or.inl hk
  | cons v rest ih =>
    intro i props out h k hk
    unfold ArrayToIdVector.convert at h
    cases hv : ValueToId cx v with
    | none => simp [hv] at h
    | some id =>
      simp only [hv] at h
      split at h
      · cases h
      · split at h
        · cases h
        · rcases ih _ _ _ h k hk with hin | ⟨v', hv', hk'⟩
          · rcases List.mem_append.mp hin with hp | hl
            · exact Or.inl hp
            · simp only [List.mem_singleton] at hl
              subst hl
              exact Or.inr ⟨v, by simp, hv⟩
          · exact Or.inr ⟨v', List.mem_cons_of_mem _ hv', hk'⟩

theorem ArrayToIdVector.convert_error_reported (cx : JSContext) (target : JSObject) :
    ∀ (elems : List Value) (i : Nat) (props : List jsid) (e : Error),
      (∀ v, v ∈ elems → (ValueToId cx v).isSome = true) →
      ArrayToIdVector.convert cx target elems i props = .error e →
      ∃ n, e = .reported n := by
  intro elems
  induction elems with
  | nil =>
    intro i props e _ h
    unfold ArrayToIdVector.convert at h
    cases h
  | cons v rest ih =>
    intro i props e hall h
    unfold ArrayToIdVector.convert at h
    cases hv : ValueToId cx v with
    | none =>
      have := hall v (by simp)
      simp [hv] at this
    | some id =>
      simp only [hv] at h
      split at h
      · cases h
        exact ⟨_, rfl⟩
      · split at h
        · cases h
          exact ⟨_, rfl⟩
        · exact ih _ _ _ (fun v' hv' => hall v' (List.mem_cons_of_mem _ hv')) h

theorem ArrayToIdVector.checkOwn_fails (target : JSObject) (props : List jsid) (k : jsid)
    (hk : k ∉ props)
    (hviol : IsSealed target k = true ∨
      (target.isExtensible = false ∧ HasOwn target k = true)) :
    ∀ (own : List jsid), k ∈ own →
      ∃ n, ArrayToIdVector.checkOwn target props own = .error (.reported n) := by
  intro own
  induction own with
  | nil => intro h; simp at h
  | cons id rest ih =>
    intro hmem
    unfold ArrayToIdVector.checkOwn
    by_cases hc : props.contains id = true
    · simp only [hc, if_true]
      have hne : k ≠ id := by
        intro heq
        subst heq
        exact hk (by simpa using hc)
      rcases List.mem_cons.mp hmem with h | h
      · exact absurd h hne
      · exact ih h
    · simp only [hc, Bool.false_eq_true, if_false]
      split
      · exact ⟨_, rfl⟩
      · split
        · exact ⟨_, rfl⟩
        · rename_i hs hf
          rcases List.mem_cons.mp hmem with h | h
          · subst h
            rcases hviol with h1 | ⟨h1, h2⟩
            · exact absurd h1 hs
            · simp [h1, h2] at hf
          · exact ih h

theorem ArrayToIdVector.checkOwn_error_reported (target : JSObject) (props : List jsid) :
    ∀ (own : List jsid) (e : Error),
      ArrayToIdVector.checkOwn target props own = .error e → ∃ n, e = .reported n := by
  intro own
  induction own with
  | nil =>
    intro e h
    unfold ArrayToIdVector.checkOwn at h
    cases h
  | cons id rest ih =>
    intro e h
    unfold ArrayToIdVector.checkOwn at h
    split at h
    · exact ih e h
    · split at h
      · cases h
        exact ⟨_, rfl⟩
      · split at h
        · cases h
          exact ⟨_, rfl⟩
        · exact ih e h

theorem lookup_append_of_some {l1 l2 : List (jsid × Shape)} {k : jsid} {s : Shape}
    (h : l1.lookup k = some s) : (l1 ++ l2).lookup k = some s := by
  induction l1 with
  | nil => simp at h
  | cons hd tl ih =>
    obtain ⟨k', s'⟩ := hd
    simp only [List.cons_append, List.lookup_cons] at h ⊢
    split
    · rename_i heq
      simpa [heq] using h
    · rename_i hne
      simp only [hne] at h
      exact ih h

theorem mem_snapshot (hidden : Bool) :
    ∀ (l : List (jsid × Shape)) (seen : List jsid) (k : jsid) (s : Shape),
      l.lookup k = some s → k ∉ seen →
      (hasAttr s.attrs JSPROP_ENUMERATE || hidden) = true →
      k ∈ snapshot hidden l seen := by
  intro l
  induction l with
  | nil => intro seen k s h; simp at h
  | cons hd tl ih =>
    intro seen k s h hseen hvis
    obtain ⟨k', s'⟩ := hd
    rw [List.lookup_cons] at h
    unfold snapshot
    by_cases hk : k = k'
    · subst hk
      simp only [beq_self_eq_true] at h
      cases h
      have hc : seen.contains k = false := by simpa using hseen
      simp [hseen, hvis]
    · have hbeq : (k == k') = false := by simpa using hk
      simp only [hbeq] at h
      by_cases hc : seen.contains k' = true
      · simp only [hc, if_true]
        exact ih seen k s h hseen hvis
      · simp only [hc, Bool.false_eq_true, if_false]
        have hseen' : k ∉ k' :: seen := by
          simp only [List.mem_cons, not_or]
          exact ⟨hk, hseen⟩
        split
        · exact List.mem_cons_of_mem _ (ih (k' :: seen) k s h hseen' hvis)
        · exact ih (k' :: seen) k s h hseen' hvis

theorem own_key_mem_GetPropertyNames (obj : JSObject) (flags : Nat) (k : jsid) (s : Shape)
    (hown : obj.own.props.lookup k = some s)
    (hvis : (hasAttr s.attrs JSPROP_ENUMERATE || hasAttr flags JSITER_HIDDEN) = true) :
    k ∈ GetPropertyNames obj flags := by
  unfold GetPropertyNames
  split
  · apply mem_snapshot _ _ _ k s _ (by simp) hvis
    simpa using hown
  · apply mem_snapshot _ _ _ k s _ (by simp) hvis
    simp only [List.map_cons, List.flatten_cons]
    exact lookup_append_of_some hown

theorem ArrayToIdVector_fails_of_omitted (cx : JSContext) (proxy : ProxyObject)
    (target : JSObject) (elems : List Value) (flags : Nat) (k : jsid)
    (hmem : k ∈ GetPropertyNames target flags)
    (homit : ∀ v, v ∈ elems → ValueToId cx v ≠ some k)
    (hviol : IsSealed target k = true ∨
      (target.isExtensible = false ∧ HasOwn target k = true)) :
    ∃ e, ArrayToIdVector cx proxy target (.array elems) [] flags = .error e ∧
      ((∀ v, v ∈ elems → (ValueToId cx v).isSome = true) → ∃ n, e = .reported n) := by
  unfold ArrayToIdVector
  simp only
  cases hc : ArrayToIdVector.convert cx target elems 0 [] with
  | error e =>
    exact ⟨e, rfl, fun hall => ArrayToIdVector.convert_error_reported cx target _ _ _ e hall hc⟩
  | ok out =>
    have hk : k ∉ out := by
      intro hin
      rcases ArrayToIdVector.convert_ok_mem cx target _ _ _ _ hc k hin with h | ⟨v, hv, hvk⟩
      · simp at h
      · exact homit v hv hvk
    obtain ⟨n, hn⟩ := ArrayToIdVector.checkOwn_fails target out k hk hviol _ hmem
    simp only [hn]
    exact ⟨_, rfl, fun _ => ⟨n, rfl⟩⟩

/-- For `getOwnPropertyNames`, `keys` and `enumerate`, called with an empty
output vector: when the trap returns a list in which two positions convert to
the same property key, the operation fails. -/
theorem key_list_duplicate_rejected (cx : JSContext) (proxy : ProxyObject)
    (elems : List Value) (p q : Nat) (k : jsid)
    (hpq : p < q)
    (hp : (elems[p]?).bind (ValueToId cx) = some k)
    (hq : (elems[q]?).bind (ValueToId cx) = some k) :
    (∀ invoke, proxy.handler.getOwnPropertyNames = .value invoke →
      invoke proxy.target = some (.array elems) →
      ∃ e, ScriptedDirectProxyHandler.getOwnPropertyNames cx proxy [] = .error e) ∧
    (∀ invoke, proxy.handler.keys = .value invoke →
      invoke proxy.target = some (.array elems) →
      ∃ e, ScriptedDirectProxyHandler.keys cx proxy [] = .error e) ∧
    (∀ invoke, proxy.handler.enumerate = .value invoke →
      invoke proxy.target = some (.array elems) →
      ∃ e, ScriptedDirectProxyHandler.enumerate cx proxy [] = .error e) := by
  have key : ∀ (t : KeyListTrap) invoke, t.slot proxy.handler = .value invoke →
      invoke proxy.target = some (.array elems) → ∃ e, t.run cx proxy [] = .error e := by
    intro t invoke htrap hres
    rw [KeyListTrap.run_eq t cx proxy [] invoke elems htrap hres]
    unfold ArrayToIdVector
    simp only
    obtain ⟨e, he⟩ := ArrayToIdVector.convert_fails_of_duplicate cx proxy.target elems 0 []
      rfl (Or.inl ⟨p, q, k, hpq, hp, hq⟩)
    exact ⟨e, by simp [he]⟩
  exact ⟨key .getOwnPropertyNames, key .keys, key .enumerate⟩

theorem key_list_duplicate_rejected_witness :
    ∃ e, ScriptedDirectProxyHandler.getOwnPropertyNames Example.cx
      (Example.listing (Example.emptyTarget true) [.string "a", .string "a"]) [] = .error e :=
  (key_list_duplicate_rejected Example.cx
    (Example.listing (Example.emptyTarget true) [.string "a", .string "a"])
    [.string "a", .string "a"] 0 1 (.atom "a") (by decide) rfl rfl).1
    (fun _ => some (.array [.string "a", .string "a"])) rfl rfl

/-- C18, as stated, fails: the target is non-extensible and has a non-enumerable
own property `x`; the `keys` trap and the `enumerate` trap return the empty
list, which omits `x`, and both operations succeed. -/
theorem key_list_omission_nonextensible_counterexample :
    (Example.dataTarget 0 (.number 1) false).isExtensible = false ∧
    HasOwn (Example.dataTarget 0 (.number 1) false) Example.x = true ∧
    ScriptedDirectProxyHandler.keys Example.cx
      (Example.listing (Example.dataTarget 0 (.number 1) false) []) [] = .ok [] ∧
    ScriptedDirectProxyHandler.enumerate Example.cx
      (Example.listing (Example.dataTarget 0 (.number 1) false) []) [] = .ok [] :=
  ⟨rfl, rfl, rfl, rfl⟩

/-- C18, amended. On a non-extensible target, called with an empty output
vector: when the trap's returned list omits an own key of the target, then
`getOwnPropertyNames` fails, and `keys` and `enumerate` fail if that key is
enumerable; the failure is a reported invariant violation whenever every
element of the list converts to a key. -/
theorem key_list_omission_nonextensible (cx : JSContext) (proxy : ProxyObject)
    (elems : List Value) (k : jsid) (s : Shape)
    (hne : proxy.target.isExtensible = false)
    (hown : proxy.target.own.props.lookup k = some s)
    (homit : ∀ v, v ∈ elems → ValueToId cx v ≠ some k) :
    (∀ invoke, proxy.handler.getOwnPropertyNames = .value invoke →
      invoke proxy.target = some (.array elems) →
      ∃ e, ScriptedDirectProxyHandler.getOwnPropertyNames cx proxy [] = .error e ∧
        ((∀ v, v ∈ elems → (ValueToId cx v).isSome = true) → ∃ n, e = .reported n)) ∧
    (∀ invoke, proxy.handler.keys = .value invoke →
      invoke proxy.target = some (.array elems) →
      hasAttr s.attrs JSPROP_ENUMERATE = true →
      ∃ e, ScriptedDirectProxyHandler.keys cx proxy [] = .error e ∧
        ((∀ v, v ∈ elems → (ValueToId cx v).isSome = true) → ∃ n, e = .reported n)) ∧
    (∀ invoke, proxy.handler.enumerate = .value invoke →
      invoke proxy.target = some (.array elems) →
      hasAttr s.attrs JSPROP_ENUMERATE = true →
      ∃ e, ScriptedDirectProxyHandler.enumerate cx proxy [] = .error e ∧
        ((∀ v, v ∈ elems → (ValueToId cx v).isSome = true) → ∃ n, e = .reported n)) := by
  have hfixed : HasOwn proxy.target k = true := by simp [HasOwn_eq_isSome, hown]
  have key : ∀ (t : KeyListTrap) invoke, t.slot proxy.handler = .value invoke →
      invoke proxy.target = some (.array elems) →
      (hasAttr s.attrs JSPROP_ENUMERATE || hasAttr t.flags JSITER_HIDDEN) = true →
      ∃ e, t.run cx proxy [] = .error e ∧
        ((∀ v, v ∈ elems → (ValueToId cx v).isSome = true) → ∃ n, e = .reported n) := by
    intro t invoke htrap hres hvis
    rw [KeyListTrap.run_eq t cx proxy [] invoke elems htrap hres]
    exact ArrayToIdVector_fails_of_omitted cx proxy proxy.target elems t.flags k
      (own_key_mem_GetPropertyNames _ _ k s hown hvis) homit (Or.inr ⟨hne, hfixed⟩)
  refine ⟨?_, ?_, ?_⟩
  · intro invoke htrap hres
    exact key .getOwnPropertyNames invoke htrap hres
      (by simp [KeyListTrap.flags, hasAttr, JSITER_OWNONLY, JSITER_HIDDEN])
  · intro invoke htrap hres hen
    exact key .keys invoke htrap hres (by simp [hen])
  · intro invoke htrap hres hen
    exact key .enumerate invoke htrap hres (by simp [hen])

theorem key_list_omission_nonextensible_witness :
    ∃ e, ScriptedDirectProxyHandler.getOwnPropertyNames Example.cx
        (Example.listing (Example.dataTarget 0 (.number 1) false) []) [] = .error e ∧
      ((∀ v, v ∈ ([] : List Value) → (ValueToId Example.cx v).isSome = true) →
        ∃ n, e = .reported n) :=
  (key_list_omission_nonextensible Example.cx
    (Example.listing (Example.dataTarget 0 (.number 1) false) []) [] Example.x
    ⟨0, .null, .null, .number 1⟩ rfl (by decide) (by simp)).1
    (fun _ => some (.array [])) rfl rfl

/-- C19, as stated, fails: the target has a non-configurable, non-enumerable own
property `x`; the `keys` trap and the `enumerate` trap return the empty list,
which omits `x`, and both operations succeed. -/
theorem key_list_omission_sealed_counterexample :
    IsSealed (Example.dataTarget JSPROP_PERMANENT (.number 1) true) Example.x = true ∧
    ScriptedDirectProxyHandler.keys Example.cx
      (Example.listing (Example.dataTarget JSPROP_PERMANENT (.number 1) true) []) []
      = .ok [] ∧
    ScriptedDirectProxyHandler.enumerate Example.cx
      (Example.listing (Example.dataTarget JSPROP_PERMANENT (.number 1) true) []) []
      = .ok [] :=
  ⟨rfl, rfl, rfl⟩

/-- C19, amended. Called with an empty output vector: when the trap's returned
list omits a non-configurable own key of the target, then `getOwnPropertyNames`
fails, and `keys` and `enumerate` fail if that key is enumerable; the failure is
a reported invariant violation whenever every element of the list converts to a
key. -/
theorem key_list_omission_sealed (cx : JSContext) (proxy : ProxyObject)
    (elems : List Value) (k : jsid) (s : Shape)
    (hown : proxy.target.own.props.lookup k = some s)
    (hperm : hasAttr s.attrs JSPROP_PERMANENT = true)
    (homit : ∀ v, v ∈ elems → ValueToId cx v ≠ some k) :
    (∀ invoke, proxy.handler.getOwnPropertyNames = .value invoke →
      invoke proxy.target = some (.array elems) →
      ∃ e, ScriptedDirectProxyHandler.getOwnPropertyNames cx proxy [] = .error e ∧
        ((∀ v, v ∈ elems → (ValueToId cx v).isSome = true) → ∃ n, e = .reported n)) ∧
    (∀ invoke, proxy.handler.keys = .value invoke →
      invoke proxy.target = some (.array elems) →
      hasAttr s.attrs JSPROP_ENUMERATE = true →
      ∃ e, ScriptedDirectProxyHandler.keys cx proxy [] = .error e ∧
        ((∀ v, v ∈ elems → (ValueToId cx v).isSome = true) → ∃ n, e = .reported n)) ∧
    (∀ invoke, proxy.handler.enumerate = .value invoke →
      invoke proxy.target = some (.array elems) →
      hasAttr s.attrs JSPROP_ENUMERATE = true →
      ∃ e, ScriptedDirectProxyHandler.enumerate cx proxy [] = .error e ∧
        ((∀ v, v ∈ elems → (ValueToId cx v).isSome = true) → ∃ n, e = .reported n)) := by
  have hsealed : IsSealed proxy.target k = true := by rw [IsSealed_own hown]; exact hperm
  have key : ∀ (t : KeyListTrap) invoke, t.slot proxy.handler = .value invoke →
      invoke proxy.target = some (.array elems) →
      (hasAttr s.attrs JSPROP_ENUMERATE || hasAttr t.flags JSITER_HIDDEN) = true →
      ∃ e, t.run cx proxy [] = .error e ∧
        ((∀ v, v ∈ elems → (ValueToId cx v).isSome = true) → ∃ n, e = .reported n) := by
    intro t invoke htrap hres hvis
    rw [KeyListTrap.run_eq t cx proxy [] invoke elems htrap hres]
    exact ArrayToIdVector_fails_of_omitted cx proxy proxy.target elems t.flags k
      (own_key_mem_GetPropertyNames _ _ k s hown hvis) homit (Or.inl hsealed)
  refine ⟨?_, ?_, ?_⟩
  · intro invoke htrap hres
    exact key .getOwnPropertyNames invoke htrap hres
      (by simp [KeyListTrap.flags, hasAttr, JSITER_OWNONLY, JSITER_HIDDEN])
  · intro invoke htrap hres hen
    exact key .keys invoke htrap hres (by simp [hen])
  · intro invoke htrap hres hen
    exact key .enumerate invoke htrap hres (by simp [hen])

theorem key_list_omission_sealed_witness :
    ∃ e, ScriptedDirectProxyHandler.keys Example.cx
        (Example.listing
          (Example.dataTarget (JSPROP_PERMANENT ||| JSPROP_ENUMERATE) (.number 1) true) []) []
        = .error e ∧
      ((∀ v, v ∈ ([] : List Value) → (ValueToId Example.cx v).isSome = true) →
        ∃ n, e = .reported n) :=
  (key_list_omission_sealed Example.cx
    (Example.listing
      (Example.dataTarget (JSPROP_PERMANENT ||| JSPROP_ENUMERATE) (.number 1) true) [])
    [] Example.x ⟨JSPROP_PERMANENT ||| JSPROP_ENUMERATE, .null, .null, .number 1⟩
    (by decide) (by decide) (by simp)).2.1
    (fun _ => some (.array [])) rfl rfl (by decide)

/-- C20. For `getOwnPropertyNames`, `keys` and `enumerate`, whatever the output
vector holds on entry: when the target is non-extensible and the trap's
returned list contains a key that is not an own property of the target, the
operation fails. -/
theorem key_list_new_key_rejected (cx : JSContext) (proxy : ProxyObject)
    (elems : List Value) (props : List jsid) (v : Value) (k : jsid)
    (hne : proxy.target.isExtensible = false)
    (hmem : v ∈ elems)
    (hk : ValueToId cx v = some k)
    (hnew : proxy.target.own.props.lookup k = none) :
    (∀ invoke, proxy.handler.getOwnPropertyNames = .value invoke →
      invoke proxy.target = some (.array elems) →
      ∃ e, ScriptedDirectProxyHandler.getOwnPropertyNames cx proxy props = .error e) ∧
    (∀ invoke, proxy.handler.keys = .value invoke →
      invoke proxy.target = some (.array elems) →
      ∃ e, ScriptedDirectProxyHandler.keys cx proxy props = .error e) ∧
    (∀ invoke, proxy.handler.enumerate = .value invoke →
      invoke proxy.target = some (.array elems) →
      ∃ e, ScriptedDirectProxyHandler.enumerate cx proxy props = .error e) := by
  have hfixed : HasOwn proxy.target k = false := by simp [HasOwn_eq_isSome, hnew]
  have key : ∀ (t : KeyListTrap) invoke, t.slot proxy.handler = .value invoke →
      invoke proxy.target = some (.array elems) → ∃ e, t.run cx proxy props = .error e := by
    intro t invoke htrap hres
    rw [KeyListTrap.run_eq t cx proxy props invoke elems htrap hres]
    unfold ArrayToIdVector
    simp only
    obtain ⟨e, he⟩ := ArrayToIdVector.convert_fails_of_new cx proxy.target hne elems 0 props
      ⟨v, k, hmem, hk, hfixed⟩
    exact ⟨e, by simp [he]⟩
  exact ⟨key .getOwnPropertyNames, key .keys, key .enumerate⟩

theorem key_list_new_key_rejected_witness :
    ∃ e, ScriptedDirectProxyHandler.keys Example.cx
      (Example.listing (Example.dataTarget JSPROP_ENUMERATE (.number 1) false)
        [.string "x", .string "y"]) [] = .error e :=
  (key_list_new_key_rejected Example.cx
    (Example.listing (Example.dataTarget JSPROP_ENUMERATE (.number 1) false)
      [.string "x", .string "y"])
    [.string "x", .string "y"] [] (.string "y") (.atom "y") rfl (by simp) rfl
    (by decide)).2.1
    (fun _ => some (.array [.string "x", .string "y"])) rfl rfl

/-! ## `set` and `delete_` -/

/-- In `set` with a trap that returns a truthy value, a successful return
excludes a non-configurable read-only data property whose stored value is not
the assigned value, and a non-configurable accessor property whose attributes
carry no setter flag. -/
theorem set_success_respects_flags (cx : JSContext) (proxy : ProxyObject) (receiver : ObjRef)
    (id : jsid) (strict : Bool) (vp out r : Value) (s : Shape)
    (invoke : JSObject × Value × Value × ObjRef → Option Value)
    (hown : proxy.target.own.props.lookup id = some s)
    (htrap : proxy.handler.set = .value invoke)
    (hres : invoke (proxy.target, IdToValue id, vp, receiver) = some r)
    (htruthy : ToBoolean r = true)
    (hok : (ScriptedDirectProxyHandler.set cx proxy receiver id strict vp).1 = .ok out) :
    ¬ (hasAttr s.attrs (JSPROP_GETTER ||| JSPROP_SETTER) = false ∧
        hasAttr s.attrs JSPROP_PERMANENT = true ∧ hasAttr s.attrs JSPROP_READONLY = true ∧
        SameValue vp s.value = false) ∧
    ¬ (hasAttr s.attrs (JSPROP_GETTER ||| JSPROP_SETTER) = true ∧
        hasAttr s.attrs JSPROP_PERMANENT = true ∧ hasAttr s.attrs JSPROP_SETTER = false) := by
  unfold ScriptedDirectProxyHandler.set at hok
  simp only [GetDirectProxyHandlerObject, GetProxyTargetObject, htrap, hres, htruthy, if_true]
    at hok
  constructor
  · rintro ⟨h1, h2, h3, h4⟩
    simp [jsobj.GetOwnPropertyDescriptor, hown, h1, h2, h3, h4, IsDataDescriptor] at hok
  · rintro ⟨h1, h2, h3⟩
    simp [jsobj.GetOwnPropertyDescriptor, hown, h1, h2, h3, IsDataDescriptor,
      IsAccessorDescriptor] at hok

/-- C15 fails on the code: the target has a non-configurable accessor property
`x` without a setter (its attributes carry the setter flag, its setter object is
`NULL`, as after defining it with an explicit undefined setter), the trap
returns true, and `set` reports success.  Step 7 tests the setter flag only; on
a property without that flag the operation fails, and so it does on a read-only
data property whose value differs from the assigned one. -/
theorem ScriptedDirectProxyHandler_set_explicit_undefined_setter :
    IsAccessorDescriptor (jsobj.GetOwnPropertyDescriptor
      (Example.accessorTarget JSPROP_PERMANENT (.object 7 true) .null) Example.x) = true ∧
    hasAttr (jsobj.GetOwnPropertyDescriptor
      (Example.accessorTarget JSPROP_PERMANENT (.object 7 true) .null) Example.x).attrs
      JSPROP_PERMANENT = true ∧
    (jsobj.GetOwnPropertyDescriptor
      (Example.accessorTarget JSPROP_PERMANENT (.object 7 true) .null) Example.x).setter
      = .null ∧
    (ScriptedDirectProxyHandler.set Example.cx
      (Example.setting (Example.accessorTarget JSPROP_PERMANENT (.object 7 true) .null)
        (.bool true))
      .proxy Example.x false (.number 3)).1 = .ok (.bool true) ∧
    (ScriptedDirectProxyHandler.set Example.cx
      (Example.setting
        (Example.shapeTarget
          ⟨JSPROP_PERMANENT ||| JSPROP_GETTER ||| JSPROP_SHARED, .object 7 true, .null,
           .undefined⟩ true)
        (.bool true))
      .proxy Example.x false (.number 3)).1 = .error (.reported .JSMSG_CANT_SET_WO_SETTER) ∧
    (ScriptedDirectProxyHandler.set Example.cx
      (Example.setting
        (Example.dataTarget (JSPROP_PERMANENT ||| JSPROP_READONLY) (.number 1) true)
        (.bool true))
      .proxy Example.x false (.number 3)).1 = .error (.reported .JSMSG_CANT_SET_NW_NC) :=
  ⟨rfl, rfl, rfl, rfl, rfl, rfl⟩

/-- C16. In `delete_`, at a key that is a non-configurable own property of the
target, with the `deleteProperty` trap present: the operation never reports
deleted = true, it fails when the trap returns a truthy value, and whatever the
trap answers the handler code hands the target back as it found it, the
property included. -/
theorem delete_sealed_rejected (cx : JSContext) (proxy : ProxyObject) (id : jsid) (s : Shape)
    (invoke : JSObject × Value → Option Value)
    (hown : proxy.target.own.props.lookup id = some s)
    (hperm : hasAttr s.attrs JSPROP_PERMANENT = true)
    (htrap : proxy.handler.deleteProperty = .value invoke) :
    (ScriptedDirectProxyHandler.delete_ cx proxy id).1 ≠ .ok true ∧
    (∀ r, invoke (proxy.target, IdToValue id) = some r → ToBoolean r = true →
      (ScriptedDirectProxyHandler.delete_ cx proxy id).1 =
        .error (.reported .JSMSG_CANT_DELETE)) ∧
    (ScriptedDirectProxyHandler.delete_ cx proxy id).2 = proxy.target ∧
    (ScriptedDirectProxyHandler.delete_ cx proxy id).2.own.props.lookup id = some s := by
  have hsealed : IsSealed proxy.target id = true := by rw [IsSealed_own hown]; exact hperm
  have hframe : (ScriptedDirectProxyHandler.delete_ cx proxy id).2 = proxy.target := by
    unfold ScriptedDirectProxyHandler.delete_
    simp only [GetDirectProxyHandlerObject, GetProxyTargetObject, htrap]
    repeat' split
    all_goals rfl
  refine ⟨?_, ?_, hframe, ?_⟩
  · unfold ScriptedDirectProxyHandler.delete_
    simp only [GetDirectProxyHandlerObject, GetProxyTargetObject, htrap]
    split
    · simp
    · rename_i r _
      cases hb : ToBoolean r <;> simp [hsealed]
  · intro r hres htruthy
    unfold ScriptedDirectProxyHandler.delete_
    simp [GetDirectProxyHandlerObject, GetProxyTargetObject, htrap, hres, htruthy, hsealed]
  · rw [hframe]
    exact hown

theorem delete_sealed_rejected_witness :
    (ScriptedDirectProxyHandler.delete_ Example.cx
      (Example.deleting (Example.dataTarget JSPROP_PERMANENT (.number 1) true) (.bool true))
      Example.x).1 = .error (.reported .JSMSG_CANT_DELETE) ∧
    (ScriptedDirectProxyHandler.delete_ Example.cx
      (Example.deleting (Example.dataTarget JSPROP_PERMANENT (.number 1) true) (.bool true))
      Example.x).2.own.props.lookup Example.x = some ⟨JSPROP_PERMANENT, .null, .null, .number 1⟩ :=
  ⟨(delete_sealed_rejected Example.cx
      (Example.deleting (Example.dataTarget JSPROP_PERMANENT (.number 1) true) (.bool true))
      Example.x ⟨JSPROP_PERMANENT, .null, .null, .number 1⟩ (fun _ => some (.bool true))
      (by decide) (by decide) rfl).2.1 (.bool true) rfl rfl,
   (delete_sealed_rejected Example.cx
      (Example.deleting (Example.dataTarget JSPROP_PERMANENT (.number 1) true) (.bool true))
      Example.x ⟨JSPROP_PERMANENT, .null, .null, .number 1⟩ (fun _ => some (.bool true))
      (by decide) (by decide) rfl).2.2.2⟩

/-! ## `defineProperty` -/

/-- Parsing the script object made from a parsed descriptor gives that
descriptor back. -/
theorem PropDesc.initialize_makeObject {v : DescriptorValue} {d : PropDesc}
    (h : PropDesc.initialize_ v true = .ok d) :
    PropDesc.initialize_ (.object d.makeObject) true = .ok d := by
  cases v with
  | undefined => cases h
  | primitive => cases h
  | object o =>
    obtain ⟨en, cf, va, wr, ge, se⟩ := o
    have tb : ∀ b, ToBoolean (.bool b) = b := fun _ => rfl
    cases en <;> cases cf <;> cases va <;> cases wr <;> cases ge <;> cases se <;>
      simp [PropDesc.initialize_, PropDesc.readEnumerable, PropDesc.readConfigurable,
        PropDesc.readValue, PropDesc.readWritable, PropDesc.readGet, PropDesc.readSet,
        PropDesc.undefined, PropDesc.checkGetter, PropDesc.checkSetter, PropDesc.hasGet,
        PropDesc.hasSet, PropDesc.hasValue, PropDesc.hasWritable] at h <;>
      (try (repeat' split at h)) <;>
      (try (cases h; done)) <;>
      (try cases h) <;>
      simp [PropDesc.initialize_, PropDesc.makeObject, PropDesc.readEnumerable,
        PropDesc.readConfigurable,
        PropDesc.readValue, PropDesc.readWritable, PropDesc.readGet, PropDesc.readSet,
        PropDesc.undefined, PropDesc.checkGetter, PropDesc.checkSetter, PropDesc.hasGet,
        PropDesc.hasSet, PropDesc.hasValue, PropDesc.hasWritable, PropDesc.hasEnumerable,
        PropDesc.hasConfigurable, PropDesc.value, tb, setAttr, clearAttr, JSPROP_PERMANENT,
        JSPROP_READONLY, JSPROP_ENUMERATE, JSPROP_GETTER, JSPROP_SETTER, JSPROP_SHARED, *] <;>
      decide

theorem PropDesc.initialize_isUndefined {v : DescriptorValue} {chk : Bool} {d : PropDesc}
    (h : PropDesc.initialize_ v chk = .ok d) : d.isUndefined_ = false := by
  cases v with
  | undefined => cases h
  | primitive => cases h
  | object o => exact (PropDesc.initialize_permanent h).1

/-- What `NormalizePropertyDescriptor` without completion returns: the script
object of the descriptor parsed from its argument, which parses to that
descriptor again. -/
theorem NormalizePropertyDescriptor_ok {vp nd : DescriptorValue}
    (hn : NormalizePropertyDescriptor vp false = .ok nd) :
    ∃ desc, PropDesc.initialize_ vp true = .ok desc ∧ nd = .object desc.makeObject ∧
      PropDesc.initialize_ nd true = .ok desc := by
  unfold NormalizePropertyDescriptor at hn
  simp only [Bool.false_and, Bool.false_eq_true, if_false] at hn
  split at hn
  · cases hn
  · rename_i d hd
    have hu := PropDesc.initialize_isUndefined hd
    unfold FromGenericPropertyDescriptor at hn
    simp only [PropDesc.isUndefined, hu, Bool.false_eq_true, if_false] at hn
    cases hn
    exact ⟨d, hd, rfl, PropDesc.initialize_makeObject hd⟩

/-- C21, as stated, fails: the key is new on an extensible target and the
requested descriptor is non-configurable, so condition (3) does not hold; the
trap sets `configurable` to true on the descriptor object it is handed and
returns true, and `TrapDefineOwnProperty` succeeds. -/
theorem defineProperty_truthy_trap_counterexample :
    HasOwn (Example.emptyTarget true) Example.x = false ∧
    PropDesc.initialize_ (Example.dataDescObject (.number 2) true true false) true =
      .ok (Example.dataDesc (.number 2) true true false) ∧
    (Example.dataDesc (.number 2) true true false).configurable = false ∧
    NormalizePropertyDescriptor (Example.dataDescObject (.number 2) true true false) false =
      .ok (Example.dataDescObject (.number 2) true true false) ∧
    TrapDefineOwnProperty
      (Example.redefining (Example.emptyTarget true) (.bool true)
        (Example.dataDescObject (.number 2) true true true))
      Example.x (Example.dataDescObject (.number 2) true true false) =
      (.ok (some true), Example.emptyTarget true) :=
  ⟨rfl, rfl, rfl, rfl, rfl⟩

/-- C21, amended. With the `defineProperty` trap present, called on the normalised
descriptor object `nd`, returning a truthy value and leaving that object with
the content `after`: when `after` reads as the descriptor `desc`,
`TrapDefineOwnProperty` stores true and succeeds exactly when (1)
`ValidateProperty` accepts `desc` if the key is an own property of the target,
(2) it is not so that the target is non-extensible and the key new, and (3) it
is not so that `desc` is non-configurable and the key new, and otherwise it fails
with a reported error; when `after` does not read as a descriptor it fails.  A
trap that leaves the object as it received it leaves the requested descriptor.
The target is the one inspected. -/
theorem defineProperty_truthy_trap (proxy : ProxyObject) (id : jsid)
    (vp nd after : DescriptorValue)
    (invoke : JSObject × Value × DescriptorValue → Option (Value × DescriptorValue)) (r : Value)
    (htrap : proxy.handler.defineProperty = .value invoke)
    (hn : NormalizePropertyDescriptor vp false = .ok nd)
    (hres : invoke (proxy.target, IdToValue id, nd) = some (r, after))
    (htruthy : ToBoolean r = true) :
    (∀ desc, PropDesc.initialize_ after true = .ok desc →
      ((TrapDefineOwnProperty proxy id vp).1 = .ok (some true) ↔
        ((HasOwn proxy.target id = true → ValidateProperty proxy.target id desc = true) ∧
         ¬(proxy.target.isExtensible = false ∧ HasOwn proxy.target id = false) ∧
         ¬(desc.configurable = false ∧ HasOwn proxy.target id = false))) ∧
      ((TrapDefineOwnProperty proxy id vp).1 = .ok (some true) ∨
        ∃ n, (TrapDefineOwnProperty proxy id vp).1 = .error (.reported n))) ∧
    (∀ e, PropDesc.initialize_ after true = .error e →
      ∃ e', (TrapDefineOwnProperty proxy id vp).1 = .error e') ∧
    (after = nd →
      ∃ desc, PropDesc.initialize_ vp true = .ok desc ∧
        PropDesc.initialize_ after true = .ok desc) ∧
    (TrapDefineOwnProperty proxy id vp).2 = proxy.target := by
  refine ⟨?_, ?_, ?_, ?_⟩
  · intro desc hi
    unfold TrapDefineOwnProperty
    simp only [GetDirectProxyHandlerObject, GetProxyTargetObject, htrap, hn, hres, htruthy, hi,
      if_true]
    cases hext : proxy.target.isExtensible <;> cases hown : HasOwn proxy.target id <;>
      cases hval : ValidateProperty proxy.target id desc <;>
      cases hc : desc.configurable <;> simp
  · intro e hi
    unfold TrapDefineOwnProperty
    simp only [GetDirectProxyHandlerObject, GetProxyTargetObject, htrap, hn, hres, htruthy, hi,
      if_true]
    cases hext : proxy.target.isExtensible <;> cases hown : HasOwn proxy.target id <;> simp
  · intro h
    obtain ⟨desc, h1, _, h2⟩ := NormalizePropertyDescriptor_ok hn
    exact ⟨desc, h1, by rw [h]; exact h2⟩
  · unfold TrapDefineOwnProperty
    simp only [GetDirectProxyHandlerObject, GetProxyTargetObject, htrap, hn, hres, htruthy,
      if_true]
    cases hext : proxy.target.isExtensible <;> cases hown : HasOwn proxy.target id <;>
      cases hi : PropDesc.initialize_ after true <;> simp <;> repeat' split <;> rfl

theorem defineProperty_truthy_trap_witness :
    (TrapDefineOwnProperty
        (Example.defining (Example.dataTarget JSPROP_ENUMERATE (.number 1) true) (.bool true))
        Example.x (Example.dataDescObject (.number 2) true true true)).1 = .ok (some true) ∧
    ∃ n, (TrapDefineOwnProperty
        (Example.redefining (Example.emptyTarget true) (.bool true)
          (Example.dataDescObject (.number 2) true true false))
        Example.x (Example.dataDescObject (.number 2) true true true)).1 =
      .error (.reported n) :=
  ⟨((defineProperty_truthy_trap
      (Example.defining (Example.dataTarget JSPROP_ENUMERATE (.number 1) true) (.bool true))
      Example.x (Example.dataDescObject (.number 2) true true true)
      (Example.dataDescObject (.number 2) true true true)
      (Example.dataDescObject (.number 2) true true true)
      (fun a => some (.bool true, a.2.2)) (.bool true) rfl rfl rfl rfl).1
      (Example.dataDesc (.number 2) true true true) rfl).1.mpr
      ⟨fun _ => by decide, by decide, by decide⟩,
   (((defineProperty_truthy_trap
      (Example.redefining (Example.emptyTarget true) (.bool true)
        (Example.dataDescObject (.number 2) true true false))
      Example.x (Example.dataDescObject (.number 2) true true true)
      (Example.dataDescObject (.number 2) true true true)
      (Example.dataDescObject (.number 2) true true false)
      (fun _ => some (.bool true, Example.dataDescObject (.number 2) true true false))
      (.bool true) rfl rfl rfl rfl).1
      (Example.dataDesc (.number 2) true true false) rfl).2).resolve_left
      (fun h => by
        have h2 := ((defineProperty_truthy_trap
          (Example.redefining (Example.emptyTarget true) (.bool true)
            (Example.dataDescObject (.number 2) true true false))
          Example.x (Example.dataDescObject (.number 2) true true true)
          (Example.dataDescObject (.number 2) true true true)
          (Example.dataDescObject (.number 2) true true false)
          (fun _ => some (.bool true, Example.dataDescObject (.number 2) true true false))
          (.bool true) rfl rfl rfl rfl).1
          (Example.dataDesc (.number 2) true true false) rfl).1.mp h
        exact h2.2.2 ⟨by decide, by decide⟩)⟩

/-! ## Traps the handler object does not define -/

/-- C22. When the handler object stores undefined under the name of a trap, the
scripted direct operation is the `DirectProxyHandler` operation on the same
arguments: the same status, the same output and the same target afterwards, for
`has`, `hasOwn`, `get`, `set`, `delete_` (trap name `deleteProperty`), `keys`,
`enumerate` and `getOwnPropertyNames`. -/
theorem undefined_trap_forwards (cx : JSContext) (proxy : ProxyObject) (receiver : ObjRef)
    (id : jsid) (strict : Bool) (vp : Value) (props : List jsid) :
    (proxy.handler.has = .undefined →
      ScriptedDirectProxyHandler.has cx proxy id = DirectProxyHandler.has cx proxy id) ∧
    (proxy.handler.hasOwn = .undefined →
      ScriptedDirectProxyHandler.hasOwn cx proxy id = DirectProxyHandler.hasOwn cx proxy id) ∧
    (proxy.handler.get = .undefined →
      ScriptedDirectProxyHandler.get cx proxy receiver id vp =
        DirectProxyHandler.get cx proxy receiver id vp) ∧
    (proxy.handler.set = .undefined →
      ScriptedDirectProxyHandler.set cx proxy receiver id strict vp =
        DirectProxyHandler.set cx proxy receiver id strict vp) ∧
    (proxy.handler.deleteProperty = .undefined →
      ScriptedDirectProxyHandler.delete_ cx proxy id = DirectProxyHandler.delete_ cx proxy id) ∧
    (proxy.handler.keys = .undefined →
      ScriptedDirectProxyHandler.keys cx proxy props = DirectProxyHandler.keys cx proxy props) ∧
    (proxy.handler.enumerate = .undefined →
      ScriptedDirectProxyHandler.enumerate cx proxy props =
        DirectProxyHandler.enumerate cx proxy props) ∧
    (proxy.handler.getOwnPropertyNames = .undefined →
      ScriptedDirectProxyHandler.getOwnPropertyNames cx proxy props =
        DirectProxyHandler.getOwnPropertyNames cx proxy props) := by
  refine ⟨?_, ?_, ?_, ?_, ?_, ?_, ?_, ?_⟩ <;> intro h
  · simp only [ScriptedDirectProxyHandler.has, GetDirectProxyHandlerObject, h]
  · simp only [ScriptedDirectProxyHandler.hasOwn, GetDirectProxyHandlerObject, h]
  · simp only [ScriptedDirectProxyHandler.get, GetDirectProxyHandlerObject, h]
  · simp only [ScriptedDirectProxyHandler.set, GetDirectProxyHandlerObject, h]
  · simp only [ScriptedDirectProxyHandler.delete_, GetDirectProxyHandlerObject, h]
  · simp only [ScriptedDirectProxyHandler.keys, GetDirectProxyHandlerObject, h]
  · simp only [ScriptedDirectProxyHandler.enumerate, GetDirectProxyHandlerObject, h]
  · simp only [ScriptedDirectProxyHandler.getOwnPropertyNames, GetDirectProxyHandlerObject, h]

theorem undefined_trap_forwards_witness :
    ScriptedDirectProxyHandler.has Example.cx
        (Example.getting (Example.dataTarget JSPROP_PERMANENT (.number 1) false) (.number 2))
        Example.x =
      DirectProxyHandler.has Example.cx
        (Example.getting (Example.dataTarget JSPROP_PERMANENT (.number 1) false) (.number 2))
        Example.x ∧
    ScriptedDirectProxyHandler.delete_ Example.cx
        (Example.getting (Example.dataTarget JSPROP_PERMANENT (.number 1) false) (.number 2))
        Example.x =
      DirectProxyHandler.delete_ Example.cx
        (Example.getting (Example.dataTarget JSPROP_PERMANENT (.number 1) false) (.number 2))
        Example.x ∧
    ScriptedDirectProxyHandler.keys Example.cx
        (Example.getting (Example.dataTarget JSPROP_PERMANENT (.number 1) false) (.number 2)) [] =
      .ok [] :=
  ⟨(undefined_trap_forwards Example.cx
      (Example.getting (Example.dataTarget JSPROP_PERMANENT (.number 1) false) (.number 2))
      .proxy Example.x false .undefined []).1 rfl,
   (undefined_trap_forwards Example.cx
      (Example.getting (Example.dataTarget JSPROP_PERMANENT (.number 1) false) (.number 2))
      .proxy Example.x false .undefined []).2.2.2.2.1 rfl,
   ((undefined_trap_forwards Example.cx
      (Example.getting (Example.dataTarget JSPROP_PERMANENT (.number 1) false) (.number 2))
      .proxy Example.x false .undefined []).2.2.2.2.2.1 rfl).trans rfl⟩

/-! ## The weak-map key delegate -/

/-- C30. `DirectProxyHandler::weakmapKeyDelegate` returns the object the proxy
wraps, which is not the proxy, and `BaseProxyHandler::weakmapKeyDelegate`
returns `NULL`, for every proxy. -/
theorem weakmapKeyDelegate_unwraps (proxy : ProxyObject) :
    DirectProxyHandler.weakmapKeyDelegate proxy = some (.target 0) ∧
    DirectProxyHandler.weakmapKeyDelegate proxy ≠ some .proxy ∧
    BaseProxyHandler.weakmapKeyDelegate proxy = none := by
  refine ⟨rfl, ?_, rfl⟩
  simp [DirectProxyHandler.weakmapKeyDelegate, UnwrapObject]

/-! ## The dispatcher -/

/-- The inner loop of `js::AppendUnique` is the membership test on `base`. -/
theorem AppendUnique.unique_eq (id : jsid) (base : List jsid) :
    AppendUnique.unique id base = !base.contains id := by
  induction base with
  | nil => rfl
  | cons b rest ih =>
    simp only [AppendUnique.unique, List.contains_cons, Bool.not_or]
    by_cases h : id = b
    · simp [h]
    · simp [h, ih]

theorem AppendUnique.collect_eq (base : List jsid) (others acc : List jsid) :
    AppendUnique.collect base others acc =
      acc ++ others.filter (fun k => !base.contains k) := by
  induction others generalizing acc with
  | nil => simp [AppendUnique.collect]
  | cons o rest ih =>
    simp only [AppendUnique.collect, ih, AppendUnique.unique_eq, List.filter_cons]
    cases base.contains o <;> simp

/-- `js::AppendUnique` leaves `base` followed by the elements of `others` that
are not in `base`, in their order. -/
theorem AppendUnique_eq (base others : List jsid) :
    AppendUnique base others = base ++ others.filter (fun k => !base.contains k) := by
  simp [AppendUnique, AppendUnique.collect_eq]

/-- C23. When the policy of the handler refuses a `has` check, `Proxy::has`
ends at the refusal with false in the caller's flag and the value the policy
prescribes as its status.  `enter` is the only method of the handler it enters:
the counts of entries into `has`, `hasOwn` and `getPrototypeOf` are 0. -/
theorem has_denied (cx : JSContext) (handler : BaseProxyHandler) (proxy : ProxyObject)
    (id : jsid) (bp rv : Bool)
    (hrec : cx.overRecursed = false) (hpol : handler.hasPolicy = true)
    (hdeny : handler.enter cx proxy id .GET = (false, rv)) :
    (Proxy.has cx handler proxy id bp).out = .denied rv false ∧
    (Proxy.has cx handler proxy id bp).methods = [.enter] ∧
    (Proxy.has cx handler proxy id bp).methods.count .has = 0 ∧
    (Proxy.has cx handler proxy id bp).methods.count .hasOwn = 0 ∧
    (Proxy.has cx handler proxy id bp).methods.count .getPrototypeOf = 0 := by
  have h : Proxy.has cx handler proxy id bp = ⟨.denied rv false, [.enter]⟩ := by
    simp [Proxy.has, hrec, AutoEnterPolicy.create, AutoEnterPolicy.allowed,
      AutoEnterPolicy.returnValue, AutoEnterPolicy.entered, hpol, hdeny]
  rw [h]
  exact ⟨rfl, rfl, by simp, by simp, by simp⟩

theorem has_denied_witness :
    (Proxy.has Example.cx (Example.guarded false false true true []).toBaseProxyHandler
      (Example.getting (Example.emptyTarget true) .undefined) Example.x true).out =
      .denied true false ∧
    (Proxy.has Example.cx (Example.guarded false false true true []).toBaseProxyHandler
      (Example.getting (Example.emptyTarget true) .undefined) Example.x true).methods =
      [.enter] ∧
    (Proxy.has Example.cx (Example.guarded false false true true []).toBaseProxyHandler
      (Example.getting (Example.emptyTarget true) .undefined) Example.x true).methods.count
      .has = 0 ∧
    (Proxy.has Example.cx (Example.guarded false false true true []).toBaseProxyHandler
      (Example.getting (Example.emptyTarget true) .undefined) Example.x true).methods.count
      .hasOwn = 0 ∧
    (Proxy.has Example.cx (Example.guarded false false true true []).toBaseProxyHandler
      (Example.getting (Example.emptyTarget true) .undefined) Example.x true).methods.count
      .getPrototypeOf = 0 :=
  has_denied Example.cx (Example.guarded false false true true []).toBaseProxyHandler
    (Example.getting (Example.emptyTarget true) .undefined) Example.x true true rfl rfl rfl

/-- C25. For a handler with a prototype whose policy grants the check,
`Proxy::has` answers true if `hasOwn` answers true; else false if
`getPrototypeOf` yields no prototype; else the ordinary has-property answer of
the prototype.  A failure of `hasOwn` or of `getPrototypeOf` is the failure of
the operation, and the `has` method of the handler is not entered. -/
theorem has_with_prototype (cx : JSContext) (handler : BaseProxyHandler) (proxy : ProxyObject)
    (id : jsid) (bp : Bool)
    (hrec : cx.overRecursed = false) (hproto : handler.hasPrototype = true)
    (hallow : (AutoEnterPolicy.create cx handler proxy id .GET true).allowed = true) :
    (handler.hasOwn cx proxy id = .ok true →
      (Proxy.has cx handler proxy id bp).out = .performed (.ok true)) ∧
    (∀ e, handler.hasOwn cx proxy id = .error e →
      (Proxy.has cx handler proxy id bp).out = .performed (.error e)) ∧
    (handler.hasOwn cx proxy id = .ok false →
      (handler.getPrototypeOf cx proxy = .ok none →
        (Proxy.has cx handler proxy id bp).out = .performed (.ok false)) ∧
      (∀ proto, handler.getPrototypeOf cx proxy = .ok (some proto) →
        (Proxy.has cx handler proxy id bp).out =
          .performed (.ok (JS_HasPropertyById proto id))) ∧
      (∀ e, handler.getPrototypeOf cx proxy = .error e →
        (Proxy.has cx handler proxy id bp).out = .performed (.error e))) ∧
    (Proxy.has cx handler proxy id bp).methods.count .has = 0 := by
  have hent : (AutoEnterPolicy.entered handler).count .has = 0 := by
    unfold AutoEnterPolicy.entered; split <;> decide
  refine ⟨?_, ?_, ?_, ?_⟩
  · intro h; simp [Proxy.has, hrec, hallow, hproto, h]
  · intro e h; simp [Proxy.has, hrec, hallow, hproto, h]
  · intro h
    refine ⟨?_, ?_, ?_⟩
    · intro hp; simp [Proxy.has, hrec, hallow, hproto, h, INVOKE_ON_PROTOTYPE, hp]
    · intro proto hp; simp [Proxy.has, hrec, hallow, hproto, h, INVOKE_ON_PROTOTYPE, hp]
    · intro e hp; simp [Proxy.has, hrec, hallow, hproto, h, INVOKE_ON_PROTOTYPE, hp]
  · cases h : handler.hasOwn cx proxy id with
    | error e => simp [Proxy.has, hrec, hallow, hproto, h, List.count_append, hent]
    | ok b => cases b <;> simp [Proxy.has, hrec, hallow, hproto, h, List.count_append, hent]

theorem has_with_prototype_witness :
    (Proxy.has Example.cx (Example.guarded true true false false []).toBaseProxyHandler
      (Example.inheriting (Example.emptyTarget true) Example.xy) Example.x true).out =
      .performed (.ok true) ∧
    (Proxy.has Example.cx (Example.guarded true true false false []).toBaseProxyHandler
      (Example.inheriting (Example.emptyTarget true) Example.xy) Example.x true).methods.count
      .has = 0 :=
  ⟨(((has_with_prototype Example.cx
        (Example.guarded true true false false []).toBaseProxyHandler
        (Example.inheriting (Example.emptyTarget true) Example.xy) Example.x true
        rfl rfl rfl).2.2.1 rfl).2.1 Example.xy rfl).trans rfl,
   (has_with_prototype Example.cx
        (Example.guarded true true false false []).toBaseProxyHandler
        (Example.inheriting (Example.emptyTarget true) Example.xy) Example.x true
        rfl rfl rfl).2.2.2⟩

/-- C26. For a handler with a prototype whose policy grants the operation, and
whose `keys` leaves the list `ks` in the vector: `Proxy::enumerate` leaves `ks`
followed by the property names `GetPropertyNames` lists for the prototype that
do not occur in `ks`, in their order; without a prototype it leaves `ks`.  The
`enumerate` method of the handler is not entered. -/
theorem enumerate_with_prototype (cx : JSContext) (handler : ProxyHandler) (proxy : ProxyObject)
    (props ks : List jsid)
    (hrec : cx.overRecursed = false) (hproto : handler.hasPrototype = true)
    (hallow : (AutoEnterPolicy.create cx handler.toBaseProxyHandler proxy .void .GET true).allowed
      = true)
    (hkeys : handler.keys cx proxy props = .ok ks) :
    (∀ proto, handler.getPrototypeOf cx proxy = .ok (some proto) →
      (Proxy.enumerate cx handler proxy props).out =
        .performed (.ok (ks ++ (GetPropertyNames proto 0).filter (fun k => !ks.contains k)))) ∧
    (handler.getPrototypeOf cx proxy = .ok none →
      (Proxy.enumerate cx handler proxy props).out = .performed (.ok ks)) ∧
    (Proxy.enumerate cx handler proxy props).methods.count .enumerate = 0 := by
  have hent : (AutoEnterPolicy.entered handler.toBaseProxyHandler).count .enumerate = 0 := by
    unfold AutoEnterPolicy.entered; split <;> decide
  have hp' : handler.toBaseProxyHandler.hasPrototype = true := hproto
  refine ⟨?_, ?_, ?_⟩
  · intro proto hp
    simp [Proxy.enumerate, hrec, hallow, hp', hkeys, INVOKE_ON_PROTOTYPE, hp, AppendUnique_eq]
  · intro hp
    simp [Proxy.enumerate, hrec, hallow, hp', hkeys, INVOKE_ON_PROTOTYPE, hp]
  · simp [Proxy.enumerate, hrec, hallow, hp', hkeys, List.count_append, hent]

theorem enumerate_with_prototype_witness :
    (Proxy.enumerate Example.cx (Example.guarded true true false false [Example.x])
      (Example.inheriting (Example.emptyTarget true) Example.xy) []).out =
      .performed (.ok [Example.x, Example.y]) :=
  ((enumerate_with_prototype Example.cx (Example.guarded true true false false [Example.x])
      (Example.inheriting (Example.emptyTarget true) Example.xy) [] [Example.x]
      rfl rfl rfl rfl).1 Example.xy rfl).trans rfl

/-- Beyond the recursion limit each of these entry points fails at once: no
policy is consulted and no method of the handler entered. -/
theorem entry_points_check_recursion (cx : JSContext) (hrec : cx.overRecursed = true)
    (handler : ProxyHandler) (proxy : ProxyObject) (receiver : ObjRef) (id : jsid)
    (desc : PropertyDescriptor) (dv : DescriptorValue) (props : List jsid) (bp strict : Bool)
    (vp : Value) (index flags hint indent : Nat) (iv : IterValue) (vps : List Value)
    (test : Value → Bool) (impl : CallArgs → Except Error Value) (args : CallArgs) :
    Proxy.getPropertyDescriptor cx handler proxy id desc = ⟨.overRecursed, []⟩ ∧
    Proxy.getPropertyDescriptorValue cx handler proxy id dv = ⟨.overRecursed, []⟩ ∧
    Proxy.getOwnPropertyDescriptor cx handler.toBaseProxyHandler proxy id desc =
      ⟨.overRecursed, []⟩ ∧
    Proxy.getOwnPropertyDescriptorValue cx handler.toBaseProxyHandler proxy id dv =
      ⟨.overRecursed, []⟩ ∧
    Proxy.defineProperty cx handler proxy id desc = ⟨.overRecursed, []⟩ ∧
    Proxy.definePropertyValue cx handler proxy id dv = ⟨.overRecursed, []⟩ ∧
    Proxy.getOwnPropertyNames cx handler proxy props = ⟨.overRecursed, []⟩ ∧
    Proxy.delete_ cx handler proxy id bp = ⟨.overRecursed, []⟩ ∧
    Proxy.enumerate cx handler proxy props = ⟨.overRecursed, []⟩ ∧
    Proxy.has cx handler.toBaseProxyHandler proxy id bp = ⟨.overRecursed, []⟩ ∧
    Proxy.hasOwn cx handler.toBaseProxyHandler proxy id bp = ⟨.overRecursed, []⟩ ∧
    Proxy.get cx handler.toBaseProxyHandler proxy receiver id vp = ⟨.overRecursed, []⟩ ∧
    Proxy.getElementIfPresent cx handler proxy receiver index vp bp = ⟨.overRecursed, []⟩ ∧
    Proxy.set cx handler proxy receiver id strict vp = ⟨.overRecursed, []⟩ ∧
    Proxy.keys cx handler proxy props = ⟨.overRecursed, []⟩ ∧
    Proxy.iterate cx handler proxy flags iv = ⟨.overRecursed, []⟩ ∧
    Proxy.call cx handler proxy vps = ⟨.overRecursed, []⟩ ∧
    Proxy.construct cx handler proxy vps vp = ⟨.overRecursed, []⟩ ∧
    Proxy.nativeCall cx handler test impl args = ⟨.overRecursed, []⟩ ∧
    Proxy.hasInstance cx handler proxy vp bp = ⟨.overRecursed, []⟩ ∧
    Proxy.obj_toString cx handler proxy = ⟨.overRecursed, []⟩ ∧
    Proxy.fun_toString cx handler proxy indent = ⟨.overRecursed, []⟩ ∧
    Proxy.regexp_toShared cx handler proxy = ⟨.overRecursed, []⟩ ∧
    Proxy.defaultValue cx handler proxy hint = ⟨.overRecursed, []⟩ ∧
    Proxy.getPrototypeOf cx handler proxy = ⟨.overRecursed, []⟩ := by
  refine ⟨?_, ?_, ?_, ?_, ?_, ?_, ?_, ?_, ?_, ?_, ?_, ?_, ?_, ?_, ?_, ?_, ?_, ?_, ?_, ?_, ?_,
    ?_, ?_, ?_, ?_⟩
  · simp [Proxy.getPropertyDescriptor, hrec]
  · simp [Proxy.getPropertyDescriptorValue, hrec]
  · simp [Proxy.getOwnPropertyDescriptor, hrec]
  · simp [Proxy.getOwnPropertyDescriptorValue, hrec]
  · simp [Proxy.defineProperty, hrec]
  · simp [Proxy.definePropertyValue, hrec]
  · simp [Proxy.getOwnPropertyNames, hrec]
  · simp [Proxy.delete_, hrec]
  · simp [Proxy.enumerate, hrec]
  · simp [Proxy.has, hrec]
  · simp [Proxy.hasOwn, hrec]
  · simp [Proxy.get, hrec]
  · simp [Proxy.getElementIfPresent, hrec]
  · simp [Proxy.set, hrec]
  · simp [Proxy.keys, hrec]
  · simp [Proxy.iterate, hrec]
  · simp [Proxy.call, hrec]
  · simp [Proxy.construct, hrec]
  · simp [Proxy.nativeCall, hrec]
  · simp [Proxy.hasInstance, hrec]
  · simp [Proxy.obj_toString, hrec]
  · simp [Proxy.fun_toString, hrec]
  · simp [Proxy.regexp_toShared, hrec]
  · simp [Proxy.defaultValue, hrec]
  · simp [Proxy.getPrototypeOf, hrec]

/-- C27 fails on the code: beyond the recursion limit `Proxy::objectClassIs`
enters the `objectClassIs` method of the handler and returns its answer; it has
no recursion check.  `Proxy::getPrototypeOf`, like the other entry points, fails
there without entering the handler. -/
theorem Proxy_objectClassIs_enters_handler :
    Example.deepCx.overRecursed = true ∧
    (Proxy.objectClassIs (Example.guarded false true false true [])
      (Example.getting (Example.emptyTarget true) .undefined) 0 Example.deepCx).out =
      .performed (.ok true) ∧
    (Proxy.objectClassIs (Example.guarded false true false true [])
      (Example.getting (Example.emptyTarget true) .undefined) 0 Example.deepCx).methods =
      [.objectClassIs] ∧
    (Proxy.getPrototypeOf Example.deepCx (Example.guarded false true false true [])
      (Example.getting (Example.emptyTarget true) .undefined)).out = .overRecursed ∧
    (Proxy.getPrototypeOf Example.deepCx (Example.guarded false true false true [])
      (Example.getting (Example.emptyTarget true) .undefined)).methods = [] :=
  ⟨rfl, rfl, rfl, rfl, rfl⟩

/-- C24, as stated, fails: the policy refuses `set`, and the value slot holds
what the caller's variable held, 1 in one call and 2 in the other. -/
theorem denied_outputs_counterexample :
    (Proxy.set Example.cx (Example.guarded false false true true [])
      (Example.getting (Example.emptyTarget true) .undefined) .proxy Example.x false
      (.number 1)).out = .denied true (.number 1, none) ∧
    (Proxy.set Example.cx (Example.guarded false false true true [])
      (Example.getting (Example.emptyTarget true) .undefined) .proxy Example.x false
      (.number 2)).out = .denied true (.number 2, none) :=
  ⟨rfl, rfl⟩

/-- C24, amended. When the policy refuses, the outputs are: false for `has`,
`hasOwn` and `hasInstance`, true for `delete_`, undefined for `get`, `call` and
`construct`, undefined or, when the policy prescribes true, the empty iterator
for `iterate`, the caller's descriptor with the holder cleared for the
descriptor forms of `getPropertyDescriptor` and `getOwnPropertyDescriptor`, and
undefined for their value forms when the policy prescribes true.  No default is
written by `set`, nor by the value forms when the policy prescribes false: these
outputs hold what the caller's variables held. -/
theorem denied_outputs (cx : JSContext) (handler : ProxyHandler) (proxy : ProxyObject)
    (rv : Bool) (receiver : ObjRef) (id : jsid) (desc : PropertyDescriptor)
    (dv : DescriptorValue) (bp strict : Bool) (vp : Value) (flags : Nat) (iv : IterValue)
    (vps : List Value)
    (hrec : cx.overRecursed = false) (hpol : handler.hasPolicy = true)
    (hdeny : ∀ k act, handler.enter cx proxy k act = (false, rv)) :
    (Proxy.has cx handler.toBaseProxyHandler proxy id bp).out = .denied rv false ∧
    (Proxy.hasOwn cx handler.toBaseProxyHandler proxy id bp).out = .denied rv false ∧
    (Proxy.hasInstance cx handler proxy vp bp).out = .denied rv false ∧
    (Proxy.delete_ cx handler proxy id bp).out = .denied rv true ∧
    (Proxy.get cx handler.toBaseProxyHandler proxy receiver id vp).out = .denied rv .undefined ∧
    (Proxy.call cx handler proxy vps).out = .denied rv .undefined ∧
    (Proxy.construct cx handler proxy vps vp).out = .denied rv .undefined ∧
    (Proxy.iterate cx handler proxy flags iv).out =
      .denied rv (if rv then .iterator flags [] else .undefined) ∧
    (Proxy.getPropertyDescriptor cx handler proxy id desc).out =
      .denied rv { desc with obj := none } ∧
    (Proxy.getOwnPropertyDescriptor cx handler.toBaseProxyHandler proxy id desc).out =
      .denied rv { desc with obj := none } ∧
    (Proxy.getPropertyDescriptorValue cx handler proxy id dv).out =
      .denied rv (if rv then .undefined else dv) ∧
    (Proxy.getOwnPropertyDescriptorValue cx handler.toBaseProxyHandler proxy id dv).out =
      .denied rv (if rv then .undefined else dv) ∧
    (Proxy.set cx handler proxy receiver id strict vp).out = .denied rv (vp, none) := by
  have hpol' : handler.toBaseProxyHandler.hasPolicy = true := hpol
  have hc : ∀ k act b, AutoEnterPolicy.create cx handler.toBaseProxyHandler proxy k act b =
      ⟨false, rv⟩ := by
    intro k act b
    simp [AutoEnterPolicy.create, hpol', hdeny]
  refine ⟨?_, ?_, ?_, ?_, ?_, ?_, ?_, ?_, ?_, ?_, ?_, ?_, ?_⟩
  · simp [Proxy.has, hrec, hc, AutoEnterPolicy.allowed, AutoEnterPolicy.returnValue]
  · simp [Proxy.hasOwn, hrec, hc, AutoEnterPolicy.allowed, AutoEnterPolicy.returnValue]
  · simp [Proxy.hasInstance, hrec, hc, AutoEnterPolicy.allowed, AutoEnterPolicy.returnValue]
  · simp [Proxy.delete_, hrec, hc, AutoEnterPolicy.allowed, AutoEnterPolicy.returnValue]
  · simp [Proxy.get, hrec, hc, AutoEnterPolicy.allowed, AutoEnterPolicy.returnValue]
  · simp [Proxy.call, hrec, hc, AutoEnterPolicy.allowed, AutoEnterPolicy.returnValue]
  · simp [Proxy.construct, hrec, hc, AutoEnterPolicy.allowed, AutoEnterPolicy.returnValue]
  · cases hp : handler.toBaseProxyHandler.hasPrototype <;> cases rv <;>
      cases hf : hasAttr flags JSITER_OWNONLY <;>
      simp [Proxy.iterate, Proxy.keys, Proxy.enumerate, hrec, hc, hp, hf, AutoEnterPolicy.allowed,
        AutoEnterPolicy.returnValue, EnumeratedIdVectorToIterator]
  · simp [Proxy.getPropertyDescriptor, hrec, hc, AutoEnterPolicy.allowed,
      AutoEnterPolicy.returnValue]
  · simp [Proxy.getOwnPropertyDescriptor, hrec, hc, AutoEnterPolicy.allowed,
      AutoEnterPolicy.returnValue]
  · cases rv <;>
      simp [Proxy.getPropertyDescriptorValue, Proxy.getPropertyDescriptor, hrec, hc,
        AutoEnterPolicy.allowed, AutoEnterPolicy.returnValue, NewPropertyDescriptorObject,
        PropertyDescriptor.notFound]
  · cases rv <;>
      simp [Proxy.getOwnPropertyDescriptorValue, Proxy.getOwnPropertyDescriptor, hrec, hc,
        AutoEnterPolicy.allowed, AutoEnterPolicy.returnValue, NewPropertyDescriptorObject,
        PropertyDescriptor.notFound]
  · simp [Proxy.set, hrec, hc, AutoEnterPolicy.allowed, AutoEnterPolicy.returnValue]

theorem denied_outputs_witness :
    (Proxy.has Example.cx (Example.guarded false false true true []).toBaseProxyHandler
      (Example.getting (Example.emptyTarget true) .undefined) Example.x true).out =
      .denied true false ∧
    (Proxy.iterate Example.cx (Example.guarded false false true true [])
      (Example.getting (Example.emptyTarget true) .undefined) 0 (.value (.number 1))).out =
      .denied true (.iterator 0 []) ∧
    (Proxy.set Example.cx (Example.guarded false false true true [])
      (Example.getting (Example.emptyTarget true) .undefined) .proxy Example.x false
      (.number 1)).out = .denied true (.number 1, none) :=
  ⟨(denied_outputs Example.cx (Example.guarded false false true true [])
      (Example.getting (Example.emptyTarget true) .undefined) true .proxy Example.x
      PropertyDescriptor.notFound .undefined true false (.number 1) 0 (.value (.number 1)) []
      rfl rfl (fun _ _ => rfl)).1,
   (denied_outputs Example.cx (Example.guarded false false true true [])
      (Example.getting (Example.emptyTarget true) .undefined) true .proxy Example.x
      PropertyDescriptor.notFound .undefined true false (.number 1) 0 (.value (.number 1)) []
      rfl rfl (fun _ _ => rfl)).2.2.2.2.2.2.2.1,
   (denied_outputs Example.cx (Example.guarded false false true true [])
      (Example.getting (Example.emptyTarget true) .undefined) true .proxy Example.x
      PropertyDescriptor.notFound .undefined true false (.number 1) 0 (.value (.number 1)) []
      rfl rfl (fun _ _ => rfl)).2.2.2.2.2.2.2.2.2.2.2.2⟩

/-! ## `BaseProxyHandler::set` and `BaseProxyHandler::keys` -/

/-- C29. `BaseProxyHandler::set` at a key whose own descriptor is present and
read-only, or, without an own descriptor, whose inherited descriptor is present
and read-only: with `strict` it fails with the reported error
`JSMSG_CANT_REDEFINE_PROP`; without it succeeds, the value slot as it was.  In
both cases it makes no call beyond the lookups: it neither calls a setter nor
`defineProperty`, the only calls that change the receiver. -/
theorem set_readonly (cx : JSContext) (this : ProxyHandler) (proxy : ProxyObject)
    (receiver : ObjRef) (id : jsid) (strict : Bool) (vp : Value) (own : PropertyDescriptor)
    (hown : this.getOwnPropertyDescriptor cx proxy id PropertyDescriptor.notFound = .ok own) :
    (own.obj.isSome = true → hasAttr own.attrs JSPROP_READONLY = true →
      (BaseProxyHandler.set cx this proxy receiver id strict vp).result =
        (if strict then .error (.reported .JSMSG_CANT_REDEFINE_PROP) else .ok vp) ∧
      (BaseProxyHandler.set cx this proxy receiver id strict vp).calls = []) ∧
    (own.obj.isSome = false → ∀ inherited,
      this.getPropertyDescriptor cx proxy id own = .ok inherited →
      inherited.obj.isSome = true → hasAttr inherited.attrs JSPROP_READONLY = true →
      (BaseProxyHandler.set cx this proxy receiver id strict vp).result =
        (if strict then .error (.reported .JSMSG_CANT_REDEFINE_PROP) else .ok vp) ∧
      (BaseProxyHandler.set cx this proxy receiver id strict vp).calls = []) := by
  refine ⟨?_, ?_⟩
  · intro hp hr
    simp [BaseProxyHandler.set, hown, hp, BaseProxyHandler.set.ownBlock, hr, Throw]
  · intro hp inh hinh hip hr
    simp [BaseProxyHandler.set, hown, hp, hinh, hip, BaseProxyHandler.set.inheritedBlock, hr,
      Throw]

theorem set_readonly_witness :
    (BaseProxyHandler.set Example.cx Example.direct
        (Example.getting (Example.dataTarget JSPROP_READONLY (.number 1) true) .undefined)
        .proxy Example.x true (.number 3)).result =
      (if true then .error (.reported .JSMSG_CANT_REDEFINE_PROP) else .ok (.number 3)) ∧
    (BaseProxyHandler.set Example.cx Example.direct
        (Example.getting (Example.dataTarget JSPROP_READONLY (.number 1) true) .undefined)
        .proxy Example.x true (.number 3)).calls = [] :=
  (set_readonly Example.cx Example.direct
    (Example.getting (Example.dataTarget JSPROP_READONLY (.number 1) true) .undefined)
    .proxy Example.x true (.number 3)
    (GetOwnPropertyDescriptor (Example.dataTarget JSPROP_READONLY (.number 1) true) Example.x 0)
    rfl).1 rfl rfl

/-- Writing at index `n` leaves the first `n` elements. -/
theorem take_set_self {α : Type} (l : List α) (n : Nat) (a : α) :
    (l.set n a).take n = l.take n := by
  induction l generalizing n with
  | nil => simp
  | cons x xs ih => cases n <;> simp [ih]

/-- The loop of `BaseProxyHandler::keys` against the selection: from a state
whose write index is at most the read index `j` and whose slots from `j` on
are as `getOwnPropertyNames` left them, `n` iterations keep both, and the
written part grows by the ids selected among the `n` slots read. -/
theorem BaseProxyHandler.keys.loop_spec (cx : JSContext) (this : ProxyHandler)
    (proxy : ProxyObject) (names : List jsid) :
    ∀ (n j : Nat) (s : KeysLoop), s.i ≤ j → s.props.length = names.length →
      s.props.drop j = names.drop j → j + n ≤ names.length →
      match BaseProxyHandler.keys.loop cx this proxy n j s,
        enumerableIds (this.getOwnPropertyDescriptor cx proxy) ((names.drop j).take n) s.desc with
      | .ok s', .ok r =>
        s'.i ≤ j + n ∧ s'.props.length = names.length ∧
        s'.props.drop (j + n) = names.drop (j + n) ∧
        s'.props.take s'.i = s.props.take s.i ++ r
      | .error e, .error e' => e = e'
      | _, _ => False := by
  intro n
  induction n with
  | zero =>
    intro j s hi hl hd hn
    simp [BaseProxyHandler.keys.loop, enumerableIds, hi, hl, hd]
  | succ n ih =>
    intro j s hi hl hd hn
    have hj : j < names.length := by omega
    have hjs : j < s.props.length := by omega
    have hget : s.props[j]? = some names[j] := by
      have h1 : (s.props.drop j)[0]? = (names.drop j)[0]? := by rw [hd]
      simpa [List.getElem?_drop, List.getElem?_eq_getElem hj] using h1
    have hdrop : (names.drop j).take (n + 1) = names[j] :: (names.drop (j + 1)).take n := by
      conv_lhs => rw [List.drop_eq_getElem_cons hj]
      rfl
    rw [hdrop]
    simp only [BaseProxyHandler.keys.loop, BaseProxyHandler.keys.body, hget, enumerableIds]
    cases hlook : this.getOwnPropertyDescriptor cx proxy names[j] s.desc with
    | error e => simp
    | ok d =>
      simp only
      cases hc : (d.obj.isSome && hasAttr d.attrs JSPROP_ENUMERATE) with
      | false =>
        simp only [Bool.false_eq_true, if_false]
        have h := ih (j + 1) ⟨s.props, s.i, d⟩ (by simp; omega) hl
          (by
            have := congrArg (List.drop 1) hd
            simpa [List.drop_drop, Nat.add_comm] using this)
          (by omega)
        simp only at h
        revert h
        cases BaseProxyHandler.keys.loop cx this proxy n (j + 1) ⟨s.props, s.i, d⟩ <;>
          cases enumerableIds (this.getOwnPropertyDescriptor cx proxy)
            (List.take n (List.drop (j + 1) names)) d <;> simp
        intro h1 h2 h3 h4
        have e : j + 1 + n = j + (n + 1) := by omega
        rw [e] at h1 h3
        exact ⟨h1, h2, h3, h4⟩
      | true =>
        simp only [if_true]
        have hil : s.i < s.props.length := by omega
        have h := ih (j + 1) ⟨s.props.set s.i names[j], s.i + 1, d⟩ (by simp; omega)
          (by simp [hl])
          (by
            have := congrArg (List.drop 1) hd
            simp only [List.drop_drop] at this
            rw [List.drop_set_of_lt _ _ (by omega)]
            simpa [Nat.add_comm] using this)
          (by omega)
        simp only at h
        revert h
        cases BaseProxyHandler.keys.loop cx this proxy n (j + 1)
            ⟨s.props.set s.i names[j], s.i + 1, d⟩ <;>
          cases enumerableIds (this.getOwnPropertyDescriptor cx proxy)
            (List.take n (List.drop (j + 1) names)) d <;> simp
        intro h1 h2 h3 h4
        have e : j + 1 + n = j + (n + 1) := by omega
        rw [e] at h1 h3
        refine ⟨h1, h2, h3, ?_⟩
        rw [h4, List.take_succ, take_set_self]
        simp [hil]

/-- The selection is a sub-list. -/
theorem enumerableIds_sublist
    (lookup : jsid → PropertyDescriptor → Except Error PropertyDescriptor) :
    ∀ (l : List jsid) (d : PropertyDescriptor) (r : List jsid),
      enumerableIds lookup l d = .ok r → r.Sublist l := by
  intro l
  induction l with
  | nil =>
    intro d r h
    simp [enumerableIds] at h
    subst h
    exact List.Sublist.refl _
  | cons id rest ih =>
    intro d r h
    simp only [enumerableIds] at h
    cases hl : lookup id d with
    | error e => simp [hl] at h
    | ok d1 =>
      simp only [hl] at h
      cases hr : enumerableIds lookup rest d1 with
      | error e => simp [hr] at h
      | ok r1 =>
        simp only [hr, Except.ok.injEq] at h
        subst h
        have := ih d1 r1 hr
        split
        · exact this.cons₂ _
        · exact this.cons _

/-- For a lookup that succeeds and does not read the descriptor handed in, the
selection is a filter. -/
theorem enumerableIds_filter (f : jsid → PropertyDescriptor)
    (lookup : jsid → PropertyDescriptor → Except Error PropertyDescriptor)
    (hf : ∀ id d, lookup id d = .ok (f id)) :
    ∀ (l : List jsid) (d : PropertyDescriptor),
      enumerableIds lookup l d =
        .ok (l.filter (fun id => (f id).obj.isSome && hasAttr (f id).attrs JSPROP_ENUMERATE)) := by
  intro l
  induction l with
  | nil => intro d; rfl
  | cons id rest ih =>
    intro d
    simp only [enumerableIds, hf, ih, List.filter_cons]

/-- C28. With `names` the list `getOwnPropertyNames` leaves in the empty vector,
`BaseProxyHandler::keys` returns the ids of `names` at which the
`getOwnPropertyDescriptor` lookup reports a present descriptor with the
enumerable attribute, in their order, and fails when a lookup fails; for
lookups that succeed whatever descriptor they are handed this is the filter of
`names`.  A result is a sub-list of `names`, no longer than it.  After `k`
iterations of the in-place loop the write index is at most the read index `k`
and the slots from `k` on still hold the ids of `names`, so each read sees the
id `getOwnPropertyNames` put there. -/
theorem BaseProxyHandler_keys_selects (cx : JSContext) (this : ProxyHandler)
    (proxy : ProxyObject) (names : List jsid)
    (hnames : this.getOwnPropertyNames cx proxy [] = .ok names) :
    BaseProxyHandler.keys cx this proxy [] =
      enumerableIds (this.getOwnPropertyDescriptor cx proxy) names PropertyDescriptor.notFound ∧
    (∀ f : jsid → PropertyDescriptor,
      (∀ id d, this.getOwnPropertyDescriptor cx proxy id d = .ok (f id)) →
      BaseProxyHandler.keys cx this proxy [] =
        .ok (names.filter
          (fun id => (f id).obj.isSome && hasAttr (f id).attrs JSPROP_ENUMERATE))) ∧
    (∀ result, BaseProxyHandler.keys cx this proxy [] = .ok result →
      result.Sublist names ∧ result.length ≤ names.length) ∧
    (∀ k s, k ≤ names.length →
      BaseProxyHandler.keys.loop cx this proxy k 0 ⟨names, 0, PropertyDescriptor.notFound⟩ =
        .ok s →
      s.i ≤ k ∧ s.props.length = names.length ∧ s.props.drop k = names.drop k) := by
  have h1 : BaseProxyHandler.keys cx this proxy [] =
      enumerableIds (this.getOwnPropertyDescriptor cx proxy) names
        PropertyDescriptor.notFound := by
    have h := BaseProxyHandler.keys.loop_spec cx this proxy names names.length 0
      ⟨names, 0, PropertyDescriptor.notFound⟩ (Nat.le_refl _) rfl rfl (by omega)
    simp only [List.drop_zero, List.take_length, Nat.zero_add] at h
    unfold BaseProxyHandler.keys
    simp only [hnames]
    revert h
    cases BaseProxyHandler.keys.loop cx this proxy names.length 0
        ⟨names, 0, PropertyDescriptor.notFound⟩ <;>
      cases enumerableIds (this.getOwnPropertyDescriptor cx proxy) names
        PropertyDescriptor.notFound <;> simp
  refine ⟨h1, ?_, ?_, ?_⟩
  · intro f hf
    rw [h1, enumerableIds_filter f _ hf]
  · intro result hr
    rw [h1] at hr
    have hs := enumerableIds_sublist _ _ _ _ hr
    exact ⟨hs, hs.length_le⟩
  · intro k s hk hloop
    have h := BaseProxyHandler.keys.loop_spec cx this proxy names k 0
      ⟨names, 0, PropertyDescriptor.notFound⟩ (Nat.le_refl _) rfl rfl (by omega)
    rw [hloop] at h
    revert h
    cases enumerableIds (this.getOwnPropertyDescriptor cx proxy)
        (List.take k (List.drop 0 names)) PropertyDescriptor.notFound <;> simp
    intro a b c _
    exact ⟨a, b, c⟩

theorem BaseProxyHandler_keys_selects_witness :
    BaseProxyHandler.keys Example.cx Example.direct
      (Example.getting Example.xShown .undefined) [] = .ok [Example.x] :=
  (BaseProxyHandler_keys_selects Example.cx Example.direct
    (Example.getting Example.xShown .undefined) [Example.x, Example.y] rfl).1.trans rfl

/-! ## `DirectProxyHandler`: assignment followed by a read -/

theorem lookup_map_value {props : List (jsid × Shape)} {k : jsid} {s : Shape} (v : Value)
    (h : props.lookup k = some s) :
    (props.map (fun p => if p.1 == k then (p.1, { p.2 with value := v }) else p)).lookup k =
      some { s with value := v } := by
  induction props with
  | nil => simp at h
  | cons hd tl ih =>
    obtain ⟨k', s'⟩ := hd
    simp only [List.map_cons, List.lookup_cons] at h ⊢
    by_cases hk : k = k'
    · subst hk
      simp only [beq_self_eq_true, if_true, List.lookup_cons] at h ⊢
      cases h
      rfl
    · have hne : (k == k') = false := by simpa using hk
      have hne' : (k' == k) = false := by simpa using fun e : k' = k => hk e.symm
      simp only [hne, hne', Bool.false_eq_true, if_false, List.lookup_cons] at h ⊢
      exact ih h

theorem lookup_append_of_none {l1 l2 : List (jsid × Shape)} {k : jsid}
    (h : l1.lookup k = none) : (l1 ++ l2).lookup k = l2.lookup k := by
  induction l1 with
  | nil => rfl
  | cons hd tl ih =>
    obtain ⟨k', s'⟩ := hd
    simp only [List.cons_append, List.lookup_cons] at h ⊢
    split
    · rename_i heq
      simp [heq] at h
    · rename_i hne
      simp only [hne] at h
      exact ih h

theorem hasAttr_accessor_flags {attrs : Nat}
    (h : hasAttr attrs (JSPROP_GETTER ||| JSPROP_SETTER) = false) :
    hasAttr attrs JSPROP_GETTER = false ∧ hasAttr attrs JSPROP_SETTER = false := by
  have h0 : attrs &&& (JSPROP_GETTER ||| JSPROP_SETTER) = 0 := by
    simpa [hasAttr] using h
  have hG : attrs &&& JSPROP_GETTER = 0 := by
    have e : JSPROP_GETTER = (JSPROP_GETTER ||| JSPROP_SETTER) &&& JSPROP_GETTER := by decide
    rw [e, ← Nat.and_assoc, h0, Nat.zero_and]
  have hS : attrs &&& JSPROP_SETTER = 0 := by
    have e : JSPROP_SETTER = (JSPROP_GETTER ||| JSPROP_SETTER) &&& JSPROP_SETTER := by decide
    rw [e, ← Nat.and_assoc, h0, Nat.zero_and]
  simp [hasAttr, hG, hS]

theorem lookupChain_notFound (id : jsid) :
    ∀ (l : List ObjectData) (n : Nat), (lookupChain id l n).obj = none →
      lookupChain id l n = PropertyDescriptor.notFound := by
  intro l
  induction l with
  | nil => intro n _; rfl
  | cons o rest ih =>
    intro n h
    unfold lookupChain at h ⊢
    split
    · rename_i s hs
      simp [hs] at h
    · rename_i hs
      simp only [hs] at h
      exact ih (n + 1) h

theorem JS_GetPropertyDescriptorById_notFound {obj : JSObject} {id : jsid}
    (h : (JS_GetPropertyDescriptorById obj id 0).obj = none) :
    JS_GetPropertyDescriptorById obj id 0 = PropertyDescriptor.notFound :=
  lookupChain_notFound id _ 0 h

theorem JSObject.setGeneric_own_data (cx : JSContext) {obj : JSObject} (receiver : ObjRef)
    {k : jsid} {s : Shape} (v : Value) (strict : Bool)
    (hl : obj.own.props.lookup k = some s)
    (hdata : hasAttr s.attrs (JSPROP_GETTER ||| JSPROP_SETTER) = false)
    (hrw : hasAttr s.attrs JSPROP_READONLY = false) :
    JSObject.setGeneric cx obj receiver k v strict =
      (.ok v,
        { obj with own := { obj.own with props := obj.own.props.map (fun p =>
            if p.1 == k then (p.1, { p.2 with value := v }) else p) } }) := by
  simp only [JSObject.setGeneric, JS_GetPropertyDescriptorById_own 0 hl, hdata, hrw,
    Bool.and_false, Bool.false_eq_true, if_false, beq_self_eq_true, if_true]

theorem JSObject.setGeneric_not_own (cx : JSContext) {obj : JSObject} (receiver : ObjRef)
    {k : jsid} (v : Value) (strict : Bool)
    (hown : obj.own.props.lookup k = none)
    (hdata : hasAttr (JS_GetPropertyDescriptorById obj k 0).attrs
      (JSPROP_GETTER ||| JSPROP_SETTER) = false)
    (hrw : hasAttr (JS_GetPropertyDescriptorById obj k 0).attrs JSPROP_READONLY = false) :
    JSObject.setGeneric cx obj receiver k v strict =
      if !obj.isExtensible then
        (if strict then .error (.reported .JSMSG_OBJECT_NOT_EXTENSIBLE) else .ok v, obj)
      else
        (.ok v,
          { obj with own := { obj.own with props :=
              obj.own.props ++ [(k, ⟨JSPROP_ENUMERATE, .null, .null, v⟩)] } }) := by
  have hne : ((JS_GetPropertyDescriptorById obj k 0).obj == some (.target 0)) = false := by
    have h := HasOwn_eq_isSome obj k
    rw [hown] at h
    exact h
  simp only [JSObject.setGeneric, hdata, hrw, hne, Bool.and_false, Bool.false_eq_true, if_false]

theorem JSObject.getGeneric_own_data (cx : JSContext) (obj : JSObject) (receiver : ObjRef)
    (k : jsid) (s : Shape) (hl : obj.own.props.lookup k = some s)
    (hdata : hasAttr s.attrs (JSPROP_GETTER ||| JSPROP_SETTER) = false) :
    JSObject.getGeneric cx obj receiver k = .ok s.value := by
  obtain ⟨hG, hS⟩ := hasAttr_accessor_flags hdata
  simp [JSObject.getGeneric, JS_GetPropertyDescriptorById_own 0 hl, hG, hS]

/-- C31, as stated: on a target that is not extensible and has no property at
the key, an assignment that is not strict succeeds and stores nothing, and the
read that follows yields undefined. -/
theorem DirectProxyHandler_set_get_counterexample :
    (JS_GetPropertyDescriptorById (Example.trapless (Example.emptyTarget false)).target
      Example.x 0).obj = none ∧
    DirectProxyHandler.set Example.cx (Example.trapless (Example.emptyTarget false)) (.target 0)
      Example.x false (.number 1) = (.ok (.number 1), Example.emptyTarget false) ∧
    DirectProxyHandler.get Example.cx (Example.trapless (Example.emptyTarget false)) (.target 0)
      Example.x .undefined = .ok .undefined :=
  ⟨rfl, rfl, rfl⟩

/-- C31, amended. Through `DirectProxyHandler`, when the lookup of the key on the
target finds a writable data property or nothing, and the property is the
target's own or the target is extensible or the assignment strict: after a
successful `set` of `v` with the target as receiver, the value slot holds `v` and
`get` on the target as `set` left it yields `v`.  Both operations are the
operations of the target (`setGeneric`, `getGeneric`): a proxy with the same
target gives the same result and the same target afterwards. -/
theorem DirectProxyHandler_set_get_roundtrip (cx : JSContext) (proxy : ProxyObject) (k : jsid)
    (strict : Bool) (v vp w : Value) (t : JSObject)
    (hdata : (JS_GetPropertyDescriptorById proxy.target k 0).obj.isSome = true →
      hasAttr (JS_GetPropertyDescriptorById proxy.target k 0).attrs
          (JSPROP_GETTER ||| JSPROP_SETTER) = false ∧
        hasAttr (JS_GetPropertyDescriptorById proxy.target k 0).attrs JSPROP_READONLY = false)
    (hstore : HasOwn proxy.target k = true ∨ proxy.target.isExtensible = true ∨ strict = true)
    (hset : DirectProxyHandler.set cx proxy (.target 0) k strict v = (.ok w, t)) :
    w = v ∧
    DirectProxyHandler.get cx { proxy with target := t } (.target 0) k vp = .ok v ∧
    DirectProxyHandler.set cx proxy (.target 0) k strict v =
      JSObject.setGeneric cx proxy.target (.target 0) k v strict ∧
    DirectProxyHandler.get cx { proxy with target := t } (.target 0) k vp =
      JSObject.getGeneric cx t (.target 0) k ∧
    (∀ p : ProxyObject, p.target = proxy.target →
      DirectProxyHandler.set cx p (.target 0) k strict v = (.ok w, t)) := by
  have hact : ∀ p : ProxyObject, p.target = proxy.target →
      DirectProxyHandler.set cx p (.target 0) k strict v = (.ok w, t) := by
    intro p hp
    rw [← hset]
    simp only [DirectProxyHandler.set, GetProxyTargetObject, hp]
  suffices h : w = v ∧ JSObject.getGeneric cx t (.target 0) k = .ok v from
    ⟨h.1, h.2, rfl, rfl, hact⟩
  simp only [DirectProxyHandler.set, GetProxyTargetObject] at hset
  cases hl : proxy.target.own.props.lookup k with
  | some s =>
    have hd := JS_GetPropertyDescriptorById_own 0 hl
    rw [hd] at hdata
    obtain ⟨hda, hrw⟩ := hdata rfl
    rw [JSObject.setGeneric_own_data cx (.target 0) v strict hl hda hrw] at hset
    simp only [Prod.mk.injEq, Except.ok.injEq] at hset
    obtain ⟨hw, ht⟩ := hset
    subst ht
    refine ⟨hw.symm, ?_⟩
    refine JSObject.getGeneric_own_data cx _ (.target 0) k { s with value := v } ?_ hda
    exact lookup_map_value v hl
  | none =>
    have hnot : HasOwn proxy.target k = false := by
      rw [HasOwn_eq_isSome, hl]; rfl
    have hda : hasAttr (JS_GetPropertyDescriptorById proxy.target k 0).attrs
        (JSPROP_GETTER ||| JSPROP_SETTER) = false ∧
        hasAttr (JS_GetPropertyDescriptorById proxy.target k 0).attrs JSPROP_READONLY = false := by
      cases ho : (JS_GetPropertyDescriptorById proxy.target k 0).obj with
      | some r => exact hdata (by rw [ho]; rfl)
      | none =>
        have e : JS_GetPropertyDescriptorById proxy.target k 0 = PropertyDescriptor.notFound :=
          JS_GetPropertyDescriptorById_notFound ho
        rw [e]
        exact ⟨by decide, by decide⟩
    rw [JSObject.setGeneric_not_own cx (.target 0) v strict hl hda.1 hda.2] at hset
    have hext : proxy.target.isExtensible = true := by
      rcases hstore with hown | hext | hstrict
      · rw [hnot] at hown; cases hown
      · exact hext
      · subst hstrict
        cases he : proxy.target.isExtensible
        · simp [he] at hset
        · rfl
    simp only [hext, Bool.not_true, Bool.false_eq_true, if_false, Prod.mk.injEq,
      Except.ok.injEq] at hset
    obtain ⟨hw, ht⟩ := hset
    subst ht
    refine ⟨hw.symm, ?_⟩
    have hl' : (proxy.target.own.props ++
        [(k, (⟨JSPROP_ENUMERATE, .null, .null, v⟩ : Shape))]).lookup k =
        some ⟨JSPROP_ENUMERATE, .null, .null, v⟩ := by
      rw [lookup_append_of_none hl]
      simp [List.lookup]
    refine JSObject.getGeneric_own_data cx _ (.target 0) k
      ⟨JSPROP_ENUMERATE, .null, .null, v⟩ ?_ ?_
    · exact hl'
    · show hasAttr JSPROP_ENUMERATE (JSPROP_GETTER ||| JSPROP_SETTER) = false
      decide

theorem DirectProxyHandler_set_get_roundtrip_witness :
    DirectProxyHandler.get Example.cx
        { Example.trapless (Example.dataTarget JSPROP_ENUMERATE (.number 1) false) with
          target := Example.dataTarget JSPROP_ENUMERATE (.number 5) false }
        (.target 0) Example.x .undefined = .ok (.number 5) ∧
    DirectProxyHandler.get Example.cx
        { Example.trapless (Example.emptyTarget true) with
          target := Example.dataTarget JSPROP_ENUMERATE (.number 5) true }
        (.target 0) Example.x .undefined = .ok (.number 5) :=
  ⟨(DirectProxyHandler_set_get_roundtrip Example.cx
      (Example.trapless (Example.dataTarget JSPROP_ENUMERATE (.number 1) false)) Example.x false
      (.number 5) .undefined (.number 5) (Example.dataTarget JSPROP_ENUMERATE (.number 5) false)
      (fun _ => ⟨by decide, by decide⟩) (Or.inl rfl) rfl).2.1,
   (DirectProxyHandler_set_get_roundtrip Example.cx
      (Example.trapless (Example.emptyTarget true)) Example.x false
      (.number 5) .undefined (.number 5) (Example.dataTarget JSPROP_ENUMERATE (.number 5) true)
      (fun _ => ⟨by decide, by decide⟩) (Or.inr (Or.inl rfl)) rfl).2.1⟩

/-! ## `defineProperty` without a trap -/

/-- C32. With no `defineProperty` trap on the handler object, the scripted direct
`defineProperty` redefines a non-configurable, non-writable data property with a
new value and succeeds, where `DirectProxyHandler::defineProperty`, on the same
target, key and descriptor, fails with `JSMSG_READ_ONLY` and leaves the target
as it was. -/
theorem TrapDefineOwnProperty_skips_CheckDefineProperty :
    (Example.trapless
      (Example.dataTarget (JSPROP_PERMANENT ||| JSPROP_READONLY) (.number 1) true)).handler.defineProperty =
      .undefined ∧
    ScriptedDirectProxyHandler.defineProperty Example.cx
      (Example.trapless
        (Example.dataTarget (JSPROP_PERMANENT ||| JSPROP_READONLY) (.number 1) true))
      Example.x
      ⟨some .proxy, JSPROP_PERMANENT ||| JSPROP_READONLY, .null, .null, .number 2, 0⟩ =
      (.ok (), Example.dataTarget (JSPROP_PERMANENT ||| JSPROP_READONLY) (.number 2) true) ∧
    DirectProxyHandler.defineProperty Example.cx
      (Example.trapless
        (Example.dataTarget (JSPROP_PERMANENT ||| JSPROP_READONLY) (.number 1) true))
      Example.x
      ⟨some .proxy, JSPROP_PERMANENT ||| JSPROP_READONLY, .null, .null, .number 2, 0⟩ =
      (.error (.reported .JSMSG_READ_ONLY),
        Example.dataTarget (JSPROP_PERMANENT ||| JSPROP_READONLY) (.number 1) true) :=
  ⟨rfl, rfl, rfl⟩

/-! ## The two blocks of `BaseProxyHandler::set` -/

/-- C33. In `BaseProxyHandler::set` the block applied to the descriptor of an own
property and the block applied to the descriptor of an inherited property are
one algorithm: for every descriptor, value, receiver and strict flag they give
the same result and the same calls of the setter and of `defineProperty`. -/
theorem BaseProxyHandler_set_blocks_agree (cx : JSContext) (this : ProxyHandler)
    (proxy : ProxyObject) (receiver : ObjRef) (id : jsid) (strict : Bool)
    (desc : PropertyDescriptor) (vp : Value) :
    BaseProxyHandler.set.ownBlock cx this proxy receiver id strict desc vp =
      BaseProxyHandler.set.inheritedBlock cx this proxy receiver id strict desc vp ∧
    (BaseProxyHandler.set.ownBlock cx this proxy receiver id strict desc vp).result =
      (BaseProxyHandler.set.inheritedBlock cx this proxy receiver id strict desc vp).result ∧
    (BaseProxyHandler.set.ownBlock cx this proxy receiver id strict desc vp).calls =
      (BaseProxyHandler.set.inheritedBlock cx this proxy receiver id strict desc vp).calls := by
  have h : BaseProxyHandler.set.ownBlock cx this proxy receiver id strict desc vp =
      BaseProxyHandler.set.inheritedBlock cx this proxy receiver id strict desc vp := rfl
  exact ⟨h, by rw [h], by rw [h]⟩

/-! ## Honest traps -/

/-- C34. The target has a non-configurable, non-writable data property `x` that
stores 1, and the `get` trap returns 1: `Proxy::get` on the scripted direct
handler fails with `JSMSG_MUST_REPORT_SAME_VALUE`. -/
theorem Proxy_get_rejects_honest_trap :
    jsobj.GetOwnPropertyDescriptor
      (Example.dataTarget (JSPROP_PERMANENT ||| JSPROP_READONLY) (.number 1) true) Example.x =
      ⟨some (.target 0), JSPROP_PERMANENT ||| JSPROP_READONLY, .null, .null, .number 1, 0⟩ ∧
    (Proxy.get Example.cx ScriptedDirectProxyHandler.singleton
      (Example.getting
        (Example.dataTarget (JSPROP_PERMANENT ||| JSPROP_READONLY) (.number 1) true)
        (.number 1))
      .proxy Example.x (.number 1)).out =
      .performed (.error (.reported .JSMSG_MUST_REPORT_SAME_VALUE)) :=
  ⟨rfl, rfl⟩

/-- C35. The target is extensible and has no own property `x`, and the
`getOwnPropertyDescriptor` trap returns a descriptor with configurable true: the
scripted direct `getOwnPropertyDescriptor` fails with `JSMSG_CANT_REPORT_NEW`,
also when entered through `Proxy::getOwnPropertyDescriptor`. -/
theorem getOwnPropertyDescriptor_rejects_new_on_extensible :
    (Example.emptyTarget true).isExtensible = true ∧
    HasOwn (Example.emptyTarget true) Example.x = false ∧
    (Example.dataDesc (.number 1) true true true).configurable = true ∧
    PropDesc.initialize_ (Example.dataDescObject (.number 1) true true true) true =
      .ok (Example.dataDesc (.number 1) true true true) ∧
    ScriptedDirectProxyHandler.getOwnPropertyDescriptor Example.cx
      (Example.describing (Example.emptyTarget true)
        (Example.dataDescObject (.number 1) true true true)) Example.x
      PropertyDescriptor.notFound =
      .error (.reported .JSMSG_CANT_REPORT_NEW) ∧
    (Proxy.getOwnPropertyDescriptor Example.cx ScriptedDirectProxyHandler.singleton
      (Example.describing (Example.emptyTarget true)
        (Example.dataDescObject (.number 1) true true true)) Example.x
      PropertyDescriptor.notFound).out =
      .performed (.error (.reported .JSMSG_CANT_REPORT_NEW)) :=
  ⟨rfl, rfl, rfl, rfl, rfl, rfl⟩

/-! ## The output of `ArrayToIdVector` and of `AppendUnique` -/

theorem ArrayToIdVector.convert_ok_spec (cx : JSContext) (target : JSObject) :
    ∀ (elems : List Value) (i : Nat) (props out : List jsid), props.length = i →
      props.Nodup → ArrayToIdVector.convert cx target elems i props = .ok out →
      out.map some = props.map some ++ elems.map (ValueToId cx) ∧ out.Nodup := by
  intro elems
  induction elems with
  | nil =>
    intro i props out _ hnd h
    simp only [ArrayToIdVector.convert, Except.ok.injEq] at h
    subst h
    exact ⟨by simp, hnd⟩
  | cons v rest ih =>
    intro i props out hlen hnd h
    unfold ArrayToIdVector.convert at h
    cases hv : ValueToId cx v with
    | none => simp [hv] at h
    | some id =>
      simp only [hv] at h
      rw [← hlen, any_range_eq_contains] at h
      by_cases hc : props.contains id = true
      · simp only [hc, if_true] at h
        cases h
      · simp only [hc, Bool.false_eq_true, if_false] at h
        split at h
        · simp at h
        · have hnot : id ∉ props := by simpa using hc
          have hnd' : (props ++ [id]).Nodup := by
            refine List.nodup_append.mpr ⟨hnd, List.nodup_singleton id, ?_⟩
            intro a ha hb
            simp only [List.mem_singleton] at hb
            subst hb
            exact hnot ha
          obtain ⟨h1, h2⟩ := ih (props.length + 1) (props ++ [id]) out (by simp) hnd' h
          refine ⟨?_, h2⟩
          rw [h1]
          simp [hv]

/-- C36. When the scripted direct `ArrayToIdVector` succeeds on an empty output
vector, the vector holds the elements of the returned array converted to
property keys one by one: the same length, the same order, and no key twice. -/
theorem ArrayToIdVector_output (cx : JSContext) (proxy : ProxyObject) (target : JSObject)
    (elems : List Value) (flags : Nat) (out : List jsid)
    (h : ArrayToIdVector cx proxy target (.array elems) [] flags = .ok out) :
    elems.map (ValueToId cx) = out.map some ∧
    out.length = elems.length ∧
    (∀ i : Nat, out[i]? = (elems[i]?).bind (ValueToId cx)) ∧
    out.Nodup := by
  simp only [ArrayToIdVector] at h
  cases hc : ArrayToIdVector.convert cx target elems 0 [] with
  | error e => simp [hc] at h
  | ok props =>
    simp only [hc] at h
    split at h
    · simp at h
    · simp only [Except.ok.injEq] at h
      subst h
      obtain ⟨h1, h2⟩ := ArrayToIdVector.convert_ok_spec cx target elems 0 [] props rfl
        List.nodup_nil hc
      simp only [List.map_nil, List.nil_append] at h1
      have hlen : props.length = elems.length := by
        have := congrArg List.length h1
        simpa using this
      refine ⟨h1.symm, hlen, ?_, h2⟩
      intro i
      have := congrArg (fun l : List (Option jsid) => l[i]?) h1
      simp only [List.getElem?_map] at this
      cases hp : props[i]? with
      | none =>
        cases he : elems[i]? with
        | none => rfl
        | some e => simp [hp, he] at this
      | some k =>
        cases he : elems[i]? with
        | none => simp [hp, he] at this
        | some e =>
          simp only [hp, he, Option.map_some'] at this
          simpa using this

theorem ArrayToIdVector_output_witness :
    ArrayToIdVector Example.cx
        (Example.listing Example.xy [.string "y", .string "x"]) Example.xy
        (.array [.string "y", .string "x"]) [] JSITER_OWNONLY = .ok [Example.y, Example.x] ∧
    [Value.string "y", Value.string "x"].map (ValueToId Example.cx) =
      [Example.y, Example.x].map some ∧
    [Example.y, Example.x].Nodup :=
  ⟨rfl,
   (ArrayToIdVector_output Example.cx
      (Example.listing Example.xy [.string "y", .string "x"]) Example.xy
      [.string "y", .string "x"] JSITER_OWNONLY [Example.y, Example.x] rfl).1,
   (ArrayToIdVector_output Example.cx
      (Example.listing Example.xy [.string "y", .string "x"]) Example.xy
      [.string "y", .string "x"] JSITER_OWNONLY [Example.y, Example.x] rfl).2.2.2⟩

/-- C37. `js::AppendUnique(base, others)` leaves in `base` its content on entry
followed by the elements of `others`, in their order, that equal no element of
that content; when neither vector holds a key twice, neither does the result. -/
theorem AppendUnique_appends_new_in_order (base others : List jsid) :
    AppendUnique base others = base ++ others.filter (fun k => !base.contains k) ∧
    (∀ k, k ∈ others.filter (fun k => !base.contains k) ↔ k ∈ others ∧ ∀ b ∈ base, k ≠ b) ∧
    (base.Nodup → others.Nodup → (AppendUnique base others).Nodup) := by
  have heq := AppendUnique_eq base others
  refine ⟨heq, ?_, ?_⟩
  · intro k
    simp only [List.mem_filter, Bool.not_eq_true', List.contains_eq_any_beq, List.any_eq_false,
      beq_iff_eq]
  · intro hb ho
    rw [heq]
    refine List.nodup_append.mpr ⟨hb, ho.filter _, ?_⟩
    intro a ha hf
    simp only [List.mem_filter, Bool.not_eq_true'] at hf
    have hc : base.contains a = true := by simpa using ha
    rw [hc] at hf
    exact absurd hf.2 (by simp)

theorem AppendUnique_appends_new_in_order_witness :
    AppendUnique [Example.x] [Example.y, Example.x] = [Example.x, Example.y] ∧
    (AppendUnique [Example.x] [Example.y, Example.x]).Nodup :=
  ⟨(AppendUnique_appends_new_in_order [Example.x] [Example.y, Example.x]).1.trans (by decide),
   (AppendUnique_appends_new_in_order [Example.x] [Example.y, Example.x]).2.2
     (by decide) (by decide)⟩

/-! ## Refusal by the policy does not depend on the handler or the proxy -/

theorem AutoEnterPolicy.create_refused {cx : JSContext} {handler : BaseProxyHandler}
    {proxy : ProxyObject} {id : jsid} {act : Action} {rv : Bool} (mayThrow : Bool)
    (h : policyRefuses cx handler proxy id act rv = true) :
    AutoEnterPolicy.create cx handler proxy id act mayThrow = ⟨false, rv⟩ ∧
    AutoEnterPolicy.entered handler = [.enter] := by
  simp only [policyRefuses, Bool.and_eq_true, beq_iff_eq] at h
  simp [AutoEnterPolicy.create, AutoEnterPolicy.entered, h.1, h.2]

/-- C38. When the policy refuses the operation and prescribes `rv`, the result of
`Proxy::has`, `hasOwn`, `get`, `getPropertyDescriptor`, `getOwnPropertyDescriptor`,
`delete_`, `hasInstance`, `call` and `construct` is the same for any two handlers
and any two proxies (whatever the traps, the private value and the target): the
status is `rv` and the outputs are false, false, undefined, the caller's
descriptor with its holder cleared (twice), true, false, undefined and
undefined. -/
theorem denial_noninterference (cx : JSContext) (h1 h2 : ProxyHandler) (p1 p2 : ProxyObject)
    (rv : Bool) (receiver : ObjRef) (id : jsid) (desc : PropertyDescriptor) (bp : Bool)
    (v vp : Value) (vps : List Value) :
    (policyRefuses cx h1.toBaseProxyHandler p1 id .GET rv = true →
      policyRefuses cx h2.toBaseProxyHandler p2 id .GET rv = true →
      (Proxy.has cx h1.toBaseProxyHandler p1 id bp =
          Proxy.has cx h2.toBaseProxyHandler p2 id bp ∧
        Proxy.hasOwn cx h1.toBaseProxyHandler p1 id bp =
          Proxy.hasOwn cx h2.toBaseProxyHandler p2 id bp ∧
        Proxy.get cx h1.toBaseProxyHandler p1 receiver id vp =
          Proxy.get cx h2.toBaseProxyHandler p2 receiver id vp ∧
        Proxy.getPropertyDescriptor cx h1 p1 id desc =
          Proxy.getPropertyDescriptor cx h2 p2 id desc ∧
        Proxy.getOwnPropertyDescriptor cx h1.toBaseProxyHandler p1 id desc =
          Proxy.getOwnPropertyDescriptor cx h2.toBaseProxyHandler p2 id desc) ∧
      (cx.overRecursed = false →
        (Proxy.has cx h1.toBaseProxyHandler p1 id bp).out = .denied rv false ∧
        (Proxy.hasOwn cx h1.toBaseProxyHandler p1 id bp).out = .denied rv false ∧
        (Proxy.get cx h1.toBaseProxyHandler p1 receiver id vp).out = .denied rv .undefined ∧
        (Proxy.getPropertyDescriptor cx h1 p1 id desc).out =
          .denied rv { desc with obj := none } ∧
        (Proxy.getOwnPropertyDescriptor cx h1.toBaseProxyHandler p1 id desc).out =
          .denied rv { desc with obj := none })) ∧
    (policyRefuses cx h1.toBaseProxyHandler p1 id .SET rv = true →
      policyRefuses cx h2.toBaseProxyHandler p2 id .SET rv = true →
      Proxy.delete_ cx h1 p1 id bp = Proxy.delete_ cx h2 p2 id bp ∧
      (cx.overRecursed = false → (Proxy.delete_ cx h1 p1 id bp).out = .denied rv true)) ∧
    (policyRefuses cx h1.toBaseProxyHandler p1 .void .GET rv = true →
      policyRefuses cx h2.toBaseProxyHandler p2 .void .GET rv = true →
      Proxy.hasInstance cx h1 p1 v bp = Proxy.hasInstance cx h2 p2 v bp ∧
      (cx.overRecursed = false →
        (Proxy.hasInstance cx h1 p1 v bp).out = .denied rv false)) ∧
    (policyRefuses cx h1.toBaseProxyHandler p1 .void .CALL rv = true →
      policyRefuses cx h2.toBaseProxyHandler p2 .void .CALL rv = true →
      (Proxy.call cx h1 p1 vps = Proxy.call cx h2 p2 vps ∧
        Proxy.construct cx h1 p1 vps vp = Proxy.construct cx h2 p2 vps vp) ∧
      (cx.overRecursed = false →
        (Proxy.call cx h1 p1 vps).out = .denied rv .undefined ∧
        (Proxy.construct cx h1 p1 vps vp).out = .denied rv .undefined)) := by
  refine ⟨?_, ?_, ?_, ?_⟩
  · intro r1 r2
    obtain ⟨c1, e1⟩ := AutoEnterPolicy.create_refused true r1
    obtain ⟨c2, e2⟩ := AutoEnterPolicy.create_refused true r2
    refine ⟨⟨?_, ?_, ?_, ?_, ?_⟩, ?_⟩
    · simp [Proxy.has, c1, c2, e1, e2, AutoEnterPolicy.allowed, AutoEnterPolicy.returnValue]
    · simp [Proxy.hasOwn, c1, c2, e1, e2, AutoEnterPolicy.allowed, AutoEnterPolicy.returnValue]
    · simp [Proxy.get, c1, c2, e1, e2, AutoEnterPolicy.allowed, AutoEnterPolicy.returnValue]
    · simp [Proxy.getPropertyDescriptor, c1, c2, e1, e2, AutoEnterPolicy.allowed,
        AutoEnterPolicy.returnValue]
    · simp [Proxy.getOwnPropertyDescriptor, c1, c2, e1, e2, AutoEnterPolicy.allowed,
        AutoEnterPolicy.returnValue]
    · intro hrec
      refine ⟨?_, ?_, ?_, ?_, ?_⟩
      · simp [Proxy.has, hrec, c1, AutoEnterPolicy.allowed, AutoEnterPolicy.returnValue]
      · simp [Proxy.hasOwn, hrec, c1, AutoEnterPolicy.allowed, AutoEnterPolicy.returnValue]
      · simp [Proxy.get, hrec, c1, AutoEnterPolicy.allowed, AutoEnterPolicy.returnValue]
      · simp [Proxy.getPropertyDescriptor, hrec, c1, AutoEnterPolicy.allowed,
          AutoEnterPolicy.returnValue]
      · simp [Proxy.getOwnPropertyDescriptor, hrec, c1, AutoEnterPolicy.allowed,
          AutoEnterPolicy.returnValue]
  · intro r1 r2
    obtain ⟨c1, e1⟩ := AutoEnterPolicy.create_refused true r1
    obtain ⟨c2, e2⟩ := AutoEnterPolicy.create_refused true r2
    refine ⟨?_, ?_⟩
    · simp [Proxy.delete_, c1, c2, e1, e2, AutoEnterPolicy.allowed, AutoEnterPolicy.returnValue]
    · intro hrec
      simp [Proxy.delete_, hrec, c1, AutoEnterPolicy.allowed, AutoEnterPolicy.returnValue]
  · intro r1 r2
    obtain ⟨c1, e1⟩ := AutoEnterPolicy.create_refused true r1
    obtain ⟨c2, e2⟩ := AutoEnterPolicy.create_refused true r2
    refine ⟨?_, ?_⟩
    · simp [Proxy.hasInstance, c1, c2, e1, e2, AutoEnterPolicy.allowed,
        AutoEnterPolicy.returnValue]
    · intro hrec
      simp [Proxy.hasInstance, hrec, c1, AutoEnterPolicy.allowed, AutoEnterPolicy.returnValue]
  · intro r1 r2
    obtain ⟨c1, e1⟩ := AutoEnterPolicy.create_refused true r1
    obtain ⟨c2, e2⟩ := AutoEnterPolicy.create_refused true r2
    refine ⟨⟨?_, ?_⟩, ?_⟩
    · simp [Proxy.call, c1, c2, e1, e2, AutoEnterPolicy.allowed, AutoEnterPolicy.returnValue]
    · simp [Proxy.construct, c1, c2, e1, e2, AutoEnterPolicy.allowed,
        AutoEnterPolicy.returnValue]
    · intro hrec
      refine ⟨?_, ?_⟩
      · simp [Proxy.call, hrec, c1, AutoEnterPolicy.allowed, AutoEnterPolicy.returnValue]
      · simp [Proxy.construct, hrec, c1, AutoEnterPolicy.allowed, AutoEnterPolicy.returnValue]

theorem denial_noninterference_witness :
    Proxy.get Example.cx (Example.guarded false false true true []).toBaseProxyHandler
        (Example.getting (Example.dataTarget JSPROP_ENUMERATE (.number 1) true) (.number 2))
        .proxy Example.x .null =
      Proxy.get Example.cx (Example.guarded true false true false [Example.y]).toBaseProxyHandler
        (Example.inheriting (Example.emptyTarget false) Example.xy)
        .proxy Example.x .null ∧
    (Proxy.delete_ Example.cx (Example.guarded false false true true [])
        (Example.getting (Example.dataTarget JSPROP_ENUMERATE (.number 1) true) (.number 2))
        Example.x false).out = .denied true true :=
  ⟨((denial_noninterference Example.cx (Example.guarded false false true true [])
      (Example.guarded true false true false [Example.y])
      (Example.getting (Example.dataTarget JSPROP_ENUMERATE (.number 1) true) (.number 2))
      (Example.inheriting (Example.emptyTarget false) Example.xy)
      true .proxy Example.x PropertyDescriptor.notFound false .undefined .null []).1
      rfl rfl).1.2.2.1,
   ((denial_noninterference Example.cx (Example.guarded false false true true [])
      (Example.guarded true false true false [Example.y])
      (Example.getting (Example.dataTarget JSPROP_ENUMERATE (.number 1) true) (.number 2))
      (Example.inheriting (Example.emptyTarget false) Example.xy)
      true .proxy Example.x PropertyDescriptor.notFound false .undefined .null []).2.1
      rfl rfl).2 rfl⟩

/-! ## The strict flag in the scripted direct `set` -/

/-- C39. With a `set` trap on the handler object, the scripted direct `set` gives
the same outcome for strict true and strict false; a falsy trap result gives
success without any check, and whenever the operation succeeds the value slot
holds the boolean form of the trap result. -/
theorem ScriptedDirectProxyHandler_set_ignores_strict (cx : JSContext) (proxy : ProxyObject)
    (receiver : ObjRef) (id : jsid) (strict : Bool) (vp : Value)
    (invoke : JSObject × Value × Value × ObjRef → Option Value)
    (htrap : proxy.handler.set = .value invoke) :
    ScriptedDirectProxyHandler.set cx proxy receiver id true vp =
      ScriptedDirectProxyHandler.set cx proxy receiver id false vp ∧
    (∀ trapResult, invoke (proxy.target, IdToValue id, vp, receiver) = some trapResult →
      (ToBoolean trapResult = false →
        ScriptedDirectProxyHandler.set cx proxy receiver id strict vp =
          (.ok (.bool false), proxy.target)) ∧
      (∀ w t, ScriptedDirectProxyHandler.set cx proxy receiver id strict vp = (.ok w, t) →
        w = .bool (ToBoolean trapResult) ∧ t = proxy.target)) := by
  refine ⟨?_, ?_⟩
  · simp only [ScriptedDirectProxyHandler.set, GetDirectProxyHandlerObject, htrap]
  · intro trapResult hres
    refine ⟨?_, ?_⟩
    · intro hf
      simp [ScriptedDirectProxyHandler.set, GetDirectProxyHandlerObject, GetProxyTargetObject,
        htrap, hres, hf]
    · intro w t h
      simp only [ScriptedDirectProxyHandler.set, GetDirectProxyHandlerObject,
        GetProxyTargetObject, htrap, hres] at h
      repeat' split at h
      all_goals simp_all

theorem ScriptedDirectProxyHandler_set_ignores_strict_witness :
    ScriptedDirectProxyHandler.set Example.cx
        (Example.setting (Example.dataTarget JSPROP_ENUMERATE (.number 1) true) (.number 0))
        .proxy Example.x true (.number 5) =
      (.ok (.bool false), Example.dataTarget JSPROP_ENUMERATE (.number 1) true) :=
  ((ScriptedDirectProxyHandler_set_ignores_strict Example.cx
      (Example.setting (Example.dataTarget JSPROP_ENUMERATE (.number 1) true) (.number 0))
      .proxy Example.x true (.number 5) (fun _ => some (.number 0)) rfl).2
      (.number 0) rfl).1 rfl

/-! ## The assertions of `ValidateProperty` -/

theorem ValidateProperty.asserted_chain (c5 c6 c7a c7b D dd da p w sv x y : Bool) :
    (if c5 then Except.ok true
      else if c6 then .ok true
      else if c7a then .ok false
      else if c7b then .ok false
      else if (!da && !dd) then .ok true
      else if D != dd then .ok x
      else if D then
        if !dd then .error ValidateProperty.Assertion.step10DescIsData
        else if p then
          if w then .ok false
          else if sv then .ok false
          else .ok true
        else .ok true
      else if !(!D) then .error ValidateProperty.Assertion.step11CurrentIsAccessor
      else if !da then .error ValidateProperty.Assertion.step11DescIsAccessor
      else .ok y) =
    (Except.ok
      (if c5 then true
        else if c6 then true
        else if c7a then false
        else if c7b then false
        else if (!da && !dd) then true
        else if D != dd then x
        else if D then
          if p then
            if w then false
            else if sv then false
            else true
          else true
        else y) : Except ValidateProperty.Assertion Bool) := by
  cases c5 <;> cases c6 <;> cases c7a <;> cases c7b <;> cases D <;> cases dd <;> cases da <;>
    try rfl
  all_goals cases p <;> cases w <;> cases sv <;> rfl

/-- Without an own property at the key the first assertion fails. -/
theorem ValidateProperty.asserted_needs_own :
    ValidateProperty.asserted (Example.emptyTarget true) Example.x
      (Example.getOnly (.object 1 true)) = .error .currentPresent :=
  rfl

/-- C40. When the target has an own property at the key and the reported
descriptor is a descriptor (not the undefined marker), no assertion of
`ValidateProperty` fails: the run with the assertions checked ends with the
result of `ValidateProperty`.  So the reported descriptor is a data descriptor
where the step-10 branch is entered, and the current and the reported descriptor
are accessor descriptors where steps 11-12 are reached.  Of `IsDataDescriptor`
and `IsAccessorDescriptor` exactly one holds for a present descriptor. -/
theorem ValidateProperty_assertions_hold (obj : JSObject) (id : jsid) (desc : PropDesc)
    (hown : HasOwn obj id = true) (hdesc : desc.isUndefined = false) :
    ValidateProperty.asserted obj id desc = .ok (ValidateProperty obj id desc) ∧
    (∀ d : PropertyDescriptor, d.obj.isSome = true →
      (IsDataDescriptor d = true ∧ IsAccessorDescriptor d = false) ∨
      (IsDataDescriptor d = false ∧ IsAccessorDescriptor d = true)) := by
  refine ⟨?_, ?_⟩
  · have hcur : (GetOwnPropertyDescriptor obj id 0).obj.isSome = true := by
      simp only [HasOwn, beq_iff_eq] at hown
      simp [GetOwnPropertyDescriptor, hown]
    simp only [ValidateProperty.asserted, ValidateProperty]
    generalize GetOwnPropertyDescriptor obj id 0 = current at hcur ⊢
    have hA : IsAccessorDescriptor current = !IsDataDescriptor current := by
      simp [IsAccessorDescriptor, IsDataDescriptor, hcur]
    have hg : desc.isGenericDescriptor =
        (!desc.isAccessorDescriptor && !desc.isDataDescriptor) := by
      simp [PropDesc.isGenericDescriptor, hdesc]
    rw [hA, hg, hcur]
    simp only [Bool.not_true, Bool.false_eq_true, if_false]
    exact ValidateProperty.asserted_chain _ _ _ _ _ _ _ _ _ _ _ _
  · intro d hd
    simp only [IsDataDescriptor, IsAccessorDescriptor, hd]
    cases hasAttr d.attrs (JSPROP_GETTER ||| JSPROP_SETTER) <;> simp

theorem ValidateProperty_assertions_hold_witness :
    ValidateProperty.asserted
        (Example.accessorTarget JSPROP_PERMANENT (.object 1 true) (.object 2 true)) Example.x
        (Example.getOnly (.object 3 true)) = .ok false ∧
    ValidateProperty.asserted
        (Example.dataTarget (JSPROP_PERMANENT ||| JSPROP_READONLY) (.number 1) true) Example.x
        (Example.valueOnly (.number 2)) = .ok false :=
  ⟨(ValidateProperty_assertions_hold
      (Example.accessorTarget JSPROP_PERMANENT (.object 1 true) (.object 2 true)) Example.x
      (Example.getOnly (.object 3 true)) rfl rfl).1.trans rfl,
   (ValidateProperty_assertions_hold
      (Example.dataTarget (JSPROP_PERMANENT ||| JSPROP_READONLY) (.number 1) true) Example.x
      (Example.valueOnly (.number 2)) rfl rfl).1.trans rfl⟩

end js
